import Mathlib

/-!
# OONF netlink transport, RTNETLINK feedback tracker and nl80211 listener

A shallow embedding of `src-plugins/subsystems/os_linux/os_system_linux.c`
(with the inline helpers of `subsystems/oonf_socket.h` and
`subsystems/os_linux/os_system_linux.h`), of the query iterator and the reply
handlers of `src-plugins/nl80211_listener/nl80211_listener.c`, and of the
legacy core (`src-api/core/olsr_subsystem.h`, `src-api/subsystems/olsr_socket.h`,
`src/core/os_linux/os_system_linux.c`, in the namespace `core` where a name is
used twice), and theorems about them.

Conventions of the embedding.

* C state is passed explicitly: a function that mutates `*nl` takes the old
  `os_system_netlink` and returns the new one; the process-wide `_seq_used`
  is an explicit argument and result.
* Callbacks are not executed; every call through a callback slot is recorded,
  in call order, as a `Callback` (transport) or as a pair
  `(operation, errno)` (address tracker).
* Results of system calls (`sendmsg`, `recvmsg`, `setsockopt`) and of
  `realloc` are arguments of the function that performs the call.
* A parsed attribute is given by the memory that starts at its payload; a
  table of attributes by the attributes that are present.
* Message memory is a list of bytes; multi-byte fields are little endian, the
  byte order of the hosts the daemon is built for.
* The interface registry is the list of its entries in ascending order of
  their names; a pointer to an entry is its rank in that list.
-/

namespace OONF

/-! ## Constants of the kernel interface -/

/-- NLMSG_NOOP of linux/netlink.h. -/
def NLMSG_NOOP : Nat := 1

/-- NLMSG_ERROR of linux/netlink.h. -/
def NLMSG_ERROR : Nat := 2

/-- NLMSG_DONE of linux/netlink.h. -/
def NLMSG_DONE : Nat := 3

/-- NLM_F_REQUEST of linux/netlink.h. -/
def NLM_F_REQUEST : Nat := 1

/-- NLM_F_MULTI of linux/netlink.h. -/
def NLM_F_MULTI : Nat := 2

/-- NLM_F_ACK of linux/netlink.h. -/
def NLM_F_ACK : Nat := 4

/-- INT32_MAX of stdint.h. -/
def INT32_MAX : Nat := 2147483647

/-- UIO_MAXIOV of linux/uio.h, used by the transport as the maximum size of a
single request. -/
def UIO_MAXIOV : Nat := 1024

/-- NLMSG_ALIGNTO of linux/netlink.h (an unsigned int). -/
def NLMSG_ALIGNTO : Nat := 4

/-- NLA_HDRLEN of linux/netlink.h: `(int) NLA_ALIGN(sizeof(struct nlattr))`. -/
def NLA_HDRLEN : Int := 4

/-- OS_SYSTEM_NETLINK_TIMEOUT of os_system_linux.h, in milliseconds. -/
def OS_SYSTEM_NETLINK_TIMEOUT : Nat := 1000

/-! ## Machine integers -/

/-- Value of an expression of type `int` (32 bit, two's complement) whose
mathematical value is `x`. -/
def wrap_int32 (x : Int) : Int := (x + 2147483648) % 4294967296 - 2147483648

/-- Conversion of an `int` to `size_t` (64 bit). -/
def int_to_size_t (x : Int) : Nat := (x % 18446744073709551616).toNat

/-- NLMSG_ALIGN of linux/netlink.h:
`((len) + NLMSG_ALIGNTO - 1) & ~(NLMSG_ALIGNTO - 1)` in 32 bit unsigned
arithmetic. -/
def NLMSG_ALIGN (len : Nat) : Nat :=
  ((len + NLMSG_ALIGNTO - 1) % 4294967296) &&& (4294967295 - (NLMSG_ALIGNTO - 1))

/-! ## Message memory -/

/-- Memory holding a message: a list of bytes, the first one at the address
of the `struct nlmsghdr`. -/
abbrev Mem := List Nat

/-- Read one byte; bytes outside of the list read as 0. -/
def get_u8 (m : Mem) (off : Nat) : Nat := m.getD off 0 % 256

/-- Read a 16 bit field. -/
def get_u16 (m : Mem) (off : Nat) : Nat := get_u8 m off + 256 * get_u8 m (off + 1)

/-- Read a 32 bit field. -/
def get_u32 (m : Mem) (off : Nat) : Nat := get_u16 m off + 65536 * get_u16 m (off + 2)

/-- Write one byte (the value is truncated to 8 bits). -/
def set_u8 (m : Mem) (off : Nat) (v : Nat) : Mem := m.set off (v % 256)

/-- Write a 16 bit field (the value is truncated to 16 bits). -/
def set_u16 (m : Mem) (off : Nat) (v : Nat) : Mem :=
  set_u8 (set_u8 m off v) (off + 1) (v / 256)

/-- Write a 32 bit field (the value is truncated to 32 bits). -/
def set_u32 (m : Mem) (off : Nat) (v : Nat) : Mem :=
  set_u16 (set_u16 m off v) (off + 2) (v / 65536)

/-- Copy `len` bytes of `src` to offset `off` of `dst`, as memcpy does. -/
def memcpy (dst : Mem) (off : Nat) (src : Mem) : Nat → Mem
  | 0 => dst
  | len + 1 => set_u8 (memcpy dst off src len) (off + len) (get_u8 src len)

/-- Field nlmsg_len of the `struct nlmsghdr` at the start of `m` (offset 0). -/
def get_nlmsg_len (m : Mem) : Nat := get_u32 m 0

/-- Field nlmsg_type (offset 4). -/
def get_nlmsg_type (m : Mem) : Nat := get_u16 m 4

/-- Field nlmsg_flags (offset 6). -/
def get_nlmsg_flags (m : Mem) : Nat := get_u16 m 6

/-- Field nlmsg_seq (offset 8). -/
def get_nlmsg_seq (m : Mem) : Nat := get_u32 m 8

/-- Field nlmsg_pid (offset 12). -/
def get_nlmsg_pid (m : Mem) : Nat := get_u32 m 12

/-! ## Received messages and callbacks -/

/-- One message of a received block as the receive loop reads it: the fields
of its `struct nlmsghdr` and its payload read as `struct nlmsgerr` (consulted
for type ERROR only): the nested error code `error` and the sequence number
`msg.nlmsg_seq` of the embedded request header. A block is the list of the
messages that NLMSG_OK and NLMSG_NEXT enumerate. -/
structure nlmsghdr where
  nlmsg_len : Nat
  nlmsg_type : Nat
  nlmsg_flags : Nat
  nlmsg_seq : Nat
  nlmsg_pid : Nat
  err_error : Int
  err_msg_nlmsg_seq : Nat
deriving DecidableEq, Repr

/-- A call through one of the callback slots of a handler. `null_call` records
a call through a slot that is NULL: the source makes some calls without
testing the pointer. -/
inductive Callback where
  | cb_message (hdr : nlmsghdr)
  | cb_error (seq : Nat) (error : Int)
  | cb_done (seq : Nat)
  | cb_timeout
  | null_call
deriving DecidableEq, Repr

/-! ## Socket entry, timer entry, handler -/

/-- The `struct oonf_socket_entry` of subsystems/oonf_socket.h. -/
structure oonf_socket_entry where
  fd : Int
  event_read : Bool
  event_write : Bool
deriving DecidableEq, Repr

/-- Inline function of subsystems/oonf_socket.h. -/
def oonf_socket_set_read (entry : oonf_socket_entry) (event_read : Bool) :
    oonf_socket_entry :=
  { entry with event_read := event_read }

/-- Inline function of subsystems/oonf_socket.h. -/
def oonf_socket_set_write (entry : oonf_socket_entry) (event_write : Bool) :
    oonf_socket_entry :=
  { entry with event_write := event_write }

/-- Modelled from the spec: the timer entry (subsystems/oonf_timer.h is not
part of the sources). Only the running flag is kept; no code embedded here
reads the deadline. -/
structure oonf_timer_instance where
  running : Bool
deriving DecidableEq, Repr

/-- Modelled from the spec: `set(instance, deadline_ms)` arms the timer. -/
def oonf_timer_set (t : oonf_timer_instance) (_rel_time : Nat) : oonf_timer_instance :=
  { t with running := true }

/-- Modelled from the spec: `stop(instance)` removes the pending firing. -/
def oonf_timer_stop (t : oonf_timer_instance) : oonf_timer_instance :=
  { t with running := false }

/-- Modelled from the spec: `is_active(instance)`. -/
def oonf_timer_is_active (t : oonf_timer_instance) : Bool := t.running

/-- The `struct os_system_netlink` of os_system_linux.h, as far as the code
embedded here uses it. `out` is the content of the autobuf, `in_seq` is
`nl->in->nlmsg_seq`, the callback slots record whether the pointer is set. -/
structure os_system_netlink where
  socket : oonf_socket_entry
  out : Mem
  in_seq : Nat
  in_len : Nat
  msg_in_transit : Int
  cb_message : Bool
  cb_error : Bool
  cb_timeout : Bool
  cb_done : Bool
  timeout : oonf_timer_instance
deriving DecidableEq, Repr

/-- Modelled from the spec: `abuf_memcpy` of common/autobuf.h appends `len`
bytes read at `p` to the buffer. -/
def abuf_memcpy (out : Mem) (p : Mem) (len : Nat) : Mem :=
  out ++ (List.range len).map (fun i => get_u8 p i)

/-- Modelled from the spec: `abuf_clear` of common/autobuf.h empties the
buffer. -/
def abuf_clear (_out : Mem) : Mem := []

/-- A call of `nl->cb_done(seq)` that the source makes without testing the
pointer. -/
def call_cb_done (nl : os_system_netlink) (seq : Nat) : Callback :=
  if nl.cb_done then Callback.cb_done seq else Callback.null_call

/-- A call of `nl->cb_error(seq, err)` that the source makes without testing
the pointer. -/
def call_cb_error (nl : os_system_netlink) (seq : Nat) (err : Int) : Callback :=
  if nl.cb_error then Callback.cb_error seq err else Callback.null_call

/-! ## Transport operations -/

/-- Result of `os_system_netlink_send`: the handler, the process-wide counter
`_seq_used`, the caller's message memory and the returned `int`. -/
structure SendResult where
  nl : os_system_netlink
  _seq_used : Nat
  nl_hdr : Mem
  ret : Int
deriving DecidableEq, Repr

/-- The function `os_system_netlink_send` (os_system_linux.c, line 339). -/
def os_system_netlink_send (nl : os_system_netlink) (_seq_used : Nat) (nl_hdr : Mem) :
    SendResult :=
  let _seq_used := ((_seq_used + 1) % 4294967296) &&& INT32_MAX
  let nl_hdr := set_u32 nl_hdr 8 _seq_used
  let nl_hdr := set_u16 nl_hdr 6 (get_nlmsg_flags nl_hdr ||| (NLM_F_ACK ||| NLM_F_MULTI))
  let out := abuf_memcpy nl.out nl_hdr (get_nlmsg_len nl_hdr)
  let socket := oonf_socket_set_write nl.socket true
  { nl := { nl with out := out, socket := socket },
    _seq_used := _seq_used,
    nl_hdr := nl_hdr,
    ret := wrap_int32 _seq_used }

/-- The function `os_system_netlink_addreq` (os_system_linux.c, line 422):
returns the message memory and the returned `int`. -/
def os_system_netlink_addreq (n : Mem) (type : Int) (data : Mem) (len : Int) :
    Mem × Int :=
  let aligned_msg_len : Nat := NLMSG_ALIGN (get_nlmsg_len n)
  let aligned_attr_len : Nat := int_to_size_t (NLA_HDRLEN + len)
  if (aligned_msg_len + aligned_attr_len) % 18446744073709551616 > UIO_MAXIOV then
    (n, -1)
  else
    let n := set_u16 n (aligned_msg_len + 2) (int_to_size_t type)
    let n := set_u16 n aligned_msg_len aligned_attr_len
    let n := set_u32 n 0 (aligned_msg_len + aligned_attr_len)
    let n := if len ≠ 0 then
        memcpy n (aligned_msg_len + int_to_size_t NLA_HDRLEN) data (int_to_size_t len)
      else n
    (n, 0)

/-- The function `_cb_handle_netlink_timeout` (line 518). -/
def _cb_handle_netlink_timeout (nl : os_system_netlink) :
    os_system_netlink × List Callback :=
  ({ nl with msg_in_transit := 0 },
   if nl.cb_timeout then [Callback.cb_timeout] else [])

/-- The function `_flush_netlink_buffer` (line 532); `ret` and `err` are the
result of sendmsg and the errno it left. -/
def _flush_netlink_buffer (nl : os_system_netlink) (ret : Int) (err : Int) :
    os_system_netlink × List Callback :=
  if ret ≤ 0 then
    (nl, [call_cb_error nl nl.in_seq err])
  else
    ({ nl with
        out := abuf_clear nl.out,
        socket := oonf_socket_set_write nl.socket false,
        msg_in_transit := nl.msg_in_transit + 1,
        timeout := oonf_timer_set nl.timeout OS_SYSTEM_NETLINK_TIMEOUT }, [])

/-- The function `_netlink_job_finished` (line 570). -/
def _netlink_job_finished (nl : os_system_netlink) : os_system_netlink :=
  let nl := if nl.msg_in_transit > 0 then
      { nl with msg_in_transit := nl.msg_in_transit - 1 } else nl
  if nl.msg_in_transit = 0 then
    { nl with timeout := oonf_timer_stop nl.timeout }
  else nl

/-- The function `_handle_nl_err` (line 819). The negation `-err->error` is
an `int` negation. -/
def _handle_nl_err (nl : os_system_netlink) (nh : nlmsghdr) :
    os_system_netlink × List Callback :=
  let calls :=
    if nh.err_error ≠ 0 then
      (if nl.cb_error then
        [Callback.cb_error nh.err_msg_nlmsg_seq (wrap_int32 (-nh.err_error))] else [])
    else
      (if nl.cb_done then [Callback.cb_done nh.err_msg_nlmsg_seq] else [])
  (_netlink_job_finished nl, calls)

/-- The `switch (nh->nlmsg_type)` of `_netlink_handler` (line 679): the new
handler, the new `trigger_is_done` and the calls made. -/
def _netlink_handler_switch (nl : os_system_netlink) (trigger_is_done : Bool)
    (nh : nlmsghdr) : os_system_netlink × Bool × List Callback :=
  if nh.nlmsg_type = NLMSG_NOOP then (nl, trigger_is_done, [])
  else if nh.nlmsg_type = NLMSG_DONE then (nl, true, [])
  else if nh.nlmsg_type = NLMSG_ERROR then
    let r := _handle_nl_err nl nh
    (r.1, false, r.2)
  else (nl, trigger_is_done, if nl.cb_message then [Callback.cb_message nh] else [])

/-- Local state of the header loop of `_netlink_handler` together with the
calls it made, oldest first. -/
structure RcvState where
  nl : os_system_netlink
  current_seq : Nat
  trigger_is_done : Bool
  calls : List Callback
deriving DecidableEq, Repr

/-- The loop `for (nh = nl->in; NLMSG_OK (nh, len); nh = NLMSG_NEXT (nh, len))`
of `_netlink_handler` (line 665). `first` is the test `nh == nl->in`. -/
def _netlink_handler_loop (nl : os_system_netlink) (first : Bool) (current_seq : Nat)
    (trigger_is_done : Bool) : List nlmsghdr → RcvState
  | [] => { nl := nl, current_seq := current_seq, trigger_is_done := trigger_is_done,
            calls := [] }
  | nh :: rest =>
    let current_seq := if first then nh.nlmsg_seq else current_seq
    let flush : Bool := current_seq != nh.nlmsg_seq && trigger_is_done
    let calls1 := if flush then [call_cb_done nl current_seq] else []
    let trigger_is_done := if flush then false else trigger_is_done
    let r := _netlink_handler_switch nl trigger_is_done nh
    let s := _netlink_handler_loop r.1 false current_seq r.2.1 rest
    { s with calls := calls1 ++ r.2.2 ++ s.calls }

/-- The end of `_netlink_handler` (lines 702 to 711): the emission of a
deferred done that is still pending when the block ends, and the re-arming of
a timeout that is still active. Returns the handler and the calls made. -/
def _netlink_handler_end (s : RcvState) : os_system_netlink × List Callback :=
  let r : os_system_netlink × List Callback :=
    if s.trigger_is_done then
      let nl1 := { s.nl with timeout := oonf_timer_stop s.nl.timeout }
      (_netlink_job_finished nl1, [call_cb_done nl1 s.current_seq])
    else (s.nl, [])
  let nl2 := if oonf_timer_is_active r.1.timeout then
      { r.1 with timeout := oonf_timer_set r.1.timeout OS_SYSTEM_NETLINK_TIMEOUT }
    else r.1
  (nl2, r.2)

/-- The received block has been read to `nl->in`: `nl->in->nlmsg_seq` is the
sequence number of its first header. -/
def rcv_store (nl : os_system_netlink) : List nlmsghdr → os_system_netlink
  | [] => nl
  | nh :: _ => { nl with in_seq := nh.nlmsg_seq }

/-- The part of `_netlink_handler` that follows a successful read (lines 661
to 711): `trigger_is_done = false`, `current_seq` still 0, the header loop
over the received block and the end of the function. -/
def _netlink_handler_rcv (nl : os_system_netlink) (block : List nlmsghdr) :
    os_system_netlink × List Callback :=
  let s := _netlink_handler_loop (rcv_store nl block) true 0 false block
  let r := _netlink_handler_end s
  (r.1, s.calls ++ r.2)

/-- Modelled from the spec: the timer wheel (subsystems/oonf_timer.c is not
part of the sources) fires a running one-shot timer: the pending firing is
consumed and the callback of the timer class, `_cb_handle_netlink_timeout`,
runs. A timer that is not running does not fire. -/
def oonf_timer_fire (nl : os_system_netlink) : os_system_netlink × List Callback :=
  if nl.timeout.running then
    _cb_handle_netlink_timeout { nl with timeout := oonf_timer_stop nl.timeout }
  else (nl, [])

/-- A statically allocated handler before `os_system_netlink_add`: the
callback slots as given, everything else zero. -/
def static_handler (cb_message cb_error cb_timeout cb_done : Bool) : os_system_netlink :=
  { socket := { fd := 0, event_read := false, event_write := false },
    out := [], in_seq := 0, in_len := 0, msg_in_transit := 0,
    cb_message := cb_message, cb_error := cb_error, cb_timeout := cb_timeout,
    cb_done := cb_done, timeout := { running := false } }

/-- The success path of `os_system_netlink_add` (line 267): `fd` is the new
socket and `pagesize` the result of getpagesize. -/
def os_system_netlink_add (nl : os_system_netlink) (fd : Int) (pagesize : Nat) :
    os_system_netlink :=
  { nl with
      socket := { nl.socket with fd := fd, event_read := true },
      out := [],
      in_seq := 0,
      in_len := pagesize }

/-! ## The transport as a state machine -/

/-- State of the transport: one handler and the process-wide counter. -/
structure Transport where
  nl : os_system_netlink
  _seq_used : Nat
deriving DecidableEq, Repr

/-- What can happen to a handler: a send by its owner, a writable event with
the result of sendmsg, a readable event delivering a block, a firing of the
timeout. -/
inductive TransportOp where
  | send (nl_hdr : Mem)
  | writable (ret : Int) (err : Int)
  | readable (block : List nlmsghdr)
  | timer_fires
deriving DecidableEq, Repr

/-- One operation on the transport and the callbacks it invokes. -/
def transport_step (t : Transport) : TransportOp → Transport × List Callback
  | TransportOp.send nl_hdr =>
    let r := os_system_netlink_send t.nl t._seq_used nl_hdr
    ({ nl := r.nl, _seq_used := r._seq_used }, [])
  | TransportOp.writable ret err =>
    let r := _flush_netlink_buffer t.nl ret err
    ({ t with nl := r.1 }, r.2)
  | TransportOp.readable block =>
    let r := _netlink_handler_rcv t.nl block
    ({ t with nl := r.1 }, r.2)
  | TransportOp.timer_fires =>
    let r := oonf_timer_fire t.nl
    ({ t with nl := r.1 }, r.2)

/-- A sequence of operations, with all callbacks invoked, oldest first. -/
def transport_run (t : Transport) : List TransportOp → Transport × List Callback
  | [] => (t, [])
  | op :: ops =>
    let r := transport_step t op
    let s := transport_run r.1 ops
    (s.1, r.2 ++ s.2)

/-- A freshly opened handler with all four callbacks set. -/
def fresh_transport : Transport :=
  { nl := os_system_netlink_add (static_handler true true true true) 3 4096,
    _seq_used := 0 }

/-! ## RTNETLINK feedback tracker -/

/-- Modelled from the spec: the pending address operation
(`struct os_system_address` of subsystems/os_system.h, which is not part of
the sources): target interface index, address (family, bytes) and prefix
length, scope,
set/remove flag, completion callback (whether the pointer is set) and the
assigned sequence number `_internal.nl_seq`. `id` stands for the address of
the C object, which is what the intrusive list links. -/
structure os_system_address where
  id : Nat
  if_index : Nat
  address_type : Nat
  address : Mem
  prefix_length : Nat
  scope : Nat
  set : Bool
  cb_finished : Bool
  nl_seq : Nat
deriving DecidableEq, Repr

/-- Modelled from the spec: `list_is_node_added` of common/list.h (not part
of the sources), for a node that is only ever linked to the list `head`. -/
def list_is_node_added (head : List os_system_address) (node : Nat) : Bool :=
  head.any (fun a => a.id == node)

/-- Modelled from the spec: `list_remove` of common/list.h detaches the node
and keeps the order of the others. -/
def list_remove (head : List os_system_address) (node : Nat) : List os_system_address :=
  head.filter (fun a => a.id != node)

/-- The function `_address_finished` (line 803): the new feedback list and the
calls of completion callbacks, each recorded as (operation, errno). -/
def _address_finished (_rtnetlink_feedback : List os_system_address)
    (addr : os_system_address) (error : Int) :
    List os_system_address × List (Nat × Int) :=
  if list_is_node_added _rtnetlink_feedback addr.id then
    (list_remove _rtnetlink_feedback addr.id,
     if addr.cb_finished then [(addr.id, error)] else [])
  else (_rtnetlink_feedback, [])

/-- The function `os_system_ifaddr_interrupt` (line 503). `addr` is the
pointer passed by the caller; the object it points to is linked to the
feedback list exactly when `list_is_node_added` holds. -/
def os_system_ifaddr_interrupt (_rtnetlink_feedback : List os_system_address)
    (addr : Nat) : List os_system_address × List (Nat × Int) :=
  match _rtnetlink_feedback.find? (fun a => a.id == addr) with
  | some a =>
    (list_remove _rtnetlink_feedback a.id,
     if a.cb_finished then [(a.id, -1)] else [])
  | none => (_rtnetlink_feedback, [])

/-- The function `_cb_rtnetlink_error` (line 750): the first operation with
the sequence number is finished, then the loop is left. -/
def _cb_rtnetlink_error (_rtnetlink_feedback : List os_system_address)
    (seq : Nat) (error : Int) : List os_system_address × List (Nat × Int) :=
  match _rtnetlink_feedback.find? (fun a => seq == a.nl_seq) with
  | some addr => _address_finished _rtnetlink_feedback addr error
  | none => (_rtnetlink_feedback, [])

/-- The function `_cb_rtnetlink_done` (line 783). -/
def _cb_rtnetlink_done (_rtnetlink_feedback : List os_system_address)
    (seq : Nat) : List os_system_address × List (Nat × Int) :=
  match _rtnetlink_feedback.find? (fun a => seq == a.nl_seq) with
  | some addr => _address_finished _rtnetlink_feedback addr 0
  | none => (_rtnetlink_feedback, [])

/-- Outcome of code that walks the feedback list: the list, the calls of
completion callbacks in call order, and whether the code faults, that is,
follows a link that `list_remove` has cleared. Nothing runs after a fault. -/
structure FeedbackOutcome where
  _rtnetlink_feedback : List os_system_address
  calls : List (Nat × Int)
  fault : Bool
deriving DecidableEq, Repr

/-- Modelled from the spec: `list_for_each_element` of common/list.h (not part
of the sources) with the body of `_cb_rtnetlink_timeout`. It is the plain
traversal; the traversal that is safe against deletion is a macro of its own,
`list_for_each_element_safe` (olsr_socket.h, line 74), and the other loops
over this list leave with `break` after `_address_finished`. The plain
traversal executes the body for the entries in list order and, after the body,
goes on from the links of the current entry. `list_remove` clears the links of
the entry it detaches (`list_is_node_added` reads them), so when the body has
detached the current entry the traversal follows a cleared link and faults.
The first argument holds the entries from the current one on. -/
def _cb_rtnetlink_timeout_loop :
    List os_system_address → List os_system_address → FeedbackOutcome
  | [], _rtnetlink_feedback =>
    { _rtnetlink_feedback := _rtnetlink_feedback, calls := [], fault := false }
  | addr :: rest, _rtnetlink_feedback =>
    if list_is_node_added (_address_finished _rtnetlink_feedback addr (-1)).1 addr.id then
      { _rtnetlink_feedback :=
          (_cb_rtnetlink_timeout_loop rest
            (_address_finished _rtnetlink_feedback addr (-1)).1)._rtnetlink_feedback,
        calls := (_address_finished _rtnetlink_feedback addr (-1)).2 ++
          (_cb_rtnetlink_timeout_loop rest
            (_address_finished _rtnetlink_feedback addr (-1)).1).calls,
        fault :=
          (_cb_rtnetlink_timeout_loop rest
            (_address_finished _rtnetlink_feedback addr (-1)).1).fault }
    else
      { _rtnetlink_feedback := (_address_finished _rtnetlink_feedback addr (-1)).1,
        calls := (_address_finished _rtnetlink_feedback addr (-1)).2,
        fault := true }

/-- The function `_cb_rtnetlink_timeout` (line 768). -/
def _cb_rtnetlink_timeout (_rtnetlink_feedback : List os_system_address) :
    FeedbackOutcome :=
  _cb_rtnetlink_timeout_loop _rtnetlink_feedback _rtnetlink_feedback

/-- What the tracker can be told: the three callbacks of the RTNETLINK handler
and an interrupt by the owner of an operation. -/
inductive FeedbackEvent where
  | done (seq : Nat)
  | error (seq : Nat) (error : Int)
  | timeout
  | interrupt (addr : Nat)
deriving DecidableEq, Repr

/-- One event on the feedback list. -/
def feedback_step (fb : List os_system_address) : FeedbackEvent → FeedbackOutcome
  | FeedbackEvent.done seq =>
    { _rtnetlink_feedback := (_cb_rtnetlink_done fb seq).1,
      calls := (_cb_rtnetlink_done fb seq).2, fault := false }
  | FeedbackEvent.error seq error =>
    { _rtnetlink_feedback := (_cb_rtnetlink_error fb seq error).1,
      calls := (_cb_rtnetlink_error fb seq error).2, fault := false }
  | FeedbackEvent.timeout => _cb_rtnetlink_timeout fb
  | FeedbackEvent.interrupt addr =>
    { _rtnetlink_feedback := (os_system_ifaddr_interrupt fb addr).1,
      calls := (os_system_ifaddr_interrupt fb addr).2, fault := false }

/-- A sequence of events, with all completion callbacks invoked, oldest
first. The events that follow a fault do not happen. -/
def feedback_run (fb : List os_system_address) : List FeedbackEvent → FeedbackOutcome
  | [] => { _rtnetlink_feedback := fb, calls := [], fault := false }
  | ev :: evs =>
    if (feedback_step fb ev).fault then feedback_step fb ev
    else
      { _rtnetlink_feedback :=
          (feedback_run (feedback_step fb ev)._rtnetlink_feedback evs)._rtnetlink_feedback,
        calls := (feedback_step fb ev).calls ++
          (feedback_run (feedback_step fb ev)._rtnetlink_feedback evs).calls,
        fault := (feedback_run (feedback_step fb ev)._rtnetlink_feedback evs).fault }

/-! ## Vocabulary of the statements: calls and headers -/

/-- A data header: its type is none of NOOP, DONE, ERROR. -/
def nlmsghdr.is_data (nh : nlmsghdr) : Bool :=
  nh.nlmsg_type != NLMSG_NOOP && nh.nlmsg_type != NLMSG_DONE &&
    nh.nlmsg_type != NLMSG_ERROR

/-- The call is a terminating callback for sequence `S`: on-ack/done(S) or
on-error(S, _). -/
def Callback.terminates (S : Nat) : Callback → Bool
  | Callback.cb_done seq => seq == S
  | Callback.cb_error seq _ => seq == S
  | _ => false

/-- The call is an on-message for a header with sequence `S`. -/
def Callback.is_message_of (S : Nat) : Callback → Bool
  | Callback.cb_message hdr => hdr.nlmsg_seq == S
  | _ => false

/-- The call is a terminating callback: on-ack/done or on-error. -/
def Callback.is_terminating : Callback → Bool
  | Callback.cb_done _ => true
  | Callback.cb_error _ _ => true
  | _ => false

/-- The headers passed to on-message, in call order. -/
def messages_of : List Callback → List nlmsghdr
  | [] => []
  | Callback.cb_message hdr :: rest => hdr :: messages_of rest
  | _ :: rest => messages_of rest

/-- Following the words of the spec, not the code: the in-transit number as
"the number of requests that have been flushed to the kernel and for which no
terminating callback has fired yet", counted along a run from `t`. `queued`
is the number of sends whose message is still in the outbound buffer and `n`
the number so far; a timeout abandons the outstanding requests. -/
def spec_outstanding (t : Transport) (queued : Nat) (n : Int) : List TransportOp → Int
  | [] => n
  | op :: ops =>
    let r := transport_step t op
    let fired : Int := ((r.2.filter Callback.is_terminating).length : Nat)
    match op with
    | TransportOp.send _ => spec_outstanding r.1 (queued + 1) n ops
    | TransportOp.writable ret _ =>
      if ret > 0 then spec_outstanding r.1 0 (n + queued) ops
      else spec_outstanding r.1 queued n ops
    | TransportOp.readable _ => spec_outstanding r.1 queued (n - fired) ops
    | TransportOp.timer_fires =>
      spec_outstanding r.1 queued (if t.nl.timeout.running then 0 else n) ops

/-! ## Vocabulary of the statements: predicates and measures -/

/-- The fields of a handler that neither a finished job nor a receive pass
touches: outbound buffer, socket entry and callback slots. -/
def same_frame (a b : os_system_netlink) : Prop :=
  a.out = b.out ∧ a.socket = b.socket ∧ a.cb_message = b.cb_message ∧
    a.cb_error = b.cb_error ∧ a.cb_timeout = b.cb_timeout ∧ a.cb_done = b.cb_done

/-- The invariant of C8 on one handler. -/
def write_interest_ok (nl : os_system_netlink) : Prop :=
  nl.out ≠ [] → nl.socket.event_write = true

/-- The number of ERROR headers of a block. -/
def error_headers (block : List nlmsghdr) : Nat :=
  (block.filter (fun nh => nh.nlmsg_type == NLMSG_ERROR)).length

/-- A deferred done is pending when a block ends, all headers of which carry
one sequence number: the last header of type DONE or ERROR is a DONE header.
`trigger_is_done` is the answer for the headers read so far. -/
def pending_done (trigger_is_done : Bool) : List nlmsghdr → Bool
  | [] => trigger_is_done
  | nh :: rest =>
    pending_done
      (if nh.nlmsg_type = NLMSG_DONE then true
       else if nh.nlmsg_type = NLMSG_ERROR then false
       else trigger_is_done) rest

/-- The in-transit counter after one operation on a transport whose counter is
`n`, for `n` not negative; for a receive pass the deferred done that counts
is the one the header loop leaves pending. -/
def in_transit_after (t : Transport) (n : Int) : TransportOp → Int
  | TransportOp.send _ => n
  | TransportOp.writable ret _ => if ret > 0 then n + 1 else n
  | TransportOp.readable block =>
    max 0 (n - ((error_headers block : Nat) +
      (if (_netlink_handler_loop (rcv_store t.nl block) true 0 false block).trigger_is_done
        then 1 else 0 : Int)))
  | TransportOp.timer_fires => if t.nl.timeout.running then 0 else n

/-- The sequence number of the first header of a block (0 for an empty block),
the value `current_seq` has during the whole loop. -/
def first_seq : List nlmsghdr → Nat
  | [] => 0
  | nh :: _ => nh.nlmsg_seq

/-- A header after which no data header with sequence `S` is expected: a
terminating header for `S` (an ERROR header whose embedded request sequence
is `S`, a DONE header with sequence `S`) or, when `S` is the sequence `cur` of
the first header of the block, any DONE header. -/
def nlmsghdr.closes (S cur : Nat) (x : nlmsghdr) : Bool :=
  (x.nlmsg_type == NLMSG_ERROR && x.err_msg_nlmsg_seq == S) ||
    (x.nlmsg_type == NLMSG_DONE && (x.nlmsg_seq == S || S == cur))

/-- No on-message for sequence `S` after a terminating callback for `S`:
the relation that has to hold between every earlier call `a` and later call
`b` of a pass. -/
def message_not_after (S : Nat) (a b : Callback) : Prop :=
  a.terminates S = true → b.is_message_of S = false

/-- No data header with sequence `S` after a header that closes `S`: the
relation between every earlier header `x` and later header `h` of a block. -/
def data_not_after (S cur : Nat) (x h : nlmsghdr) : Prop :=
  x.closes S cur = true → ¬ (h.is_data = true ∧ h.nlmsg_seq = S)

/-- No entry of the feedback list is the object at address `op`. -/
def Gone (fb : List os_system_address) (op : Nat) : Prop :=
  ∀ a ∈ fb, a.id ≠ op

/-! ## Concrete inputs used by the evaluations below -/

/-- A request of 16 bytes as a caller builds it: nlmsg_len 16, type 20 and
flag REQUEST. -/
def example_request : Mem := [16, 0, 0, 0, 20, 0, 1, 0, 0, 0, 0, 0, 0, 0, 0, 0]

/-- A data header (type 20, part of a multipart reply) with the given
sequence number. -/
def example_data (seq : Nat) : nlmsghdr :=
  { nlmsg_len := 16, nlmsg_type := 20, nlmsg_flags := NLM_F_MULTI, nlmsg_seq := seq,
    nlmsg_pid := 0, err_error := 0, err_msg_nlmsg_seq := 0 }

/-- A DONE header with the given sequence number. -/
def example_done (seq : Nat) : nlmsghdr :=
  { nlmsg_len := 16, nlmsg_type := NLMSG_DONE, nlmsg_flags := NLM_F_MULTI,
    nlmsg_seq := seq, nlmsg_pid := 0, err_error := 0, err_msg_nlmsg_seq := 0 }

/-- An ERROR header answering the request with the given sequence number with
the given error code. -/
def example_error (seq : Nat) (error : Int) : nlmsghdr :=
  { nlmsg_len := 36, nlmsg_type := NLMSG_ERROR, nlmsg_flags := 0, nlmsg_seq := seq,
    nlmsg_pid := 0, err_error := error, err_msg_nlmsg_seq := seq }

/-- A pending address operation with a completion callback. -/
def example_address (id : Nat) (nl_seq : Nat) : os_system_address :=
  { id := id, if_index := 2, address_type := 2, address := [10, 0, 0, 1],
    prefix_length := 24, scope := 0,
    set := true, cb_finished := true, nl_seq := nl_seq }

/-! ## Flush: what is handed to sendmsg; closing a handler -/

/-- The static `_netlink_hdr_done` (line 106): a `struct nlmsghdr` with
nlmsg_len = sizeof(struct nlmsghdr) = 16 and nlmsg_type = NLMSG_DONE, every
other field zero. -/
def _netlink_hdr_done : Mem :=
  set_u16 (set_u32 (List.replicate 16 0) 0 16) 4 NLMSG_DONE

/-- The static `_netlink_send_iov` (line 111) after `_flush_netlink_buffer`
has filled in entry 0 (lines 538 and 539): the content of the outbound buffer,
then `_netlink_hdr_done`. -/
def _netlink_send_iov (nl : os_system_netlink) : List Mem :=
  [nl.out, _netlink_hdr_done]

/-- The field msg_iovlen of the static `_netlink_send_msg` (line 116): its
fourth initialiser, the number of entries of the iovec that sendmsg uses. -/
def _netlink_send_msg_iovlen : Nat := 1

/-- The bytes that the system call sendmsg gathers from a `struct msghdr`: the
first msg_iovlen entries of msg_iov, one after the other. -/
def sendmsg_bytes (msg_iov : List Mem) (msg_iovlen : Nat) : Mem :=
  (msg_iov.take msg_iovlen).flatten

/-- The bytes that `_flush_netlink_buffer` hands to its sendmsg call (line
541). -/
def _flush_netlink_buffer_bytes (nl : os_system_netlink) : Mem :=
  sendmsg_bytes (_netlink_send_iov nl) _netlink_send_msg_iovlen

/-- Modelled from the spec: `oonf_socket_add` of the socket scheduler
(subsystems/oonf_socket.c is not part of the sources) appends the entry to
the registry; an entry is identified by its address. -/
def oonf_socket_add (registry : List Nat) (entry : Nat) : List Nat :=
  registry ++ [entry]

/-- Modelled from the spec: `oonf_socket_remove` detaches the entry from the
registry. -/
def oonf_socket_remove (registry : List Nat) (entry : Nat) : List Nat :=
  registry.filter (fun e => e != entry)

/-- Modelled from the spec: `abuf_free` of common/autobuf.h releases the
buffer; nothing is left in it. -/
def abuf_free (_out : Mem) : Mem := []

/-- The function `os_system_netlink_remove` (line 325): `registry` is the
registry of the scheduler and `entry` the address of `nl->socket`. The socket
is closed and both buffers are freed; no other field of the handler is
written. -/
def os_system_netlink_remove (registry : List Nat) (entry : Nat)
    (nl : os_system_netlink) : List Nat × os_system_netlink :=
  (oonf_socket_remove registry entry, { nl with out := abuf_free nl.out })

/-- Modelled from the spec: the scheduler dispatches a writable event to the
handler of a socket entry only while the entry is registered; the handler of
a netlink socket, `_netlink_handler`, then flushes (line 604). -/
def scheduler_writable (registry : List Nat) (entry : Nat) (nl : os_system_netlink)
    (ret : Int) (err : Int) : os_system_netlink × List Callback :=
  if entry ∈ registry then _flush_netlink_buffer nl ret err else (nl, [])

/-- Modelled from the spec: the scheduler dispatches a readable event to the
handler of a socket entry only while the entry is registered; `_netlink_handler`
then runs the receive pass over the block it reads. -/
def scheduler_readable (registry : List Nat) (entry : Nat) (nl : os_system_netlink)
    (block : List nlmsghdr) : os_system_netlink × List Callback :=
  if entry ∈ registry then _netlink_handler_rcv nl block else (nl, [])

/-- A buffer of UIO_MAXIOV bytes holding a message under construction whose
header length is 20: a header and a generic netlink header, as
`_send_nl80211_get_station_dump` has built it when it adds the attribute. -/
def example_buffer : Mem := set_u32 (List.replicate 1024 0) 0 20

/-! ## RTNETLINK watcher: submitting an address operation -/

/-- RTM_NEWADDR of linux/rtnetlink.h. -/
def RTM_NEWADDR : Nat := 20

/-- RTM_DELADDR of linux/rtnetlink.h. -/
def RTM_DELADDR : Nat := 21

/-- NLM_F_REPLACE of linux/netlink.h. -/
def NLM_F_REPLACE : Nat := 256

/-- NLM_F_CREATE of linux/netlink.h. -/
def NLM_F_CREATE : Nat := 1024

/-- IFA_LOCAL of linux/if_addr.h. -/
def IFA_LOCAL : Int := 2

/-- AF_INET of sys/socket.h. -/
def AF_INET : Nat := 2

/-- AF_INET6 of sys/socket.h. -/
def AF_INET6 : Nat := 10

/-- NLMSG_HDRLEN of linux/netlink.h: the aligned size of `struct nlmsghdr`. -/
def NLMSG_HDRLEN : Nat := 16

/-- NLMSG_LENGTH of linux/netlink.h. -/
def NLMSG_LENGTH (len : Nat) : Nat := len + NLMSG_HDRLEN

/-- Modelled from the spec: `netaddr_get_maxprefix` of common/netaddr.h (not
part of the sources): the number of bits of an address of the family, 32 for
IPv4 and 128 for IPv6. Other families are not modelled and are given 0. -/
def netaddr_get_maxprefix (addr : os_system_address) : Nat :=
  if addr.address_type = AF_INET then 32
  else if addr.address_type = AF_INET6 then 128
  else 0

/-- The inline function `os_system_netlink_addnetaddr` of os_system_linux.h,
with the arguments the call in os_system_linux.c passes (line 488):
`netaddr_get_binptr` is the binary address. -/
def os_system_netlink_addnetaddr (n : Mem) (type : Int) (addr : os_system_address) :
    Mem × Int :=
  os_system_netlink_addreq n type addr.address (( netaddr_get_maxprefix addr / 8 : Nat) : Int)

/-- State of the RTNETLINK watcher: the transport of the static
`_rtnetlink_receiver` (with the process-wide counter) and the list
`_rtnetlink_feedback`. -/
structure Rtnetlink where
  t : Transport
  _rtnetlink_feedback : List os_system_address
deriving DecidableEq, Repr

/-- The message that `os_system_ifaddr_set` has built in its local buffer of
UIO_MAXIOV bytes before it adds the address attribute (lines 461 to 486): the
header at offset 0 and the `struct ifaddrmsg` at offset 16 (ifa_family,
ifa_prefixlen, ifa_flags, ifa_scope: one byte each, ifa_index: 4 bytes at
offset 20). -/
def os_system_ifaddr_set_msg (addr : os_system_address) : Mem :=
  let buffer : Mem := List.replicate UIO_MAXIOV 0
  let msg :=
    if addr.set then
      set_u16
        (set_u16 buffer 6 (NLM_F_REQUEST ||| NLM_F_CREATE ||| NLM_F_REPLACE ||| NLM_F_ACK))
        4 RTM_NEWADDR
    else
      set_u16 (set_u16 buffer 6 (NLM_F_REQUEST ||| NLM_F_ACK)) 4 RTM_DELADDR
  let msg := set_u32 msg 0 (NLMSG_LENGTH 8)
  let msg := set_u8 msg 16 addr.address_type
  let msg := set_u8 msg 17 addr.prefix_length
  let msg := set_u32 msg 20 addr.if_index
  set_u8 msg 19 addr.scope

/-- The function `os_system_ifaddr_set` (line 452): the new state of the
watcher and the returned `int`. The list links the object of the caller, so
the entry shows the sequence number stored in `_internal.nl_seq`. -/
def os_system_ifaddr_set (s : Rtnetlink) (addr : os_system_address) : Rtnetlink × Int :=
  let r := os_system_netlink_addnetaddr (os_system_ifaddr_set_msg addr) IFA_LOCAL addr
  if r.2 ≠ 0 then (s, -1)
  else
    let sent := os_system_netlink_send s.t.nl s.t._seq_used r.1
    let seq := sent.ret
    let fb :=
      if addr.cb_finished then
        s._rtnetlink_feedback ++ [{ addr with nl_seq := (seq % 4294967296).toNat }]
      else s._rtnetlink_feedback
    ({ t := { nl := sent.nl, _seq_used := sent._seq_used }, _rtnetlink_feedback := fb }, 0)

/-- The callbacks of the static `_rtnetlink_receiver` (line 150) as far as they
touch the feedback list: `_cb_rtnetlink_message` leaves it alone. Returns the
list and the calls of completion callbacks; for `_cb_rtnetlink_timeout` these
are the list and the calls at the end of its traversal, which
`_cb_rtnetlink_timeout` reports as a fault where it is one. -/
def rtnetlink_callback (fb : List os_system_address) :
    Callback → List os_system_address × List (Nat × Int)
  | Callback.cb_message _ => (fb, [])
  | Callback.cb_error seq error => _cb_rtnetlink_error fb seq error
  | Callback.cb_done seq => _cb_rtnetlink_done fb seq
  | Callback.cb_timeout =>
    ((_cb_rtnetlink_timeout fb)._rtnetlink_feedback, (_cb_rtnetlink_timeout fb).calls)
  | Callback.null_call => (fb, [])

/-- The calls that the transport makes during one operation, applied in call
order. -/
def rtnetlink_callbacks (fb : List os_system_address) :
    List Callback → List os_system_address × List (Nat × Int)
  | [] => (fb, [])
  | c :: rest =>
    let r := rtnetlink_callback fb c
    let s := rtnetlink_callbacks r.1 rest
    (s.1, r.2 ++ s.2)

/-- One operation on the transport of the RTNETLINK watcher, with the
callbacks it invokes run on the feedback list. -/
def rtnetlink_step (s : Rtnetlink) (op : TransportOp) : Rtnetlink × List (Nat × Int) :=
  let r := transport_step s.t op
  let f := rtnetlink_callbacks s._rtnetlink_feedback r.2
  ({ t := r.1, _rtnetlink_feedback := f.1 }, f.2)

/-- The RTNETLINK watcher after `_init`: the handler freshly opened with its
four callbacks, nothing in transit, the feedback list empty. -/
def idle_rtnetlink : Rtnetlink :=
  { t := fresh_transport, _rtnetlink_feedback := [] }

/-- A sequence of operations on the transport of the RTNETLINK watcher, with
all completion callbacks invoked, oldest first. -/
def rtnetlink_run (s : Rtnetlink) : List TransportOp → Rtnetlink × List (Nat × Int)
  | [] => (s, [])
  | op :: ops =>
    let r := rtnetlink_step s op
    let f := rtnetlink_run r.1 ops
    (f.1, r.2 ++ f.2)

/-! ## nl80211 listener: the periodic query iterator -/

/-- Size of an interface name buffer, terminator included (net/if.h). -/
def IF_NAMESIZE : Nat := 16

/-- The `enum query_type` of nl80211_listener.c (line 87). -/
def QUERY_FIRST : Nat := 0

/-- The `enum query_type` of nl80211_listener.c (line 87). -/
def QUERY_STATION_DUMP : Nat := 0

/-- The `enum query_type` of nl80211_listener.c (line 87). -/
def QUERY_SCAN_DUMP : Nat := 1

/-- The `enum query_type` of nl80211_listener.c (line 87). -/
def QUERY_COUNT : Nat := 2

/-- Modelled from the spec: an entry of the interface registry
(`struct oonf_interface` of subsystems/oonf_interface.h, which is not part of
the sources), as far as the iterator reads it: `data.name`, a C string given by
its bytes before the terminating NUL, and `data.index`. -/
structure oonf_interface where
  name : List Nat
  index : Nat
deriving DecidableEq, Repr

/-- The function `strcmp` of the C library on two strings given by their
bytes; a string ends where its list ends or at its first NUL. The result is
the difference of the first pair of bytes that differ. -/
def strcmp : List Nat → List Nat → Int
  | [], [] => 0
  | [], b :: _ => 0 - (b : Int)
  | a :: _, [] => (a : Int)
  | a :: as, b :: bs =>
    if a = b then (if a = 0 then 0 else strcmp as bs) else (a : Int) - (b : Int)

/-- Modelled from the spec: `strscpy` of common/string.h (not part of the
sources) with a size above 0 copies at most `size - 1` bytes of the string
`src` and terminates the copy. Returns the string that `dest` holds. -/
def strscpy (src : List Nat) (size : Nat) : List Nat :=
  (src.takeWhile (fun c => c != 0)).take (size - 1)

/-- Modelled from the spec: the interface registry `oonf_interface_tree` is an
ordered map keyed by interface name (common/avl.h is not part of the sources).
It is given by the list of its entries in ascending order of their names, and
a pointer to an entry is given by the rank of the entry. `avl_is_empty`. -/
def avl_is_empty (tree : List oonf_interface) : Bool := tree.isEmpty

/-- Modelled from the spec: `avl_first_element` yields the entry with the
smallest name; the code calls it on a non-empty registry only. -/
def avl_first_element (tree : List oonf_interface) : Option Nat :=
  if tree.isEmpty then none else some 0

/-- Modelled from the spec: `avl_find_ge_element` yields the entry with the
smallest name that is not smaller than the key, NULL if there is none. Names
are compared as `strcmp` does. -/
def avl_find_ge_element (tree : List oonf_interface) (key : List Nat) : Option Nat :=
  if tree.findIdx (fun e => decide (0 ≤ strcmp e.name key)) < tree.length then
    some (tree.findIdx (fun e => decide (0 ≤ strcmp e.name key)))
  else none

/-- Modelled from the spec: `avl_next_element_safe` yields the entry that
follows the given one in the order of the registry, NULL after the last. -/
def avl_next_element_safe (tree : List oonf_interface) (element : Nat) : Option Nat :=
  if element + 1 < tree.length then some (element + 1) else none

/-- The entry that a pointer into the registry points to. -/
def interface_at (tree : List oonf_interface) (element : Nat) : oonf_interface :=
  tree.getD element { name := [], index := 0 }

/-- The static variables `_last_queried_if` (the string the array holds) and
`_next_query_type` of nl80211_listener.c (line 107). -/
structure nl80211_listener where
  _last_queried_if : List Nat
  _next_query_type : Nat
deriving DecidableEq, Repr

/-- A request that the listener emits: a call of
`_send_nl80211_get_station_dump` or of `_send_nl80211_get_scan_dump` with the
interface index it is given. -/
inductive nl80211_request where
  | get_station_dump (if_idx : Nat)
  | get_scan_dump (if_idx : Nat)
deriving DecidableEq, Repr

/-- The end of `_cb_transmission_event` (lines 906 to 911): the request that
is sent for a query type. -/
def _cb_transmission_event_send (_next_query_type : Nat) (if_idx : Nat) :
    List nl80211_request :=
  if _next_query_type = QUERY_STATION_DUMP then [nl80211_request.get_station_dump if_idx]
  else if _next_query_type = QUERY_SCAN_DUMP then [nl80211_request.get_scan_dump if_idx]
  else []

/-- The selection of the next interface in `_cb_transmission_event` (lines 872
to 893): the pointer `interf` and the new `_next_query_type`. -/
def _cb_transmission_event_select (oonf_interface_tree : List oonf_interface)
    (st : nl80211_listener) : Option Nat × Nat :=
  if !avl_is_empty oonf_interface_tree then
    let interf : Option Nat :=
      if st._last_queried_if.headD 0 = 0 then avl_first_element oonf_interface_tree
      else
        match avl_find_ge_element oonf_interface_tree st._last_queried_if with
        | some i =>
          if strcmp st._last_queried_if (interface_at oonf_interface_tree i).name = 0 then
            avl_next_element_safe oonf_interface_tree i
          else some i
        | none => none
    if interf = none ∧ st._next_query_type < QUERY_COUNT - 1 then
      (avl_first_element oonf_interface_tree, st._next_query_type + 1)
    else (interf, st._next_query_type)
  else (none, st._next_query_type)

/-- The function `_cb_transmission_event` (line 870), which is also what
`_cb_nl_error`, `_cb_nl_timeout` and `_cb_nl_done` call: the new static
variables and the requests emitted. -/
def _cb_transmission_event (oonf_interface_tree : List oonf_interface)
    (st : nl80211_listener) : nl80211_listener × List nl80211_request :=
  match (_cb_transmission_event_select oonf_interface_tree st).1 with
  | none => ({ _last_queried_if := [], _next_query_type := QUERY_FIRST }, [])
  | some interf =>
    ({ _last_queried_if :=
         strscpy (interface_at oonf_interface_tree interf).name IF_NAMESIZE,
       _next_query_type := (_cb_transmission_event_select oonf_interface_tree st).2 },
     _cb_transmission_event_send (_cb_transmission_event_select oonf_interface_tree st).2
       (interface_at oonf_interface_tree interf).index)

/-- Successive advances of the iterator over a fixed registry: for each
advance the static variables it leaves and the requests it emits. -/
def transmission_events (oonf_interface_tree : List oonf_interface) :
    Nat → nl80211_listener → List (nl80211_listener × List nl80211_request)
  | 0, _ => []
  | k + 1, st =>
    _cb_transmission_event oonf_interface_tree st ::
      transmission_events oonf_interface_tree k
        (_cb_transmission_event oonf_interface_tree st).1

/-- The static variables before the first advance: no last-queried name,
query type STATION_DUMP. -/
def empty_iterator : nl80211_listener :=
  { _last_queried_if := [], _next_query_type := QUERY_STATION_DUMP }

/-- The registry with the interfaces wlan0 (index 3) and wlan1 (index 4). -/
def example_tree : List oonf_interface :=
  [{ name := [119, 108, 97, 110, 48], index := 3 },
   { name := [119, 108, 97, 110, 49], index := 4 }]

/-! ## Legacy core: subsystem state marker and socket entry -/

/-- The inline function `olsr_subsystem_init` of src-api/core/olsr_subsystem.h
(line 61): the new value of the marker `*ptr` and the returned `bool`. -/
def olsr_subsystem_init (ptr : Bool) : Bool × Bool :=
  if ptr then (ptr, true) else (true, false)

/-- The inline function `olsr_subsystem_cleanup` of
src-api/core/olsr_subsystem.h (line 76): the new value of the marker and the
returned `bool`. -/
def olsr_subsystem_cleanup (ptr : Bool) : Bool × Bool :=
  if ptr then (false, false) else (ptr, true)

/-- The inline function `olsr_subsystem_is_initialized` of
src-api/core/olsr_subsystem.h (line 90). -/
def olsr_subsystem_is_initialized (ptr : Bool) : Bool := ptr

/-- The `struct olsr_socket_entry` of src-api/subsystems/olsr_socket.h, without
its list node, handler and data pointer. -/
structure olsr_socket_entry where
  fd : Int
  event_read : Bool
  event_write : Bool
deriving DecidableEq, Repr

/-- Inline function of src-api/subsystems/olsr_socket.h (line 87). -/
def olsr_socket_set_read (entry : olsr_socket_entry) (event_read : Bool) :
    olsr_socket_entry :=
  { entry with event_read := event_read }

/-- Inline function of src-api/subsystems/olsr_socket.h (line 97). -/
def olsr_socket_set_write (entry : olsr_socket_entry) (event_write : Bool) :
    olsr_socket_entry :=
  { entry with event_write := event_write }

/-! ## nl80211 listener: station and scan replies -/

/-- Wrap-around of a mathematical integer to `int64_t`. -/
def wrap_int64 (x : Int) : Int :=
  (x + 9223372036854775808) % 18446744073709551616 - 9223372036854775808

/-- The cast `(int8_t)` of an `uint8_t` value. -/
def cast_int8_t (x : Nat) : Int := ((x : Int) + 128) % 256 - 128

/-- Modelled from the spec: `nla_get_u8` of the netlink attribute library
(not part of the sources) reads one byte at the payload of an attribute. An
attribute is given by the memory that starts at its payload (`nla_data`). -/
def nla_get_u8 (nla : Mem) : Nat := get_u8 nla 0

/-- Modelled from the spec: `nla_get_u16` reads 16 bits at the payload. -/
def nla_get_u16 (nla : Mem) : Nat := get_u16 nla 0

/-- Modelled from the spec: `nla_get_u32` reads 32 bits at the payload. -/
def nla_get_u32 (nla : Mem) : Nat := get_u32 nla 0

/-- Modelled from the spec: `oonf_clock_get_absolute` of subsystems/oonf_clock.h
(not part of the sources) turns a relative time into an absolute one by adding
the current time `now`, in 64 bit unsigned arithmetic. -/
def oonf_clock_get_absolute (now : Nat) (relative : Nat) : Nat :=
  (now + relative) % 18446744073709551616

/-- What `nla_parse_nested (rinfo, ..., rate_policy)` yields for a bitrate
attribute of a station: its return value and `rinfo[NL80211_RATE_INFO_BITRATE]`. -/
structure rate_info where
  parse_ret : Int
  bitrate : Option Mem
deriving DecidableEq, Repr

/-- The table `sinfo[]` that `nla_parse_nested` fills in
`_parse_cmd_new_station`, as far as the function reads it: an attribute that
is present is given by its payload memory, a nested bitrate attribute by the
result of parsing it. -/
structure sta_info where
  inactive_time : Option Mem
  rx_bytes : Option Mem
  rx_packets : Option Mem
  tx_bytes : Option Mem
  tx_packets : Option Mem
  tx_retries : Option Mem
  tx_failed : Option Mem
  signal : Option Mem
  tx_bitrate : Option rate_info
  rx_bitrate : Option rate_info
deriving DecidableEq, Repr

/-- Modelled from the spec: the neighbor entry of the link-layer model
(`struct oonf_layer2_neigh` of subsystems/oonf_layer2.h, not part of the
sources): `last_seen` and the array `data[]`, one field for each index
OONF_LAYER2_NEIGH_... that the listener writes. A value that
`oonf_layer2_reset_value` has cleared is `none`; `oonf_layer2_set_value` stores
the `int64_t` it is given. -/
structure oonf_layer2_neigh where
  last_seen : Nat
  rx_bytes : Option Int
  rx_frames : Option Int
  tx_bytes : Option Int
  tx_frames : Option Int
  tx_retries : Option Int
  tx_failed : Option Int
  signal : Option Int
  tx_bitrate : Option Int
  rx_bitrate : Option Int
deriving DecidableEq, Repr

/-- The value that `_parse_cmd_new_station` stores for a bitrate attribute
(lines 445 to 452 and 464 to 471): nothing unless the nested attribute
parses (return value 0) and holds a bitrate; `int64_t rate` is the 16 bit
value and `(rate * 1024 * 1024) / 10` is `int64_t` arithmetic with the
division of C. -/
def _parse_cmd_new_station_bitrate : Option rate_info → Option Int
  | none => none
  | some rinfo =>
    if rinfo.parse_ret = 0 then
      match rinfo.bitrate with
      | none => none
      | some nla =>
        let rate : Int := (nla_get_u16 nla : Int)
        some (Int.tdiv (wrap_int64 (wrap_int64 (rate * 1024) * 1024)) 10)
    else none

/-- The part of `_parse_cmd_new_station` that follows the lookup of the
neighbor entry (lines 407 to 482): the old data is removed, then the
attributes that are present are inserted. `now` is the current time. The
signal is `1000 * (int8_t)nla_get_u8 (...)`, a product of `int`. -/
def _parse_cmd_new_station_data (now : Nat) (sinfo : sta_info) : oonf_layer2_neigh :=
  { last_seen :=
      match sinfo.inactive_time with
      | some nla => oonf_clock_get_absolute now (nla_get_u32 nla)
      | none => 0,
    rx_bytes := sinfo.rx_bytes.map (fun nla => (nla_get_u32 nla : Int)),
    rx_frames := sinfo.rx_packets.map (fun nla => (nla_get_u32 nla : Int)),
    tx_bytes := sinfo.tx_bytes.map (fun nla => (nla_get_u32 nla : Int)),
    tx_frames := sinfo.tx_packets.map (fun nla => (nla_get_u32 nla : Int)),
    tx_retries := sinfo.tx_retries.map (fun nla => (nla_get_u32 nla : Int)),
    tx_failed := sinfo.tx_failed.map (fun nla => (nla_get_u32 nla : Int)),
    signal := sinfo.signal.map (fun nla => wrap_int32 (1000 * cast_int8_t (nla_get_u8 nla))),
    tx_bitrate := _parse_cmd_new_station_bitrate sinfo.tx_bitrate,
    rx_bitrate := _parse_cmd_new_station_bitrate sinfo.rx_bitrate }

/-- A station reply that holds nothing but the given counters, signal and
bitrates. -/
def example_sta_info : sta_info :=
  { inactive_time := none,
    rx_bytes := some [16, 39, 0, 0], rx_packets := some [100, 0, 0, 0],
    tx_bytes := some [32, 78, 0, 0], tx_packets := some [200, 0, 0, 0],
    tx_retries := some [3, 0, 0, 0], tx_failed := some [1, 0, 0, 0],
    signal := some [196, 0, 0, 0],
    tx_bitrate := some { parse_ret := 0, bitrate := some [28, 2, 0, 0] },
    rx_bitrate := some { parse_ret := 0, bitrate := some [60, 0, 0, 0] } }

/-- An attribute that holds information elements: `nla_len` and the memory
that starts at `nla_data`. The payload is the first `nla_len` bytes of it;
what follows is the rest of the receive buffer. -/
structure ie_attr where
  nla_len : Int
  nla_data : Mem
deriving DecidableEq, Repr

/-- The table `bss[]` that `nla_parse_nested` fills in
`_parse_cmd_new_scan_result`, as far as the part of the function embedded here
reads it. -/
structure bss_info where
  frequency : Option Mem
  seen_ms_ago : Option Mem
  information_elements : Option ie_attr
  beacon_ies : Option ie_attr
deriving DecidableEq, Repr

/-- Modelled from the spec: the network entry of the link-layer model
(`struct oonf_layer2_net` of subsystems/oonf_layer2.h, not part of the
sources): `last_seen` and the fields OONF_LAYER2_NET_FREQUENCY and
OONF_LAYER2_NET_MAX_BITRATE of `data[]`. -/
structure oonf_layer2_net where
  last_seen : Nat
  frequency : Option Int
  max_bitrate : Option Int
deriving DecidableEq, Repr

/-- The loop `for (i=0; i<data[1]; i++)` over the rates of an element (lines
728 to 733 and 737 to 742); `p` is the offset of `data` in the memory of the
attribute. `rate = (data[2+i] & 0x7f) << 19` is at most 127 * 2^19. -/
def _parse_ie_rates (data : Mem) (p : Nat) (max_rate : Int) : Int :=
  (List.range (get_u8 data (p + 1))).foldl
    (fun m i =>
      if (((get_u8 data (p + 2 + i) &&& 127) <<< 19 : Nat) : Int) > m then
        (((get_u8 data (p + 2 + i) &&& 127) <<< 19 : Nat) : Int)
      else m)
    max_rate

/-- The loop `while (len > 0)` over the information elements (lines 722 to
748): the final `max_rate` and the offsets of the bytes that the loop reads,
in the order of the first read. The first argument bounds the number of
iterations; `len.toNat` suffices, since an iteration takes at least 2 from
`len`. The copy of an SSID to `net->if_ident` (element 0) touches neither
`len`, `data` nor `max_rate` and is left out. -/
def _parse_ie_loop (data : Mem) : Nat → Int → Nat → Int → Int × List Nat
  | 0, _, _, max_rate => (max_rate, [])
  | fuel + 1, len, p, max_rate =>
    if len > 0 then
      ((_parse_ie_loop data fuel (len - ((get_u8 data (p + 1) : Int) + 2))
          (p + (get_u8 data (p + 1) + 2))
          (if get_u8 data p = 1 ∨ get_u8 data p = 50 then _parse_ie_rates data p max_rate
           else max_rate)).1,
       [p, p + 1] ++
         (if get_u8 data p = 1 ∨ get_u8 data p = 50 then
            (List.range (get_u8 data (p + 1))).map (fun i => p + 2 + i)
          else []) ++
         (_parse_ie_loop data fuel (len - ((get_u8 data (p + 1) : Int) + 2))
          (p + (get_u8 data (p + 1) + 2))
          (if get_u8 data p = 1 ∨ get_u8 data p = 50 then _parse_ie_rates data p max_rate
           else max_rate)).2)
    else (max_rate, [])

/-- The walk over the information elements of an attribute, from
`max_rate = 0`. -/
def _parse_ies (ies : ie_attr) : Int × List Nat :=
  _parse_ie_loop ies.nla_data ies.nla_len.toNat ies.nla_len 0 0

/-- The part of `_parse_cmd_new_scan_result` that follows the lookup of the
network entry (lines 623 to 754): the old data is removed, then frequency
(`nla_get_u32 (...) * 1000000ll`), last_seen and the maximum bitrate of the
information elements are inserted. -/
def _parse_cmd_new_scan_result_data (now : Nat) (bss : bss_info) : oonf_layer2_net :=
  { last_seen :=
      match bss.seen_ms_ago with
      | some nla => oonf_clock_get_absolute now (nla_get_u32 nla)
      | none => 0,
    frequency := bss.frequency.map (fun nla => wrap_int64 ((nla_get_u32 nla : Int) * 1000000)),
    max_bitrate :=
      match bss.information_elements, bss.beacon_ies with
      | some ies, _ => if (_parse_ies ies).1 ≠ 0 then some (_parse_ies ies).1 else none
      | none, some ies => if (_parse_ies ies).1 ≠ 0 then some (_parse_ies ies).1 else none
      | none, none => none }

/-- Following the words of the claim on information elements: the maximum of
`(b AND 0x7f) << 19` over the rate bytes `b` of the elements with id 1 or 50,
for a string given as the list of its elements (id, payload). -/
def spec_max_rate (elements : List (Nat × List Nat)) : Nat :=
  ((elements.filter (fun e => e.1 = 1 ∨ e.1 = 50)).map
    (fun e => (e.2.map (fun b => (b &&& 127) <<< 19)).foldl max 0)).foldl max 0

/-- An information-element string of declared length 3 whose only element
(id 1, supported rates) declares 4 rate bytes; the bytes after offset 2 are
what follows the attribute in the receive buffer. -/
def example_ies : ie_attr :=
  { nla_len := 3, nla_data := [1, 4, 2, 127, 0, 0] }

/-- A scan reply with frequency 2412 (MHz) and nothing else. -/
def example_bss : bss_info :=
  { frequency := some [108, 9, 0, 0], seen_ms_ago := none,
    information_elements := none, beacon_ies := none }

/-! ## Link and address messages -/

/-- Message type of linux/rtnetlink.h. -/
def RTM_NEWLINK : Nat := 16

/-- Message type of linux/rtnetlink.h. -/
def RTM_DELLINK : Nat := 17

/-- Interface flag of net/if.h. -/
def IFF_UP : Nat := 1

/-! ## Legacy core: the RTNETLINK handler of src/core/os_linux/os_system_linux.c -/

namespace core

/-- The value of `sizeof (_netlink_header)`: `_netlink_header` is declared
`struct nlmsghdr *`, so it is the size of a pointer, 8 on a target with 64 bit
pointers (4 with 32 bit pointers); the header it points to has 16 bytes. -/
def sizeof__netlink_header : Nat := 8

/-- The functions `_handle_nl_link` (line 233) and `_handle_nl_addr` (line
250): both read a 32 bit interface index at offset 4 of the payload
(`ifi_index`, `ifa_index`) and call `olsr_interface_trigger_change` with the
name that `if_indextoname` gives it, if any. Returns the calls of
`olsr_interface_trigger_change`, each recorded by its argument. -/
def _handle_nl_link (if_indextoname : Nat → Option (List Nat)) (_netlink_header : Mem) :
    List (List Nat) :=
  match if_indextoname (get_u32 _netlink_header (NLMSG_HDRLEN + 4)) with
  | none => []
  | some if_name => [if_name]

/-- See `_handle_nl_link`. -/
def _handle_nl_addr (if_indextoname : Nat → Option (List Nat)) (_netlink_header : Mem) :
    List (List Nat) :=
  match if_indextoname (get_u32 _netlink_header (NLMSG_HDRLEN + 4)) with
  | none => []
  | some if_name => [if_name]

/-- The check of `_netlink_handler` (lines 200 to 207) on a message of which
`ret` bytes were received: `len` is `nlmsg_len` as `int`, `plen` is
`len - sizeof (_netlink_header)`, computed in `size_t` and stored to an
`int`; true when the message is rejected as malformed. -/
def _netlink_handler_malformed (_netlink_header : Mem) (ret : Int) : Bool :=
  decide (wrap_int32 (get_nlmsg_len _netlink_header) > ret ∨
    wrap_int32 (((int_to_size_t (wrap_int32 (get_nlmsg_len _netlink_header)) : Int) -
      sizeof__netlink_header) % 18446744073709551616) < 0)

/-- The function `_netlink_handler` (line 187); `ret` is the result of
recvmsg, `_netlink_header` the buffer it filled. Returns the calls of
`olsr_interface_trigger_change`. -/
def _netlink_handler (if_indextoname : Nat → Option (List Nat)) (_netlink_header : Mem)
    (event_read : Bool) (ret : Int) : List (List Nat) :=
  if !event_read then []
  else if ret ≥ 0 then
    if _netlink_handler_malformed _netlink_header ret then []
    else if get_nlmsg_type _netlink_header = RTM_NEWLINK ∨
        get_nlmsg_type _netlink_header = RTM_DELLINK then
      _handle_nl_link if_indextoname _netlink_header
    else if get_nlmsg_type _netlink_header = RTM_NEWADDR ∨
        get_nlmsg_type _netlink_header = RTM_DELADDR then
      _handle_nl_addr if_indextoname _netlink_header
    else []
  else []

/-- A system with the interfaces lo (index 1) and eth0 (index 2). -/
def example_if_indextoname (ifindex : Nat) : Option (List Nat) :=
  if ifindex = 1 then some [108, 111]
  else if ifindex = 2 then some [101, 116, 104, 48]
  else none

/-- A received block of 32 bytes: a header with nlmsg_len 8 and type
RTM_NEWLINK, followed by an ifinfomsg for interface index 2. -/
def example_short_message : Mem :=
  [8, 0, 0, 0, 16, 0, 0, 0, 0, 0, 0, 0, 0, 0, 0, 0,
   0, 0, 1, 0, 2, 0, 0, 0, 67, 16, 1, 0, 0, 0, 0, 0]

end core

/-! ## RTNETLINK watcher: interface listeners -/

/-- The function `os_system_iflistener_add` (line 250): `list_add_tail` on
`_ifchange_listener`. A listener is given by the address of its C object. -/
def os_system_iflistener_add (_ifchange_listener : List Nat) (listener : Nat) : List Nat :=
  _ifchange_listener ++ [listener]

/-- The function `os_system_iflistener_remove` (line 255): `list_remove`. -/
def os_system_iflistener_remove (_ifchange_listener : List Nat) (listener : Nat) :
    List Nat :=
  _ifchange_listener.filter (fun l => l != listener)

/-- The function `_cb_rtnetlink_message` (line 716) on the memory of a
message: the header, then at NLMSG_DATA (offset 16) a `struct ifinfomsg`
(`ifi_index` at offset 4, `ifi_flags` at offset 8 of it) or a
`struct ifaddrmsg` (`ifa_flags` at offset 2, `ifa_index` at offset 4).
Returns the calls of `if_changed`, each recorded as (listener, first argument,
second argument). The index is recorded as the 32 bits read; `list_for_each_element`
visits the listeners in list order. -/
def _cb_rtnetlink_message (_ifchange_listener : List Nat) (hdr : Mem) :
    List (Nat × Nat × Bool) :=
  if get_nlmsg_type hdr = RTM_NEWLINK ∨ get_nlmsg_type hdr = RTM_DELLINK then
    _ifchange_listener.map (fun listener =>
      (listener, get_u32 hdr (NLMSG_HDRLEN + 4),
        decide (get_u32 hdr (NLMSG_HDRLEN + 8) &&& IFF_UP = 0)))
  else if get_nlmsg_type hdr = RTM_NEWADDR ∨ get_nlmsg_type hdr = RTM_DELADDR then
    _ifchange_listener.map (fun listener =>
      (listener, get_u32 hdr (NLMSG_HDRLEN + 4),
        decide (get_u8 hdr (NLMSG_HDRLEN + 2) &&& IFF_UP = 0)))
  else []

/-- A NEWLINK message for interface index 2 with flags 0x11043 (UP is set). -/
def example_link_message : Mem :=
  [32, 0, 0, 0, 16, 0, 0, 0, 0, 0, 0, 0, 0, 0, 0, 0,
   0, 0, 1, 0, 2, 0, 0, 0, 67, 16, 1, 0, 0, 0, 0, 0]

/-! ## Receive pass: reading the block -/

/-- One result of `recvmsg` in `_netlink_handler`: the return value, whether
MSG_TRUNC is set in `msg_flags`, and whether the `realloc` that the code calls
after a result that does not fit succeeds. -/
structure recvmsg_result where
  ret : Int
  msg_trunc : Bool
  realloc_ok : Bool
deriving DecidableEq, Repr

/-- What `_netlink_handler` does with one result of `recvmsg`: it returns on
an error, it enlarges the buffer by one page and tries again (truncated), it
returns because `realloc` fails (no_memory), it goes from peeking to reading
(peeked), or it has read the block (read). -/
inductive RecvEvent where
  | error
  | truncated
  | no_memory
  | peeked
  | read
deriving DecidableEq, Repr

/-- Outcome of the reading part of a receive pass: the handler, the number of
bytes read if the block was read, and what was done with each result. -/
structure RecvPass where
  nl : os_system_netlink
  received : Option Nat
  events : List RecvEvent
deriving DecidableEq, Repr

/-- The reading part of `_netlink_handler` (lines 613 to 648), from the label
`netlink_rcv_retry` on. `flags` tells whether MSG_PEEK is set, `pagesize` is
the result of getpagesize, and the list holds the results of the successive
calls of `recvmsg`; when it is used up the pass waits for the next result.
`nl->in_len` is a `size_t`. -/
def _netlink_handler_recv (pagesize : Nat) :
    List recvmsg_result → os_system_netlink → Bool → RecvPass
  | [], nl, _ => { nl := nl, received := none, events := [] }
  | r :: rest, nl, flags =>
    if r.ret < 0 then { nl := nl, received := none, events := [RecvEvent.error] }
    else if (nl.in_len : Int) < r.ret ∨ r.msg_trunc = true then
      if r.realloc_ok then
        { _netlink_handler_recv pagesize rest
            { nl with in_len := (nl.in_len + pagesize) % 18446744073709551616 } flags with
          events := RecvEvent.truncated ::
            (_netlink_handler_recv pagesize rest
              { nl with in_len := (nl.in_len + pagesize) % 18446744073709551616 }
              flags).events }
      else { nl := nl, received := none, events := [RecvEvent.no_memory] }
    else if flags then
      { _netlink_handler_recv pagesize rest nl false with
        events := RecvEvent.peeked :: (_netlink_handler_recv pagesize rest nl false).events }
    else { nl := nl, received := some r.ret.toNat, events := [RecvEvent.read] }

/-- The function `_netlink_handler` for a readable event (lines 610 to 711):
the block is peeked at and read, then the headers `block` it holds are
processed. Returns the handler, the callbacks invoked and what was done with
each result of `recvmsg`. -/
def _netlink_handler_readable (pagesize : Nat) (results : List recvmsg_result)
    (block : List nlmsghdr) (nl : os_system_netlink) :
    os_system_netlink × List Callback × List RecvEvent :=
  match (_netlink_handler_recv pagesize results nl true).received with
  | some _ =>
    ((_netlink_handler_rcv (_netlink_handler_recv pagesize results nl true).nl block).1,
     (_netlink_handler_rcv (_netlink_handler_recv pagesize results nl true).nl block).2,
     (_netlink_handler_recv pagesize results nl true).events)
  | none =>
    ((_netlink_handler_recv pagesize results nl true).nl, [],
     (_netlink_handler_recv pagesize results nl true).events)

/-! ## nl80211 listener: the family table -/

/-- The function `os_system_netlink_add_mc` (os_system_linux.c, line 376):
`setsockopt (..., NETLINK_ADD_MEMBERSHIP, &groups[i], ...)` for each group in
turn, -1 at the first call that fails. `setsockopt` gives the result of the
system call for a group. Returns the returned `int` and the groups joined. -/
def os_system_netlink_add_mc (setsockopt : Nat → Int) : List Nat → Int × List Nat
  | [] => (0, [])
  | group :: groups =>
    if setsockopt group ≠ 0 then (-1, [])
    else
      ((os_system_netlink_add_mc setsockopt groups).1,
       group :: (os_system_netlink_add_mc setsockopt groups).2)

/-- The table `tb_mcgrp[]` that `nla_parse` fills for one nested multicast
group: the name (a C string) and the memory of the id, where present. -/
structure mcast_grp where
  name : Option (List Nat)
  id : Option Mem
deriving DecidableEq, Repr

/-- The table `attrs[]` that `nlmsg_parse` fills in `_parse_cmd_newfamily`, as
far as the function reads it: the memory of CTRL_ATTR_FAMILY_ID (16 bit by
the policy, followed by the padding of the attribute), the string of
CTRL_ATTR_FAMILY_NAME, and the nested groups of CTRL_ATTR_MCAST_GROUPS in the
order `nla_for_each_nested` visits them. -/
structure ctrl_attrs where
  family_id : Option Mem
  family_name : Option (List Nat)
  mcast_groups : Option (List mcast_grp)
deriving DecidableEq, Repr

/-- The static variables `_nl80211_id` (an `int`) and `_nl80211_mc_set` of
nl80211_listener.c (line 104). -/
structure nl80211_family where
  _nl80211_id : Int
  _nl80211_mc_set : Bool
deriving DecidableEq, Repr

/-- The string "nl80211". -/
def nl80211_name : List Nat := [110, 108, 56, 48, 50, 49, 49]

/-- The string "mlme". -/
def mlme_name : List Nat := [109, 108, 109, 101]

/-- The loop `nla_for_each_nested` of `_parse_cmd_newfamily` (lines 287 to
317): the group handed to `os_system_netlink_add_mc` and the result of that
call, if the loop reaches the call; the loop is left after it. -/
def _parse_cmd_newfamily_groups (setsockopt : Nat → Int) :
    List mcast_grp → Option (Nat × Int)
  | [] => none
  | mcgrp :: rest =>
    match mcgrp.name, mcgrp.id with
    | some name, some id =>
      if strcmp name mlme_name ≠ 0 then _parse_cmd_newfamily_groups setsockopt rest
      else
        some (nla_get_u32 id, (os_system_netlink_add_mc setsockopt [nla_get_u32 id]).1)
    | _, _ => _parse_cmd_newfamily_groups setsockopt rest

/-- The function `_parse_cmd_newfamily` (line 245); `nlmsg_parse_ret` is the
result of `nlmsg_parse` and `attrs` the table it filled. Returns the static
variables and the calls of `os_system_netlink_add_mc`, each recorded by its
list of groups. -/
def _parse_cmd_newfamily (setsockopt : Nat → Int) (st : nl80211_family)
    (nlmsg_parse_ret : Int) (attrs : ctrl_attrs) : nl80211_family × List (List Nat) :=
  if nlmsg_parse_ret < 0 then (st, [])
  else
    match attrs.family_id, attrs.family_name with
    | some family_id, some family_name =>
      if strcmp family_name nl80211_name ≠ 0 then (st, [])
      else
        match st._nl80211_mc_set, attrs.mcast_groups with
        | false, some groups =>
          match _parse_cmd_newfamily_groups setsockopt groups with
          | some (group, ret) =>
            ({ _nl80211_id := wrap_int32 (nla_get_u32 family_id),
               _nl80211_mc_set := if ret ≠ 0 then st._nl80211_mc_set else true },
             [[group]])
          | none =>
            ({ st with _nl80211_id := wrap_int32 (nla_get_u32 family_id) }, [])
        | _, _ => ({ st with _nl80211_id := wrap_int32 (nla_get_u32 family_id) }, [])
    | _, _ => (st, [])

/-- The static variables after `_init`: no family id, multicast not joined. -/
def initial_family : nl80211_family := { _nl80211_id := -1, _nl80211_mc_set := false }

/-- A family-table reply for nl80211 with id 28 and the multicast groups
config (5), scan (6), regulatory (7) and mlme (8). -/
def example_newfamily : ctrl_attrs :=
  { family_id := some [28, 0, 0, 0],
    family_name := some [110, 108, 56, 48, 50, 49, 49, 0],
    mcast_groups := some
      [{ name := some [99, 111, 110, 102, 105, 103, 0], id := some [5, 0, 0, 0] },
       { name := some [115, 99, 97, 110, 0], id := some [6, 0, 0, 0] },
       { name := some [114, 101, 103, 117, 108, 97, 116, 111, 114, 121, 0],
         id := some [7, 0, 0, 0] },
       { name := some [109, 108, 109, 101, 0], id := some [8, 0, 0, 0] }] }

/-! ## RTNETLINK feedback tracker: program order -/

/-- A statement of `_address_finished` or of `os_system_ifaddr_interrupt` that
touches the feedback list or calls the owner of an operation. -/
inductive FeedbackStep where
  | list_remove (node : Nat)
  | cb_finished (addr : Nat) (error : Int)
deriving DecidableEq, Repr

/-- The function `_address_finished` (line 803) statement by statement, in
program order: under `list_is_node_added`, first `list_remove`, then, if the
pointer is set, the call `addr->cb_finished (addr, error)`. -/
def _address_finished_steps (_rtnetlink_feedback : List os_system_address)
    (addr : os_system_address) (error : Int) : List FeedbackStep :=
  if list_is_node_added _rtnetlink_feedback addr.id then
    FeedbackStep.list_remove addr.id ::
      (if addr.cb_finished then [FeedbackStep.cb_finished addr.id error] else [])
  else []

/-- The function `os_system_ifaddr_interrupt` (line 503) statement by
statement, in program order: under `list_is_node_added`, first `list_remove`,
then, if the pointer is set, the call `addr->cb_finished (addr, -1)`. -/
def os_system_ifaddr_interrupt_steps (_rtnetlink_feedback : List os_system_address)
    (addr : Nat) : List FeedbackStep :=
  match _rtnetlink_feedback.find? (fun a => a.id == addr) with
  | some a =>
    FeedbackStep.list_remove a.id ::
      (if a.cb_finished then [FeedbackStep.cb_finished a.id (-1)] else [])
  | none => []

/-- The feedback list after the given statements. -/
def feedback_after (fb : List os_system_address) : List FeedbackStep → List os_system_address
  | [] => fb
  | FeedbackStep.list_remove node :: rest => feedback_after (list_remove fb node) rest
  | FeedbackStep.cb_finished _ _ :: rest => feedback_after fb rest

/-- The calls of completion callbacks among the given statements, each with
the feedback list as it is when the callback runs: (operation, errno, list). -/
def callbacks_with_list (fb : List os_system_address) :
    List FeedbackStep → List (Nat × Int × List os_system_address)
  | [] => []
  | FeedbackStep.list_remove node :: rest => callbacks_with_list (list_remove fb node) rest
  | FeedbackStep.cb_finished addr error :: rest =>
    (addr, error, fb) :: callbacks_with_list fb rest

/-- Following the words of the claim on the inbound buffer: the number of
pages by which a receive pass that gets the given results of recvmsg enlarges
a buffer of `in_len` bytes. The pass peeks until a peek fits and then reads
until a read fits; a peek or read that is reported as truncated, or as larger
than the buffer it was made with, costs one page and is made again with the
larger buffer. An error of recvmsg and a reallocation that fails end the
pass. -/
def spec_pages (pagesize : Nat) : List recvmsg_result → Nat → Bool → Nat
  | [], _, _ => 0
  | r :: rest, in_len, peek =>
    if r.ret < 0 then 0
    else if r.msg_trunc = true ∨ (in_len : Int) < r.ret then
      if r.realloc_ok then 1 + spec_pages pagesize rest (in_len + pagesize) peek else 0
    else if peek then spec_pages pagesize rest in_len false
    else 0

/-! ## Lemmas on machine integers and message memory -/

theorem wrap_int32_of_lt (x : Int) (h0 : -2147483648 ≤ x) (h1 : x < 2147483648) :
    wrap_int32 x = x := by
  unfold wrap_int32
  omega

theorem seq_mask_eq_mod (c : Nat) :
    ((c + 1) % 4294967296) &&& INT32_MAX = (c + 1) % 2147483648 := by
  have h := Nat.and_pow_two_sub_one_eq_mod ((c + 1) % 4294967296) 31
  have e : (2 : Nat) ^ 31 - 1 = INT32_MAX := by norm_num [INT32_MAX]
  rw [e] at h
  rw [h]
  norm_num

theorem length_set_u8 (m : Mem) (off v : Nat) : (set_u8 m off v).length = m.length := by
  simp [set_u8]

theorem length_set_u16 (m : Mem) (off v : Nat) : (set_u16 m off v).length = m.length := by
  simp [set_u16, length_set_u8]

theorem length_set_u32 (m : Mem) (off v : Nat) : (set_u32 m off v).length = m.length := by
  simp [set_u32, length_set_u16]

theorem get_u8_lt (m : Mem) (off : Nat) : get_u8 m off < 256 := by
  unfold get_u8
  omega

theorem get_u16_lt (m : Mem) (off : Nat) : get_u16 m off < 65536 := by
  have h0 := get_u8_lt m off
  have h1 := get_u8_lt m (off + 1)
  unfold get_u16
  omega

theorem get_u8_set_u8_eq (m : Mem) (off v : Nat) (h : off < m.length) :
    get_u8 (set_u8 m off v) off = v % 256 := by
  simp [get_u8, set_u8, List.getD_eq_getElem?_getD, List.getElem?_set, h]

theorem get_u8_set_u8_ne (m : Mem) (off off2 v : Nat) (h : off ≠ off2) :
    get_u8 (set_u8 m off v) off2 = get_u8 m off2 := by
  simp [get_u8, set_u8, List.getD_eq_getElem?_getD, List.getElem?_set, h]

theorem get_u8_set_u16_ne (m : Mem) (off off2 v : Nat) (h0 : off ≠ off2)
    (h1 : off + 1 ≠ off2) : get_u8 (set_u16 m off v) off2 = get_u8 m off2 := by
  simp [set_u16, get_u8_set_u8_ne, h0, h1]

theorem get_u8_set_u32_ne (m : Mem) (off off2 v : Nat)
    (h : off2 < off ∨ off + 4 ≤ off2) : get_u8 (set_u32 m off v) off2 = get_u8 m off2 := by
  unfold set_u32
  rw [get_u8_set_u16_ne _ _ _ _ (by omega) (by omega),
    get_u8_set_u16_ne _ _ _ _ (by omega) (by omega)]

theorem get_u16_set_u16_eq (m : Mem) (off v : Nat) (h : off + 1 < m.length) :
    get_u16 (set_u16 m off v) off = v % 65536 := by
  unfold get_u16 set_u16
  rw [get_u8_set_u8_ne _ _ _ _ (by omega),
    get_u8_set_u8_eq _ _ _ (by omega),
    get_u8_set_u8_eq _ _ _ (by rw [length_set_u8]; omega)]
  omega

theorem get_u16_set_u16_ne (m : Mem) (off off2 v : Nat)
    (h : off2 + 2 ≤ off ∨ off + 2 ≤ off2) :
    get_u16 (set_u16 m off v) off2 = get_u16 m off2 := by
  unfold get_u16
  rw [get_u8_set_u16_ne _ _ _ _ (by omega) (by omega),
    get_u8_set_u16_ne _ _ _ _ (by omega) (by omega)]

theorem get_u16_set_u32_ne (m : Mem) (off off2 v : Nat)
    (h : off2 + 2 ≤ off ∨ off + 4 ≤ off2) :
    get_u16 (set_u32 m off v) off2 = get_u16 m off2 := by
  unfold get_u16
  rw [get_u8_set_u32_ne _ _ _ _ (by omega), get_u8_set_u32_ne _ _ _ _ (by omega)]

theorem get_u32_set_u32_eq (m : Mem) (off v : Nat) (h : off + 3 < m.length) :
    get_u32 (set_u32 m off v) off = v % 4294967296 := by
  unfold get_u32 set_u32
  rw [get_u16_set_u16_ne _ _ _ _ (by omega),
    get_u16_set_u16_eq _ _ _ (by omega),
    get_u16_set_u16_eq _ _ _ (by rw [length_set_u16]; omega)]
  omega

theorem get_u32_set_u16_ne (m : Mem) (off off2 v : Nat)
    (h : off2 + 4 ≤ off ∨ off + 2 ≤ off2) :
    get_u32 (set_u16 m off v) off2 = get_u32 m off2 := by
  unfold get_u32
  rw [get_u16_set_u16_ne _ _ _ _ (by omega), get_u16_set_u16_ne _ _ _ _ (by omega)]

theorem get_u32_set_u32_ne (m : Mem) (off off2 v : Nat)
    (h : off2 + 4 ≤ off ∨ off + 4 ≤ off2) :
    get_u32 (set_u32 m off v) off2 = get_u32 m off2 := by
  unfold get_u32
  rw [get_u16_set_u32_ne _ _ _ _ (by omega), get_u16_set_u32_ne _ _ _ _ (by omega)]

theorem NLMSG_ALIGN_lt (len : Nat) : NLMSG_ALIGN len < 4294967296 := by
  unfold NLMSG_ALIGN
  exact lt_of_le_of_lt Nat.and_le_left (Nat.mod_lt _ (by norm_num))

theorem flag_bits_testBit (i : Nat) :
    (NLM_F_ACK ||| NLM_F_MULTI).testBit i = (decide (i = 1) || decide (i = 2)) := by
  have e : NLM_F_ACK ||| NLM_F_MULTI = 6 := by decide
  rw [e]
  by_cases h3 : i < 3
  · interval_cases i <;> decide
  · have hp : 2 ^ 3 ≤ 2 ^ i := Nat.pow_le_pow_right (by norm_num) (by omega)
    have hlt : 6 < 2 ^ i := by omega
    rw [Nat.testBit_eq_false_of_lt hlt]
    have h1 : i ≠ 1 := by omega
    have h2 : i ≠ 2 := by omega
    simp [h1, h2]

theorem send_flags (m : Mem) (seq : Nat) (hlen : 16 ≤ m.length) :
    get_nlmsg_flags (set_u16 (set_u32 m 8 seq) 6
      (get_nlmsg_flags (set_u32 m 8 seq) ||| (NLM_F_ACK ||| NLM_F_MULTI))) =
    get_nlmsg_flags m ||| (NLM_F_ACK ||| NLM_F_MULTI) := by
  unfold get_nlmsg_flags
  rw [get_u16_set_u16_eq _ _ _ (by rw [length_set_u32]; omega),
    get_u16_set_u32_ne _ _ _ _ (by omega)]
  have h := get_u16_lt m 6
  have h6 : NLM_F_ACK ||| NLM_F_MULTI < 2 ^ 16 := by decide
  have hor : get_u16 m 6 ||| (NLM_F_ACK ||| NLM_F_MULTI) < 2 ^ 16 :=
    Nat.or_lt_two_pow (by norm_num; exact h) h6
  exact Nat.mod_eq_of_lt (by norm_num at hor; exact hor)

theorem send_ret_eq (nl : os_system_netlink) (c : Nat) (m : Mem) :
    (os_system_netlink_send nl c m).ret = (((c + 1) % 2147483648 : Nat) : Int) := by
  simp only [os_system_netlink_send, seq_mask_eq_mod]
  apply wrap_int32_of_lt <;> omega

/-! ## C6: sequence allocation -/

/-- C6, as stated, fails: when the previously assigned sequence is 2^31 - 1
the mask `& INT32_MAX` makes the next assigned sequence 0, not 1; the send
returns 0 and stamps 0 into the header. -/
theorem C6_sequence_zero_is_assigned :
    (os_system_netlink_send fresh_transport.nl 2147483647 example_request).ret = 0 ∧
    get_nlmsg_seq
      (os_system_netlink_send fresh_transport.nl 2147483647 example_request).nl_hdr = 0 := by
  decide

/-- C6, amended: for every counter value c the sequence assigned by
os_system_netlink_send is (c + 1) mod 2^31; it is 0 exactly when
c mod 2^31 = 2^31 - 1, so after the sequence 2^31 - 1 the next assigned
sequence is 0. -/
theorem C6_sequence_is_successor_mod_2_pow_31 (nl : os_system_netlink) (c : Nat) (m : Mem) :
    (os_system_netlink_send nl c m).ret = (((c + 1) % 2147483648 : Nat) : Int) ∧
    ((os_system_netlink_send nl c m).ret = 0 ↔ c % 2147483648 = 2147483647) ∧
    (os_system_netlink_send nl 2147483647 m).ret = 0 := by
  refine ⟨send_ret_eq nl c m, ?_, ?_⟩
  · rw [send_ret_eq nl c m]
    omega
  · rw [send_ret_eq]
    norm_num

/-! ## C7: what a send does -/

/-- C7: for every handler, every caller-built message (with room for its
header) and every counter value c, os_system_netlink_send returns
(c + 1) masked to 31 bits, a value in 0 .. 2^31 - 1, which is also the new
value of the one process-wide counter and the nlmsg_seq stamped into the
header; the header flags become the old flags with ACK and MULTI OR-ed in
(bits 1 and 2 set, every other bit kept); length, type and pid of the header
and every byte outside of the flags and sequence fields are kept; the
outbound buffer is its old content followed by exactly nlmsg_len bytes, the
first nlmsg_len bytes of the stamped message; and write-interest is set. -/
theorem C7_send_stamps_and_queues (nl : os_system_netlink) (c : Nat) (m : Mem)
    (hlen : 16 ≤ m.length) :
    (os_system_netlink_send nl c m).ret = (((c + 1) % 2147483648 : Nat) : Int) ∧
    0 ≤ (os_system_netlink_send nl c m).ret ∧
    (os_system_netlink_send nl c m).ret < 2147483648 ∧
    (os_system_netlink_send nl c m)._seq_used = (c + 1) % 2147483648 ∧
    get_nlmsg_seq (os_system_netlink_send nl c m).nl_hdr = (c + 1) % 2147483648 ∧
    get_nlmsg_flags (os_system_netlink_send nl c m).nl_hdr =
      get_nlmsg_flags m ||| (NLM_F_ACK ||| NLM_F_MULTI) ∧
    (∀ i, (get_nlmsg_flags (os_system_netlink_send nl c m).nl_hdr).testBit i =
      ((get_nlmsg_flags m).testBit i || (decide (i = 1) || decide (i = 2)))) ∧
    get_nlmsg_len (os_system_netlink_send nl c m).nl_hdr = get_nlmsg_len m ∧
    get_nlmsg_type (os_system_netlink_send nl c m).nl_hdr = get_nlmsg_type m ∧
    get_nlmsg_pid (os_system_netlink_send nl c m).nl_hdr = get_nlmsg_pid m ∧
    (∀ i, i < 6 ∨ 12 ≤ i →
      get_u8 (os_system_netlink_send nl c m).nl_hdr i = get_u8 m i) ∧
    (os_system_netlink_send nl c m).nl.out =
      nl.out ++ (List.range (get_nlmsg_len m)).map
        (fun i => get_u8 (os_system_netlink_send nl c m).nl_hdr i) ∧
    (os_system_netlink_send nl c m).nl.out.length = nl.out.length + get_nlmsg_len m ∧
    (os_system_netlink_send nl c m).nl.socket.event_write = true := by
  have hret := send_ret_eq nl c m
  have hflags := send_flags m ((c + 1) % 2147483648) hlen
  have hl : get_nlmsg_len (set_u16 (set_u32 m 8 ((c + 1) % 2147483648)) 6
      (get_nlmsg_flags (set_u32 m 8 ((c + 1) % 2147483648)) |||
        (NLM_F_ACK ||| NLM_F_MULTI))) = get_nlmsg_len m := by
    unfold get_nlmsg_len
    rw [get_u32_set_u16_ne _ _ _ _ (by omega), get_u32_set_u32_ne _ _ _ _ (by omega)]
  refine ⟨hret, ?_, ?_, ?_, ?_, ?_, ?_, ?_, ?_, ?_, ?_, ?_, ?_, ?_⟩
  · rw [hret]; omega
  · rw [hret]; omega
  · simp only [os_system_netlink_send, seq_mask_eq_mod]
  · simp only [os_system_netlink_send, seq_mask_eq_mod]
    unfold get_nlmsg_seq
    rw [get_u32_set_u16_ne _ _ _ _ (by omega), get_u32_set_u32_eq _ _ _ (by omega)]
    omega
  · simp only [os_system_netlink_send, seq_mask_eq_mod]
    exact hflags
  · intro i
    simp only [os_system_netlink_send, seq_mask_eq_mod]
    rw [hflags, Nat.testBit_or, flag_bits_testBit]
  · simp only [os_system_netlink_send, seq_mask_eq_mod]
    exact hl
  · simp only [os_system_netlink_send, seq_mask_eq_mod]
    unfold get_nlmsg_type
    rw [get_u16_set_u16_ne _ _ _ _ (by omega), get_u16_set_u32_ne _ _ _ _ (by omega)]
  · simp only [os_system_netlink_send, seq_mask_eq_mod]
    unfold get_nlmsg_pid
    rw [get_u32_set_u16_ne _ _ _ _ (by omega), get_u32_set_u32_ne _ _ _ _ (by omega)]
  · intro i hi
    simp only [os_system_netlink_send, seq_mask_eq_mod]
    rw [get_u8_set_u16_ne _ _ _ _ (by omega) (by omega),
      get_u8_set_u32_ne _ _ _ _ (by omega)]
  · simp only [os_system_netlink_send, seq_mask_eq_mod, abuf_memcpy]
    rw [hl]
  · simp only [os_system_netlink_send, seq_mask_eq_mod, abuf_memcpy]
    rw [hl]
    simp
  · simp [os_system_netlink_send, oonf_socket_set_write]

/-- C7 at a concrete input: a 16 byte request sent on a fresh handler while
the counter is 41. -/
theorem C7_send_stamps_and_queues_witness :
    16 ≤ example_request.length ∧
    (os_system_netlink_send fresh_transport.nl 41 example_request).ret = 42 ∧
    (os_system_netlink_send fresh_transport.nl 41 example_request).nl.out =
      [16, 0, 0, 0, 20, 0, 7, 0, 42, 0, 0, 0, 0, 0, 0, 0] :=
  ⟨by decide,
   (C7_send_stamps_and_queues fresh_transport.nl 41 example_request (by decide)).1.trans
     (by decide),
   by decide⟩

/-! ## C9: ERROR headers -/

/-- C9: for every ERROR header with nested error code e (an `int` other than
INT_MIN, whose negation is not an `int`) and embedded request sequence q,
processed for a handler with on-ack/done and on-error set and a non-negative
in-transit counter: if e = 0 exactly on-ack/done(q) is invoked, if e is not 0
exactly on-error(q, -e) is invoked, and in both cases the in-transit counter
is decreased by one unless it is already 0. -/
theorem C9_error_header_dispatch (nl : os_system_netlink) (nh : nlmsghdr)
    (hdone : nl.cb_done = true) (herror : nl.cb_error = true)
    (hmin : -2147483648 < nh.err_error) (hmax : nh.err_error < 2147483648)
    (htransit : 0 ≤ nl.msg_in_transit) :
    (nh.err_error = 0 →
      (_handle_nl_err nl nh).2 = [Callback.cb_done nh.err_msg_nlmsg_seq]) ∧
    (nh.err_error ≠ 0 →
      (_handle_nl_err nl nh).2 =
        [Callback.cb_error nh.err_msg_nlmsg_seq (-nh.err_error)]) ∧
    (_handle_nl_err nl nh).1.msg_in_transit =
      (if nl.msg_in_transit = 0 then 0 else nl.msg_in_transit - 1) := by
  refine ⟨?_, ?_, ?_⟩
  · intro h0
    simp [_handle_nl_err, h0, hdone]
  · intro h0
    have hw : wrap_int32 (-nh.err_error) = -nh.err_error :=
      wrap_int32_of_lt _ (by omega) (by omega)
    simp [_handle_nl_err, h0, herror, hw]
  · simp only [_handle_nl_err, _netlink_job_finished]
    by_cases hz : nl.msg_in_transit = 0
    · simp [hz]
    · have hpos : nl.msg_in_transit > 0 := by omega
      simp only [hpos, hz, if_true, if_false]
      split <;> rfl

/-- C9 at a concrete input: the kernel error field -17 (EEXIST) for the request
with sequence 7 is reported as on-error(7, 17), and an in-transit counter of 1
returns to 0. -/
theorem C9_error_header_dispatch_witness :
    (_handle_nl_err { fresh_transport.nl with msg_in_transit := 1 } (example_error 7 (-17))).2 =
      [Callback.cb_error 7 17] ∧
    (_handle_nl_err { fresh_transport.nl with msg_in_transit := 1 }
      (example_error 7 (-17))).1.msg_in_transit = 0 :=
  ⟨(C9_error_header_dispatch { fresh_transport.nl with msg_in_transit := 1 }
      (example_error 7 (-17)) rfl rfl (by decide) (by decide) (by decide)).2.1 (by decide),
   (C9_error_header_dispatch { fresh_transport.nl with msg_in_transit := 1 }
      (example_error 7 (-17)) rfl rfl (by decide) (by decide) (by decide)).2.2⟩

/-! ## C10: an attribute that does not fit -/

/-- C10: for every message with header length L and every attribute payload
length len >= 0 (with NLA_HDRLEN + len an `int`) such that
NLMSG_ALIGN(L) + NLA_HDRLEN + len exceeds UIO_MAXIOV (1024),
os_system_netlink_addreq returns -1 and the message memory it leaves is the
one it was given: no byte, nlmsg_len included, has changed. -/
theorem C10_addreq_rejects_oversize (n : Mem) (type : Int) (data : Mem) (len : Int)
    (hlen : 0 ≤ len) (hint : NLA_HDRLEN + len ≤ 2147483647)
    (hbig : (UIO_MAXIOV : Int) < (NLMSG_ALIGN (get_nlmsg_len n) : Int) + NLA_HDRLEN + len) :
    os_system_netlink_addreq n type data len = (n, -1) ∧
    get_nlmsg_len (os_system_netlink_addreq n type data len).1 = get_nlmsg_len n := by
  have ha := NLMSG_ALIGN_lt (get_nlmsg_len n)
  have hattr : (int_to_size_t (NLA_HDRLEN + len) : Int) = NLA_HDRLEN + len := by
    unfold int_to_size_t NLA_HDRLEN at *
    omega
  have hcond : (NLMSG_ALIGN (get_nlmsg_len n) + int_to_size_t (NLA_HDRLEN + len)) %
      18446744073709551616 > UIO_MAXIOV := by
    unfold NLA_HDRLEN UIO_MAXIOV at *
    omega
  have h : os_system_netlink_addreq n type data len = (n, -1) := by
    unfold os_system_netlink_addreq
    simp only [hcond, if_true]
  exact ⟨h, by rw [h]⟩

/-- C10 at a concrete input: a 16 byte message and a payload of 1008 bytes
(16 + 4 + 1008 = 1028 > 1024). -/
theorem C10_addreq_rejects_oversize_witness :
    os_system_netlink_addreq example_request 2 [] 1008 = (example_request, -1) :=
  (C10_addreq_rejects_oversize example_request 2 [] 1008 (by decide) (by decide)
    (by decide)).1

/-! ## What the receive pass leaves alone -/

theorem same_frame_refl (a : os_system_netlink) : same_frame a a :=
  ⟨rfl, rfl, rfl, rfl, rfl, rfl⟩

theorem same_frame_trans {a b c : os_system_netlink} (h1 : same_frame a b)
    (h2 : same_frame b c) : same_frame a c := by
  obtain ⟨a1, a2, a3, a4, a5, a6⟩ := h1
  obtain ⟨b1, b2, b3, b4, b5, b6⟩ := h2
  exact ⟨a1.trans b1, a2.trans b2, a3.trans b3, a4.trans b4, a5.trans b5, a6.trans b6⟩

theorem job_finished_frame (nl : os_system_netlink) :
    same_frame (_netlink_job_finished nl) nl := by
  unfold _netlink_job_finished same_frame
  dsimp only
  split_ifs <;> exact ⟨rfl, rfl, rfl, rfl, rfl, rfl⟩

theorem switch_frame (nl : os_system_netlink) (trig : Bool) (nh : nlmsghdr) :
    same_frame (_netlink_handler_switch nl trig nh).1 nl := by
  unfold _netlink_handler_switch
  split_ifs <;> first | exact same_frame_refl nl | exact job_finished_frame nl

theorem loop_frame (block : List nlmsghdr) :
    ∀ (nl : os_system_netlink) (first : Bool) (cur : Nat) (trig : Bool),
      same_frame (_netlink_handler_loop nl first cur trig block).nl nl := by
  induction block with
  | nil => intro nl first cur trig; exact same_frame_refl nl
  | cons nh rest ih =>
    intro nl first cur trig
    simp only [_netlink_handler_loop]
    exact same_frame_trans (ih _ _ _ _) (switch_frame _ _ _)

theorem end_frame (s : RcvState) : same_frame (_netlink_handler_end s).1 s.nl := by
  have h2 := job_finished_frame { s.nl with timeout := oonf_timer_stop s.nl.timeout }
  have h3 : same_frame { s.nl with timeout := oonf_timer_stop s.nl.timeout } s.nl :=
    ⟨rfl, rfl, rfl, rfl, rfl, rfl⟩
  have h4 := same_frame_trans h2 h3
  unfold _netlink_handler_end
  dsimp only
  split_ifs
  · exact same_frame_trans (b := _netlink_job_finished _) ⟨rfl, rfl, rfl, rfl, rfl, rfl⟩ h4
  · exact h4
  · exact ⟨rfl, rfl, rfl, rfl, rfl, rfl⟩
  · exact same_frame_refl _

theorem store_frame (nl : os_system_netlink) (block : List nlmsghdr) :
    same_frame (rcv_store nl block) nl := by
  cases block <;> exact ⟨rfl, rfl, rfl, rfl, rfl, rfl⟩

theorem rcv_frame (nl : os_system_netlink) (block : List nlmsghdr) :
    same_frame (_netlink_handler_rcv nl block).1 nl := by
  unfold _netlink_handler_rcv
  exact same_frame_trans (end_frame _)
    (same_frame_trans (loop_frame block _ true 0 false) (store_frame nl block))

theorem timer_fire_frame (nl : os_system_netlink) :
    same_frame (oonf_timer_fire nl).1 nl := by
  unfold oonf_timer_fire _cb_handle_netlink_timeout
  split
  · exact ⟨rfl, rfl, rfl, rfl, rfl, rfl⟩
  · exact same_frame_refl nl

/-! ## Unfolding the header loop -/

theorem loop_cons_calls (nl : os_system_netlink) (cur : Nat) (trig : Bool)
    (nh : nlmsghdr) (rest : List nlmsghdr) :
    (_netlink_handler_loop nl false cur trig (nh :: rest)).calls =
      ((if (cur != nh.nlmsg_seq && trig) = true then [call_cb_done nl cur] else []) ++
        (_netlink_handler_switch nl
          (if (cur != nh.nlmsg_seq && trig) = true then false else trig) nh).2.2) ++
      (_netlink_handler_loop
        (_netlink_handler_switch nl
          (if (cur != nh.nlmsg_seq && trig) = true then false else trig) nh).1
        false cur
        (_netlink_handler_switch nl
          (if (cur != nh.nlmsg_seq && trig) = true then false else trig) nh).2.1
        rest).calls := by
  simp [_netlink_handler_loop]

theorem loop_first (nl : os_system_netlink) (cur : Nat) (trig : Bool)
    (nh : nlmsghdr) (rest : List nlmsghdr) :
    _netlink_handler_loop nl true cur trig (nh :: rest) =
      _netlink_handler_loop nl false nh.nlmsg_seq trig (nh :: rest) := by
  simp [_netlink_handler_loop]

theorem loop_cons_trigger (nl : os_system_netlink) (cur : Nat) (trig : Bool)
    (nh : nlmsghdr) (rest : List nlmsghdr) :
    (_netlink_handler_loop nl false cur trig (nh :: rest)).trigger_is_done =
      (_netlink_handler_loop
        (_netlink_handler_switch nl
          (if (cur != nh.nlmsg_seq && trig) = true then false else trig) nh).1
        false cur
        (_netlink_handler_switch nl
          (if (cur != nh.nlmsg_seq && trig) = true then false else trig) nh).2.1
        rest).trigger_is_done := by
  simp [_netlink_handler_loop]

/-! ## C8: a non-empty outbound buffer has write-interest -/

theorem step_write_interest_ok (t : Transport) (op : TransportOp)
    (h : write_interest_ok t.nl) : write_interest_ok (transport_step t op).1.nl := by
  cases op with
  | send nl_hdr =>
    intro _
    simp [transport_step, os_system_netlink_send, oonf_socket_set_write]
  | writable ret err =>
    simp only [transport_step, _flush_netlink_buffer]
    split
    · exact h
    · intro hne
      simp [abuf_clear] at hne
  | readable block =>
    have hf := rcv_frame t.nl block
    simp only [transport_step]
    intro hne
    rw [hf.2.1]
    exact h (by rw [← hf.1]; exact hne)
  | timer_fires =>
    have hf := timer_fire_frame t.nl
    simp only [transport_step]
    intro hne
    rw [hf.2.1]
    exact h (by rw [← hf.1]; exact hne)

theorem run_write_interest_ok (ops : List TransportOp) :
    ∀ t : Transport, write_interest_ok t.nl →
      write_interest_ok (transport_run t ops).1.nl := by
  induction ops with
  | nil => intro t h; exact h
  | cons op ops ih =>
    intro t h
    simp only [transport_run]
    exact ih _ (step_write_interest_ok t op h)

/-- C8: starting from a handler on which a non-empty outbound buffer implies
write-interest (a freshly opened handler, whose buffer is empty, is one),
after every sequence of transport operations (sends, successful and failed
flushes, receive passes, timeout firings) the handler again satisfies: if the
outbound buffer is non-empty then write-interest is set on its socket
entry. -/
theorem C8_outbound_nonempty_implies_write_interest (t : Transport)
    (hstart : t.nl.out ≠ [] → t.nl.socket.event_write = true)
    (ops : List TransportOp) :
    (transport_run t ops).1.nl.out ≠ [] →
      (transport_run t ops).1.nl.socket.event_write = true :=
  run_write_interest_ok ops t hstart

/-- C8 at a concrete input: a fresh handler after a send, a failed flush and
another send has a non-empty outbound buffer and write-interest. -/
theorem C8_outbound_nonempty_implies_write_interest_witness :
    (transport_run fresh_transport
      [TransportOp.send example_request, TransportOp.writable (-1) 11,
       TransportOp.send example_request]).1.nl.out ≠ [] ∧
    (transport_run fresh_transport
      [TransportOp.send example_request, TransportOp.writable (-1) 11,
       TransportOp.send example_request]).1.nl.socket.event_write = true :=
  ⟨by decide,
   C8_outbound_nonempty_implies_write_interest fresh_transport (by decide)
     [TransportOp.send example_request, TransportOp.writable (-1) 11,
      TransportOp.send example_request] (by decide)⟩

/-! ## C1: terminating callbacks of a receive pass -/

/-- C1 fails on the code: of the block "data(seq 1), DONE(seq 1), data(seq 2),
DONE(seq 2)", the replies to two dumps, the receive pass reports
on-ack/done(1) twice and never on-ack/done(2): `current_seq` is only assigned
at the first header of the block. -/
theorem C1_done_reports_first_sequence :
    (_netlink_handler_rcv fresh_transport.nl
      [example_data 1, example_done 1, example_data 2, example_done 2]).2 =
    [Callback.cb_message (example_data 1), Callback.cb_done 1,
     Callback.cb_message (example_data 2), Callback.cb_done 1] := by
  decide

/-! ## C4: timeout armed iff requests in transit -/

/-- C4 fails on the code: after two sends that were flushed one by one, a
block with the DONE of the first request leaves one request in transit and
the timeout stopped; the end of `_netlink_handler` stops the timer before it
looks at the counter. -/
theorem C4_timeout_stopped_with_request_in_transit :
    (transport_run fresh_transport
      [TransportOp.send example_request, TransportOp.writable 16 0,
       TransportOp.send example_request, TransportOp.writable 16 0]).1.nl.msg_in_transit = 2 ∧
    (transport_run fresh_transport
      [TransportOp.send example_request, TransportOp.writable 16 0,
       TransportOp.send example_request, TransportOp.writable 16 0]).1.nl.timeout.running
      = true ∧
    (transport_run fresh_transport
      [TransportOp.send example_request, TransportOp.writable 16 0,
       TransportOp.send example_request, TransportOp.writable 16 0,
       TransportOp.readable [example_done 1]]).1.nl.msg_in_transit = 1 ∧
    (transport_run fresh_transport
      [TransportOp.send example_request, TransportOp.writable 16 0,
       TransportOp.send example_request, TransportOp.writable 16 0,
       TransportOp.readable [example_done 1]]).1.nl.timeout.running = false := by
  decide

/-! ## C5: the in-transit counter -/

theorem job_finished_in_transit (nl : os_system_netlink) :
    (_netlink_job_finished nl).msg_in_transit =
      if nl.msg_in_transit > 0 then nl.msg_in_transit - 1 else nl.msg_in_transit := by
  unfold _netlink_job_finished
  dsimp only
  split_ifs <;> rfl

theorem switch_in_transit (nl : os_system_netlink) (trig : Bool) (nh : nlmsghdr) :
    (_netlink_handler_switch nl trig nh).1.msg_in_transit =
      if nh.nlmsg_type = NLMSG_ERROR then
        (if nl.msg_in_transit > 0 then nl.msg_in_transit - 1 else nl.msg_in_transit)
      else nl.msg_in_transit := by
  unfold _netlink_handler_switch
  by_cases h1 : nh.nlmsg_type = NLMSG_NOOP
  · have h3 : nh.nlmsg_type ≠ NLMSG_ERROR := by rw [h1]; decide
    simp only [h1, if_true]
    rw [if_neg (by rw [← h1]; exact h3)]
  · by_cases h2 : nh.nlmsg_type = NLMSG_DONE
    · have h3 : nh.nlmsg_type ≠ NLMSG_ERROR := by rw [h2]; decide
      rw [if_neg h1, if_pos h2, if_neg h3]
    · by_cases h3 : nh.nlmsg_type = NLMSG_ERROR
      · rw [if_neg h1, if_neg h2, if_pos h3, if_pos h3]
        exact job_finished_in_transit nl
      · rw [if_neg h1, if_neg h2, if_neg h3, if_neg h3]

theorem error_headers_cons (nh : nlmsghdr) (rest : List nlmsghdr) :
    error_headers (nh :: rest) =
      (if nh.nlmsg_type = NLMSG_ERROR then 1 else 0) + error_headers rest := by
  unfold error_headers
  by_cases h3 : nh.nlmsg_type = NLMSG_ERROR
  · simp [h3, List.filter_cons]
    omega
  · simp [h3, List.filter_cons]

theorem loop_in_transit (block : List nlmsghdr) :
    ∀ (nl : os_system_netlink) (first : Bool) (cur : Nat) (trig : Bool),
      0 ≤ nl.msg_in_transit →
      (_netlink_handler_loop nl first cur trig block).nl.msg_in_transit =
        max 0 (nl.msg_in_transit - error_headers block) := by
  induction block with
  | nil =>
    intro nl first cur trig h
    simp [_netlink_handler_loop, error_headers]
    omega
  | cons nh rest ih =>
    intro nl first cur trig h
    simp only [_netlink_handler_loop]
    have hs := switch_in_transit nl
      (if ((if first then nh.nlmsg_seq else cur) != nh.nlmsg_seq && trig) = true
        then false else trig) nh
    have hnn : 0 ≤ (_netlink_handler_switch nl
      (if ((if first then nh.nlmsg_seq else cur) != nh.nlmsg_seq && trig) = true
        then false else trig) nh).1.msg_in_transit := by
      rw [hs]; split_ifs <;> omega
    rw [ih _ _ _ _ hnn, hs, error_headers_cons]
    split_ifs <;> push_cast <;> omega

theorem end_in_transit (s : RcvState) :
    (_netlink_handler_end s).1.msg_in_transit =
      if s.trigger_is_done then
        (if s.nl.msg_in_transit > 0 then s.nl.msg_in_transit - 1 else s.nl.msg_in_transit)
      else s.nl.msg_in_transit := by
  have h := job_finished_in_transit { s.nl with timeout := oonf_timer_stop s.nl.timeout }
  have hre : ∀ nl : os_system_netlink,
      (if oonf_timer_is_active nl.timeout = true then
        { nl with timeout := oonf_timer_set nl.timeout OS_SYSTEM_NETLINK_TIMEOUT }
      else nl).msg_in_transit = nl.msg_in_transit := by
    intro nl
    split_ifs <;> rfl
  unfold _netlink_handler_end
  dsimp only
  rw [hre]
  by_cases ht : s.trigger_is_done = true
  · rw [if_pos ht, if_pos ht]
    exact h
  · rw [if_neg ht, if_neg ht]

theorem store_in_transit (nl : os_system_netlink) (block : List nlmsghdr) :
    (rcv_store nl block).msg_in_transit = nl.msg_in_transit := by
  cases block <;> rfl

theorem rcv_in_transit (nl : os_system_netlink) (block : List nlmsghdr)
    (h : 0 ≤ nl.msg_in_transit) :
    (_netlink_handler_rcv nl block).1.msg_in_transit =
      max 0 (nl.msg_in_transit - ((error_headers block : Nat) +
        (if (_netlink_handler_loop (rcv_store nl block) true 0 false block).trigger_is_done
          then 1 else 0 : Int))) := by
  have hl := loop_in_transit block (rcv_store nl block) true 0 false
    (by rw [store_in_transit]; exact h)
  rw [store_in_transit] at hl
  unfold _netlink_handler_rcv
  dsimp only
  rw [end_in_transit, hl]
  split_ifs <;> omega

theorem step_in_transit (t : Transport) (op : TransportOp) (h : 0 ≤ t.nl.msg_in_transit) :
    (transport_step t op).1.nl.msg_in_transit = in_transit_after t t.nl.msg_in_transit op := by
  cases op with
  | send nl_hdr => rfl
  | writable ret err =>
    simp only [transport_step, _flush_netlink_buffer, in_transit_after]
    by_cases hr : ret ≤ 0
    · have : ¬ ret > 0 := by omega
      simp [hr, this]
    · have : ret > 0 := by omega
      simp [hr, this]
  | readable block =>
    simp only [transport_step, in_transit_after]
    exact rcv_in_transit t.nl block h
  | timer_fires =>
    simp only [transport_step, oonf_timer_fire, _cb_handle_netlink_timeout, in_transit_after]
    split_ifs <;> rfl

theorem step_in_transit_nonneg (t : Transport) (op : TransportOp)
    (h : 0 ≤ t.nl.msg_in_transit) : 0 ≤ (transport_step t op).1.nl.msg_in_transit := by
  rw [step_in_transit t op h]
  cases op with
  | send nl_hdr => exact h
  | writable ret err =>
    simp only [in_transit_after]
    split_ifs <;> omega
  | readable block =>
    simp only [in_transit_after]
    omega
  | timer_fires =>
    simp only [in_transit_after]
    split_ifs <;> omega

theorem run_in_transit_nonneg (ops : List TransportOp) :
    ∀ t : Transport, 0 ≤ t.nl.msg_in_transit →
      0 ≤ (transport_run t ops).1.nl.msg_in_transit := by
  induction ops with
  | nil => intro t h; exact h
  | cons op ops ih =>
    intro t h
    simp only [transport_run]
    exact ih _ (step_in_transit_nonneg t op h)

/-- C5, as stated, fails: two sends that are flushed together by one
successful flush leave the in-transit counter at 1, while two requests have
been flushed to the kernel and no callback has fired for either. -/
theorem C5_batched_flush_counts_once :
    (transport_run fresh_transport
      [TransportOp.send example_request, TransportOp.send example_request,
       TransportOp.writable 32 0]).1.nl.msg_in_transit = 1 ∧
    (transport_run fresh_transport
      [TransportOp.send example_request, TransportOp.send example_request,
       TransportOp.writable 32 0]).2 = [] ∧
    spec_outstanding fresh_transport 0 0
      [TransportOp.send example_request, TransportOp.send example_request,
       TransportOp.writable 32 0] = 2 := by
  decide

theorem switch_trigger_eq (nl : os_system_netlink) (trig : Bool) (nh : nlmsghdr) :
    (_netlink_handler_switch nl trig nh).2.1 =
      (if nh.nlmsg_type = NLMSG_DONE then true
       else if nh.nlmsg_type = NLMSG_ERROR then false
       else trig) := by
  unfold _netlink_handler_switch
  by_cases h1 : nh.nlmsg_type = NLMSG_NOOP
  · have h2 : nh.nlmsg_type ≠ NLMSG_DONE := by rw [h1]; decide
    have h3 : nh.nlmsg_type ≠ NLMSG_ERROR := by rw [h1]; decide
    rw [if_pos h1, if_neg h2, if_neg h3]
  · by_cases h2 : nh.nlmsg_type = NLMSG_DONE
    · rw [if_neg h1, if_pos h2, if_pos h2]
    · by_cases h3 : nh.nlmsg_type = NLMSG_ERROR
      · rw [if_neg h1, if_neg h2, if_pos h3, if_neg h2, if_pos h3]
      · rw [if_neg h1, if_neg h2, if_neg h3, if_neg h2, if_neg h3]

theorem loop_trigger_same_seq (block : List nlmsghdr) :
    ∀ (nl : os_system_netlink) (cur : Nat) (trig : Bool),
      (∀ nh ∈ block, nh.nlmsg_seq = cur) →
      (_netlink_handler_loop nl false cur trig block).trigger_is_done =
        pending_done trig block := by
  induction block with
  | nil => intro nl cur trig _; rfl
  | cons nh rest ih =>
    intro nl cur trig hseq
    have hcur : nh.nlmsg_seq = cur := hseq nh (List.mem_cons_self _ _)
    have hflush : (cur != nh.nlmsg_seq && trig) = false := by simp [hcur]
    rw [loop_cons_trigger, ih _ _ _ (fun x hx => hseq x (List.mem_cons_of_mem _ hx)),
      hflush]
    simp only [pending_done, Bool.false_eq_true, if_false, switch_trigger_eq]

theorem rcv_trigger_same_seq (nl : os_system_netlink) (block : List nlmsghdr)
    (hseq : ∀ nh ∈ block, nh.nlmsg_seq = first_seq block) :
    (_netlink_handler_loop (rcv_store nl block) true 0 false block).trigger_is_done =
      pending_done false block := by
  cases block with
  | nil => rfl
  | cons nh rest =>
    rw [loop_first]
    exact loop_trigger_same_seq _ _ _ _ hseq

/-- C5, amended: in every state reached from a handler whose in-transit
counter is not negative (a freshly opened one has 0) the counter is not
negative, and one more operation changes it as follows: a send and a failed
flush leave it unchanged; a successful flush adds exactly one, however many
sends it carries; a receive pass over a block whose headers all carry one
sequence number subtracts one for every ERROR header and one for a deferred
done that is pending when the block ends (its last DONE or ERROR header is a
DONE), stopping at 0; a firing of the timeout resets it to 0. -/
theorem C5_in_transit_counts_flushes (t : Transport) (hstart : 0 ≤ t.nl.msg_in_transit)
    (ops : List TransportOp) (op : TransportOp) :
    0 ≤ (transport_run t ops).1.nl.msg_in_transit ∧
    match op with
    | TransportOp.send _ =>
      (transport_step (transport_run t ops).1 op).1.nl.msg_in_transit =
        (transport_run t ops).1.nl.msg_in_transit
    | TransportOp.writable ret _ =>
      (transport_step (transport_run t ops).1 op).1.nl.msg_in_transit =
        if ret > 0 then (transport_run t ops).1.nl.msg_in_transit + 1
        else (transport_run t ops).1.nl.msg_in_transit
    | TransportOp.readable block =>
      (∀ nh ∈ block, nh.nlmsg_seq = first_seq block) →
      (transport_step (transport_run t ops).1 op).1.nl.msg_in_transit =
        max 0 ((transport_run t ops).1.nl.msg_in_transit -
          ((error_headers block : Nat) + (if pending_done false block then 1 else 0 : Int)))
    | TransportOp.timer_fires =>
      (transport_step (transport_run t ops).1 op).1.nl.msg_in_transit =
        if (transport_run t ops).1.nl.timeout.running then 0
        else (transport_run t ops).1.nl.msg_in_transit := by
  have hnn := run_in_transit_nonneg ops t hstart
  refine ⟨hnn, ?_⟩
  cases op with
  | send nl_hdr => exact step_in_transit _ _ hnn
  | writable ret err => exact step_in_transit _ _ hnn
  | readable block =>
    intro hseq
    have h := step_in_transit (transport_run t ops).1 (TransportOp.readable block) hnn
    simp only [in_transit_after, rcv_trigger_same_seq _ block hseq] at h
    exact h
  | timer_fires => exact step_in_transit _ _ hnn

/-- C5 (amended) at a concrete input: after two sends and one successful
flush on a fresh handler the counter is 1, and a block with one ERROR header
brings it back to 0. -/
theorem C5_in_transit_counts_flushes_witness :
    (transport_step (transport_run fresh_transport
      [TransportOp.send example_request, TransportOp.send example_request,
       TransportOp.writable 32 0]).1
      (TransportOp.readable [example_error 1 0])).1.nl.msg_in_transit = 0 :=
  ((C5_in_transit_counts_flushes fresh_transport (by decide)
    [TransportOp.send example_request, TransportOp.send example_request,
     TransportOp.writable 32 0] (TransportOp.readable [example_error 1 0])).2
      (by decide)).trans (by decide)

/-! ## C2: order of on-message calls -/

theorem messages_of_append (a b : List Callback) :
    messages_of (a ++ b) = messages_of a ++ messages_of b := by
  induction a with
  | nil => rfl
  | cons c a ih =>
    cases c <;> simp [messages_of, ih]

theorem messages_of_call_cb_done (nl : os_system_netlink) (seq : Nat) :
    messages_of [call_cb_done nl seq] = [] := by
  unfold call_cb_done
  split_ifs <;> rfl

theorem switch_messages (nl : os_system_netlink) (trig : Bool) (nh : nlmsghdr)
    (hm : nl.cb_message = true) :
    messages_of (_netlink_handler_switch nl trig nh).2.2 =
      if nh.is_data = true then [nh] else [] := by
  unfold _netlink_handler_switch nlmsghdr.is_data _handle_nl_err
  by_cases h1 : nh.nlmsg_type = NLMSG_NOOP
  · simp [h1, messages_of]
  · by_cases h2 : nh.nlmsg_type = NLMSG_DONE
    · simp [h1, h2, messages_of]
    · by_cases h3 : nh.nlmsg_type = NLMSG_ERROR
      · simp only [h1, h2, h3, if_true, if_false]
        split_ifs <;> simp_all [messages_of]
      · simp [h1, h2, h3, hm, messages_of]

theorem loop_messages (block : List nlmsghdr) :
    ∀ (nl : os_system_netlink) (cur : Nat) (trig : Bool), nl.cb_message = true →
      messages_of (_netlink_handler_loop nl false cur trig block).calls =
        block.filter nlmsghdr.is_data := by
  induction block with
  | nil => intro nl cur trig _; rfl
  | cons nh rest ih =>
    intro nl cur trig hm
    have hm2 : (_netlink_handler_switch nl
        (if (cur != nh.nlmsg_seq && trig) = true then false else trig) nh).1.cb_message
        = true := by
      rw [(switch_frame nl _ nh).2.2.1]; exact hm
    rw [loop_cons_calls, messages_of_append, messages_of_append, ih _ _ _ hm2,
      switch_messages _ _ _ hm]
    have hflush : messages_of
        (if (cur != nh.nlmsg_seq && trig) = true then [call_cb_done nl cur] else []) = [] := by
      split_ifs
      · exact messages_of_call_cb_done nl cur
      · rfl
    rw [hflush]
    by_cases hd : nh.is_data = true <;> simp [hd, List.filter_cons]

theorem end_messages (s : RcvState) : messages_of (_netlink_handler_end s).2 = [] := by
  unfold _netlink_handler_end
  dsimp only
  split_ifs
  · exact messages_of_call_cb_done _ _
  · rfl

theorem rcv_messages (nl : os_system_netlink) (block : List nlmsghdr)
    (hm : nl.cb_message = true) :
    messages_of (_netlink_handler_rcv nl block).2 = block.filter nlmsghdr.is_data := by
  have hs : (rcv_store nl block).cb_message = true := by
    rw [(store_frame nl block).2.2.1]; exact hm
  unfold _netlink_handler_rcv
  dsimp only
  rw [messages_of_append, end_messages, List.append_nil]
  cases block with
  | nil => rfl
  | cons nh rest =>
    rw [loop_first]
    exact loop_messages _ _ _ _ hs

theorem call_cb_done_not_message (nl : os_system_netlink) (seq S : Nat) :
    (call_cb_done nl seq).is_message_of S = false := by
  unfold call_cb_done
  split_ifs <;> rfl

theorem call_cb_done_terminates (nl : os_system_netlink) (seq S : Nat)
    (h : (call_cb_done nl seq).terminates S = true) : seq = S := by
  unfold call_cb_done at h
  split_ifs at h
  · simpa [Callback.terminates] using h
  · simp [Callback.terminates] at h

theorem switch_calls_cases (nl : os_system_netlink) (trig : Bool) (nh : nlmsghdr) :
    (_netlink_handler_switch nl trig nh).2.2 = [] ∨
    ((_netlink_handler_switch nl trig nh).2.2 = [Callback.cb_message nh] ∧
      nh.is_data = true) ∨
    (nh.nlmsg_type = NLMSG_ERROR ∧
      ((_netlink_handler_switch nl trig nh).2.2 =
          [Callback.cb_done nh.err_msg_nlmsg_seq] ∨
        (_netlink_handler_switch nl trig nh).2.2 =
          [Callback.cb_error nh.err_msg_nlmsg_seq (wrap_int32 (-nh.err_error))])) := by
  unfold _netlink_handler_switch
  by_cases h1 : nh.nlmsg_type = NLMSG_NOOP
  · rw [if_pos h1]
    exact Or.inl rfl
  · by_cases h2 : nh.nlmsg_type = NLMSG_DONE
    · rw [if_neg h1, if_pos h2]
      exact Or.inl rfl
    · by_cases h3 : nh.nlmsg_type = NLMSG_ERROR
      · rw [if_neg h1, if_neg h2, if_pos h3]
        unfold _handle_nl_err
        dsimp only
        split_ifs
        · exact Or.inr (Or.inr ⟨h3, Or.inr rfl⟩)
        · exact Or.inl rfl
        · exact Or.inr (Or.inr ⟨h3, Or.inl rfl⟩)
        · exact Or.inl rfl
      · rw [if_neg h1, if_neg h2, if_neg h3]
        dsimp only
        split_ifs
        · exact Or.inr (Or.inl ⟨rfl, by simp [nlmsghdr.is_data, h1, h2, h3]⟩)
        · exact Or.inl rfl

theorem switch_message_mem (nl : os_system_netlink) (trig : Bool) (nh : nlmsghdr)
    (S : Nat) (c : Callback) (hc : c ∈ (_netlink_handler_switch nl trig nh).2.2)
    (h : c.is_message_of S = true) : nh.is_data = true ∧ nh.nlmsg_seq = S := by
  rcases switch_calls_cases nl trig nh with h0 | ⟨h0, hd⟩ | ⟨_, h0 | h0⟩
  · rw [h0] at hc; simp at hc
  · rw [h0] at hc
    simp only [List.mem_singleton] at hc
    subst hc
    exact ⟨hd, by simpa [Callback.is_message_of] using h⟩
  · rw [h0] at hc
    simp only [List.mem_singleton] at hc
    subst hc
    simp [Callback.is_message_of] at h
  · rw [h0] at hc
    simp only [List.mem_singleton] at hc
    subst hc
    simp [Callback.is_message_of] at h

theorem switch_terminates_mem (nl : os_system_netlink) (trig : Bool) (nh : nlmsghdr)
    (S cur : Nat) (c : Callback) (hc : c ∈ (_netlink_handler_switch nl trig nh).2.2)
    (h : c.terminates S = true) : nh.closes S cur = true := by
  rcases switch_calls_cases nl trig nh with h0 | ⟨h0, _⟩ | ⟨ht, h0 | h0⟩
  · rw [h0] at hc; simp at hc
  · rw [h0] at hc
    simp only [List.mem_singleton] at hc
    subst hc
    simp [Callback.terminates] at h
  · rw [h0] at hc
    simp only [List.mem_singleton] at hc
    subst hc
    have hs : nh.err_msg_nlmsg_seq = S := by simpa [Callback.terminates] using h
    simp [nlmsghdr.closes, ht, hs]
  · rw [h0] at hc
    simp only [List.mem_singleton] at hc
    subst hc
    have hs : nh.err_msg_nlmsg_seq = S := by simpa [Callback.terminates] using h
    simp [nlmsghdr.closes, ht, hs]

theorem switch_pairwise (nl : os_system_netlink) (trig : Bool) (nh : nlmsghdr) (S : Nat) :
    List.Pairwise (message_not_after S) (_netlink_handler_switch nl trig nh).2.2 := by
  rcases switch_calls_cases nl trig nh with h0 | ⟨h0, _⟩ | ⟨_, h0 | h0⟩ <;>
    rw [h0] <;> simp

theorem switch_trigger (nl : os_system_netlink) (trig : Bool) (nh : nlmsghdr)
    (h : (_netlink_handler_switch nl trig nh).2.1 = true) :
    nh.nlmsg_type = NLMSG_DONE ∨ trig = true := by
  unfold _netlink_handler_switch at h
  by_cases h1 : nh.nlmsg_type = NLMSG_NOOP
  · rw [if_pos h1] at h; exact Or.inr h
  · by_cases h2 : nh.nlmsg_type = NLMSG_DONE
    · exact Or.inl h2
    · by_cases h3 : nh.nlmsg_type = NLMSG_ERROR
      · rw [if_neg h1, if_neg h2, if_pos h3] at h
        simp at h
      · rw [if_neg h1, if_neg h2, if_neg h3] at h
        exact Or.inr h

theorem loop_message_mem (S : Nat) (block : List nlmsghdr) :
    ∀ (nl : os_system_netlink) (cur : Nat) (trig : Bool) (c : Callback),
      c ∈ (_netlink_handler_loop nl false cur trig block).calls →
      c.is_message_of S = true →
      ∃ h ∈ block, h.is_data = true ∧ h.nlmsg_seq = S := by
  induction block with
  | nil =>
    intro nl cur trig c hc _
    simp [_netlink_handler_loop] at hc
  | cons nh rest ih =>
    intro nl cur trig c hc hmsg
    rw [loop_cons_calls] at hc
    rcases List.mem_append.mp hc with hc1 | hc3
    · rcases List.mem_append.mp hc1 with hc1 | hc2
      · split_ifs at hc1
        · simp only [List.mem_singleton] at hc1
          rw [hc1, call_cb_done_not_message] at hmsg
          exact absurd hmsg (by decide)
        · simp at hc1
      · exact ⟨nh, List.mem_cons_self _ _, switch_message_mem _ _ _ _ _ hc2 hmsg⟩
    · obtain ⟨h, hh, hd⟩ := ih _ _ _ c hc3 hmsg
      exact ⟨h, List.mem_cons_of_mem _ hh, hd⟩

theorem loop_pairwise (S : Nat) (block : List nlmsghdr) :
    ∀ (nl : os_system_netlink) (cur : Nat) (trig : Bool),
      block.Pairwise (data_not_after S cur) →
      (trig = true → S = cur → ∀ h ∈ block, ¬ (h.is_data = true ∧ h.nlmsg_seq = S)) →
      (_netlink_handler_loop nl false cur trig block).calls.Pairwise
        (message_not_after S) := by
  induction block with
  | nil =>
    intro nl cur trig _ _
    simp [_netlink_handler_loop]
  | cons nh rest ih =>
    intro nl cur trig hpw htrig
    rw [loop_cons_calls]
    obtain ⟨hhead, hrest⟩ := List.pairwise_cons.mp hpw
    rw [List.pairwise_append, List.pairwise_append]
    refine ⟨⟨?_, switch_pairwise _ _ _ _, ?_⟩, ?_, ?_⟩
    · split_ifs <;> simp
    · intro a ha b hb hterm
      by_contra hmsg
      have hmsg2 : b.is_message_of S = true := by simpa using hmsg
      have hb2 := switch_message_mem _ _ _ _ _ hb hmsg2
      split_ifs at ha with hflush
      · simp only [List.mem_singleton] at ha
        rw [ha] at hterm
        have hcur := call_cb_done_terminates _ _ _ hterm
        have hne : cur ≠ nh.nlmsg_seq := by
          intro he
          simp [he] at hflush
        exact hne (hcur.trans hb2.2.symm)
      · simp at ha
    · apply ih _ _ _ hrest
      intro ht hS h hh
      rcases switch_trigger _ _ _ ht with hdone | ht2
      · apply hhead h hh
        simp [nlmsghdr.closes, hdone, hS]
      · have ht3 : trig = true := by
          split_ifs at ht2 with hflush
          exact ht2
        exact htrig ht3 hS h (List.mem_cons_of_mem _ hh)
    · intro a ha b hb hterm
      by_contra hmsg
      have hmsg2 : b.is_message_of S = true := by simpa using hmsg
      obtain ⟨h, hh, hd⟩ := loop_message_mem S rest _ _ _ b hb hmsg2
      rcases List.mem_append.mp ha with ha1 | ha2
      · split_ifs at ha1 with hflush
        · simp only [List.mem_singleton] at ha1
          rw [ha1] at hterm
          have hcur := call_cb_done_terminates _ _ _ hterm
          have ht3 : trig = true := by
            simp only [Bool.and_eq_true] at hflush
            exact hflush.2
          exact htrig ht3 hcur.symm h (List.mem_cons_of_mem _ hh) hd
        · simp at ha1
      · exact hhead h hh (switch_terminates_mem _ _ _ S cur a ha2 hterm) hd

theorem end_not_message (s : RcvState) (S : Nat) :
    ∀ b ∈ (_netlink_handler_end s).2, b.is_message_of S = false := by
  unfold _netlink_handler_end
  dsimp only
  intro b hb
  split_ifs at hb
  · simp only [List.mem_singleton] at hb
    rw [hb]; exact call_cb_done_not_message _ _ _
  · simp at hb

theorem end_pairwise (s : RcvState) (S : Nat) :
    (_netlink_handler_end s).2.Pairwise (message_not_after S) := by
  unfold _netlink_handler_end
  dsimp only
  split_ifs <;> simp

theorem rcv_pairwise (nl : os_system_netlink) (block : List nlmsghdr) (S : Nat)
    (h : block.Pairwise (data_not_after S (first_seq block))) :
    (_netlink_handler_rcv nl block).2.Pairwise (message_not_after S) := by
  unfold _netlink_handler_rcv
  dsimp only
  rw [List.pairwise_append]
  refine ⟨?_, end_pairwise _ _, ?_⟩
  · cases block with
    | nil => simp [_netlink_handler_loop]
    | cons nh rest =>
      rw [loop_first]
      exact loop_pairwise S _ _ _ _ h (by intro ht; exact absurd ht (by decide))
  · intro a _ b hb _
    exact end_not_message _ S b hb

/-- C2, as stated, fails: in the block "ERROR(error 0, request seq 1),
data(seq 1)" the ERROR header is dispatched at once, so on-message for the
header with seq 1 is called after on-ack/done(1). -/
theorem C2_message_after_terminating_callback :
    (_netlink_handler_rcv fresh_transport.nl [example_error 1 0, example_data 1]).2 =
      [Callback.cb_done 1, Callback.cb_message (example_data 1)] ∧
    ¬ (_netlink_handler_rcv fresh_transport.nl
        [example_error 1 0, example_data 1]).2.Pairwise
      (fun a b => a.terminates 1 = true → b.is_message_of 1 = false) := by
  decide

/-- C2, amended: for every block processed by one receive pass of a handler
with on-message set, on-message is invoked for exactly the data headers (type
other than NOOP, DONE, ERROR), in the order they appear in the block; and for
every sequence number S such that no data header with seq S appears in the
block after a terminating header for S (a DONE header with seq S or an ERROR
header whose embedded request seq is S) nor, when S is the seq of the first
header of the block, after any DONE header, no on-message call for a header
with seq S happens after a terminating callback for S (on-ack/done(S) or
on-error(S, _)) emitted in that pass. -/
theorem C2_messages_in_order_before_termination (nl : os_system_netlink)
    (block : List nlmsghdr) (hmessage : nl.cb_message = true) :
    messages_of (_netlink_handler_rcv nl block).2 = block.filter nlmsghdr.is_data ∧
    ∀ S : Nat,
      block.Pairwise (fun x h =>
        x.closes S (first_seq block) = true → ¬ (h.is_data = true ∧ h.nlmsg_seq = S)) →
      (_netlink_handler_rcv nl block).2.Pairwise
        (fun a b => a.terminates S = true → b.is_message_of S = false) :=
  ⟨rcv_messages nl block hmessage, fun S h => rcv_pairwise nl block S h⟩

/-- C2 (amended) at a concrete input: the block "data(seq 1), data(seq 1),
DONE(seq 1)" of a dump. -/
theorem C2_messages_in_order_before_termination_witness :
    messages_of (_netlink_handler_rcv fresh_transport.nl
      [example_data 1, example_data 1, example_done 1]).2 =
      [example_data 1, example_data 1] ∧
    (_netlink_handler_rcv fresh_transport.nl
      [example_data 1, example_data 1, example_done 1]).2.Pairwise
      (fun a b => a.terminates 1 = true → b.is_message_of 1 = false) :=
  ⟨(C2_messages_in_order_before_termination fresh_transport.nl
      [example_data 1, example_data 1, example_done 1] rfl).1.trans (by decide),
   (C2_messages_in_order_before_termination fresh_transport.nl
      [example_data 1, example_data 1, example_done 1] rfl).2 1 (by decide)⟩

/-! ## C3: the completion callback of an address operation -/

theorem mem_list_remove (fb : List os_system_address) (a : os_system_address) (i : Nat) :
    a ∈ list_remove fb i ↔ a ∈ fb ∧ a.id ≠ i := by
  simp [list_remove, List.mem_filter]

theorem node_added_of_mem (fb : List os_system_address) (a : os_system_address)
    (h : a ∈ fb) : list_is_node_added fb a.id = true := by
  unfold list_is_node_added
  rw [List.any_eq_true]
  exact ⟨a, h, by simp⟩

theorem node_added_gone (fb : List os_system_address) (i : Nat) (h : Gone fb i) :
    list_is_node_added fb i = false := by
  unfold list_is_node_added
  rw [Bool.eq_false_iff]
  intro hc
  rw [List.any_eq_true] at hc
  obtain ⟨a, ha, hi⟩ := hc
  exact h a ha (by simpa using hi)

theorem address_finished_of_mem (fb : List os_system_address) (a : os_system_address)
    (e : Int) (h : a ∈ fb) :
    _address_finished fb a e =
      (list_remove fb a.id, if a.cb_finished then [(a.id, e)] else []) := by
  unfold _address_finished
  rw [if_pos (node_added_of_mem fb a h)]

theorem gone_remove (fb : List os_system_address) (i j : Nat) (h : Gone fb i) :
    Gone (list_remove fb j) i := by
  intro a ha
  exact h a ((mem_list_remove _ _ _).mp ha).1

theorem gone_remove_self (fb : List os_system_address) (i : Nat) :
    Gone (list_remove fb i) i := by
  intro a ha
  exact ((mem_list_remove _ _ _).mp ha).2

/-- C3 fails on the code: the operations 1 (sequence 5) and 2 (sequence 6)
are pending, both with a completion callback, and the events are a timeout,
then done(6) and an interrupt of operation 2. The timeout is the first event
that terminates operation 2, but the callback of operation 2 is not invoked:
`_cb_rtnetlink_timeout` finishes operation 1, the first entry of the list, and
then its traversal follows the link that `list_remove` has cleared and faults.
Operation 2 is still linked and its callback has been invoked zero times in
total. With error(6, 17) in place of the timeout it is invoked once, with
errno 17, and the later events do not invoke it again. -/
theorem C3_timeout_skips_pending_operation :
    feedback_run [example_address 1 5, example_address 2 6]
      [FeedbackEvent.timeout, FeedbackEvent.done 6, FeedbackEvent.interrupt 2] =
      { _rtnetlink_feedback := [example_address 2 6], calls := [(1, -1)], fault := true } ∧
    (feedback_run [example_address 1 5, example_address 2 6]
      [FeedbackEvent.timeout, FeedbackEvent.done 6,
       FeedbackEvent.interrupt 2]).calls.filter (fun c => c.1 == 2) = [] ∧
    feedback_run [example_address 1 5, example_address 2 6]
      [FeedbackEvent.error 6 17, FeedbackEvent.done 6, FeedbackEvent.interrupt 2] =
      { _rtnetlink_feedback := [example_address 1 5], calls := [(2, 17)],
        fault := false } := by
  decide

/-! ## C13: a failed flush -/

/-- C13 fails on the code: a fresh handler sends one request and the sendmsg
of the flush fails with errno 105. on-error is invoked once with 105, the
in-transit counter stays 0 and the timeout is not armed, but the outbound
buffer is not discarded: it still holds the 16 bytes of the request when the
flush returns (and write-interest is still set). -/
theorem C13_failed_flush_keeps_outbound_buffer :
    (transport_run fresh_transport
      [TransportOp.send example_request, TransportOp.writable (-1) 105]).2 =
      [Callback.cb_error 0 105] ∧
    (transport_run fresh_transport
      [TransportOp.send example_request, TransportOp.writable (-1) 105]).1.nl.out =
      [16, 0, 0, 0, 20, 0, 7, 0, 1, 0, 0, 0, 0, 0, 0, 0] ∧
    (transport_run fresh_transport
      [TransportOp.send example_request,
       TransportOp.writable (-1) 105]).1.nl.socket.event_write = true ∧
    (transport_run fresh_transport
      [TransportOp.send example_request,
       TransportOp.writable (-1) 105]).1.nl.msg_in_transit = 0 ∧
    (transport_run fresh_transport
      [TransportOp.send example_request,
       TransportOp.writable (-1) 105]).1.nl.timeout.running = false := by
  decide

/-! ## C14: the bytes of a flush -/

/-- C14 fails on the code: for a handler whose outbound buffer holds one
request of 16 bytes, the bytes handed to sendmsg are those 16 bytes only; the
DONE header is entry 1 of the iovec, and `_netlink_send_msg` passes
msg_iovlen = 1. -/
theorem C14_flush_sends_no_done_header :
    _flush_netlink_buffer_bytes
      (transport_run fresh_transport [TransportOp.send example_request]).1.nl =
      [16, 0, 0, 0, 20, 0, 7, 0, 1, 0, 0, 0, 0, 0, 0, 0] ∧
    _netlink_hdr_done = [16, 0, 0, 0, 3, 0, 0, 0, 0, 0, 0, 0, 0, 0, 0, 0] ∧
    _flush_netlink_buffer_bytes
      (transport_run fresh_transport [TransportOp.send example_request]).1.nl ≠
      (transport_run fresh_transport [TransportOp.send example_request]).1.nl.out ++
        _netlink_hdr_done := by
  decide

/-! ## C12: closing a handler -/

/-- C12, as stated, fails: a handler with one request in transit and its
timeout armed is closed; afterwards the timeout is still armed and its firing
invokes on-timeout. -/
theorem C12_timeout_survives_close :
    (transport_run fresh_transport
      [TransportOp.send example_request, TransportOp.writable 16 0]).1.nl.msg_in_transit
      = 1 ∧
    (os_system_netlink_remove [7] 7
      (transport_run fresh_transport
        [TransportOp.send example_request, TransportOp.writable 16 0]).1.nl).2.timeout.running
      = true ∧
    (oonf_timer_fire
      (os_system_netlink_remove [7] 7
        (transport_run fresh_transport
          [TransportOp.send example_request, TransportOp.writable 16 0]).1.nl).2).2 =
      [Callback.cb_timeout] := by
  decide

/-- C12, amended: after os_system_netlink_remove of a handler, for every prior
state of it, its socket entry is no longer registered (the other entries
still are), so no later writable or readable event reaches the handler and
none of the callbacks they invoke (message, ack/done, error) can fire; the
timeout and the in-transit counter are left as they were. -/
theorem C12_close_unregisters_socket (registry : List Nat) (entry : Nat)
    (nl : os_system_netlink) :
    entry ∉ (os_system_netlink_remove registry entry nl).1 ∧
    (∀ e, e ≠ entry → (e ∈ (os_system_netlink_remove registry entry nl).1 ↔ e ∈ registry)) ∧
    (∀ ret err,
      scheduler_writable (os_system_netlink_remove registry entry nl).1 entry
        (os_system_netlink_remove registry entry nl).2 ret err =
        ((os_system_netlink_remove registry entry nl).2, [])) ∧
    (∀ block,
      scheduler_readable (os_system_netlink_remove registry entry nl).1 entry
        (os_system_netlink_remove registry entry nl).2 block =
        ((os_system_netlink_remove registry entry nl).2, [])) ∧
    (os_system_netlink_remove registry entry nl).2.timeout = nl.timeout ∧
    (os_system_netlink_remove registry entry nl).2.msg_in_transit = nl.msg_in_transit := by
  have hnot : entry ∉ (os_system_netlink_remove registry entry nl).1 := by
    simp [os_system_netlink_remove, oonf_socket_remove]
  refine ⟨hnot, ?_, ?_, ?_, rfl, rfl⟩
  · intro e he
    simp [os_system_netlink_remove, oonf_socket_remove, he]
  · intro ret err
    unfold scheduler_writable
    rw [if_neg hnot]
  · intro block
    unfold scheduler_readable
    rw [if_neg hnot]

/-! ## C18: a multi-part dump -/

theorem switch_data (nl : os_system_netlink) (trig : Bool) (nh : nlmsghdr)
    (hd : nh.is_data = true) (hm : nl.cb_message = true) :
    _netlink_handler_switch nl trig nh = (nl, trig, [Callback.cb_message nh]) := by
  have h : nh.nlmsg_type ≠ NLMSG_NOOP ∧ nh.nlmsg_type ≠ NLMSG_DONE ∧
      nh.nlmsg_type ≠ NLMSG_ERROR := by
    simpa [nlmsghdr.is_data, and_assoc] using hd
  unfold _netlink_handler_switch
  rw [if_neg h.1, if_neg h.2.1, if_neg h.2.2, if_pos hm]

theorem switch_done (nl : os_system_netlink) (trig : Bool) (nh : nlmsghdr)
    (hd : nh.nlmsg_type = NLMSG_DONE) :
    _netlink_handler_switch nl trig nh = (nl, true, []) := by
  have h1 : nh.nlmsg_type ≠ NLMSG_NOOP := by rw [hd]; decide
  unfold _netlink_handler_switch
  rw [if_neg h1, if_pos hd]

theorem loop_cons_same_seq (nl : os_system_netlink) (cur : Nat) (trig : Bool)
    (nh : nlmsghdr) (rest : List nlmsghdr) (h : nh.nlmsg_seq = cur) :
    _netlink_handler_loop nl false cur trig (nh :: rest) =
      { nl := (_netlink_handler_loop (_netlink_handler_switch nl trig nh).1 false cur
          (_netlink_handler_switch nl trig nh).2.1 rest).nl,
        current_seq := (_netlink_handler_loop (_netlink_handler_switch nl trig nh).1 false
          cur (_netlink_handler_switch nl trig nh).2.1 rest).current_seq,
        trigger_is_done := (_netlink_handler_loop (_netlink_handler_switch nl trig nh).1
          false cur (_netlink_handler_switch nl trig nh).2.1 rest).trigger_is_done,
        calls := (_netlink_handler_switch nl trig nh).2.2 ++
          (_netlink_handler_loop (_netlink_handler_switch nl trig nh).1 false cur
            (_netlink_handler_switch nl trig nh).2.1 rest).calls } := by
  simp [_netlink_handler_loop, h]

theorem loop_dump (S : Nat) (dn : nlmsghdr) (hdone : dn.nlmsg_type = NLMSG_DONE)
    (hseq : dn.nlmsg_seq = S) (datas : List nlmsghdr) :
    ∀ (nl : os_system_netlink) (trig : Bool), nl.cb_message = true →
      (∀ h ∈ datas, h.is_data = true ∧ h.nlmsg_seq = S) →
      _netlink_handler_loop nl false S trig (datas ++ [dn]) =
        { nl := nl, current_seq := S, trigger_is_done := true,
          calls := datas.map Callback.cb_message } := by
  induction datas with
  | nil =>
    intro nl trig _ _
    rw [List.nil_append, loop_cons_same_seq _ _ _ _ _ hseq, switch_done _ _ _ hdone]
    simp [_netlink_handler_loop]
  | cons h rest ih =>
    intro nl trig hm hdata
    have hh := hdata h (List.mem_cons_self _ _)
    rw [List.cons_append, loop_cons_same_seq _ _ _ _ _ hh.2, switch_data nl trig h hh.1 hm]
    dsimp only
    rw [ih nl trig hm (fun x hx => hdata x (List.mem_cons_of_mem _ hx))]
    simp

theorem first_seq_dump (S : Nat) (dn : nlmsghdr) (hseq : dn.nlmsg_seq = S)
    (datas : List nlmsghdr) (hdata : ∀ h ∈ datas, h.is_data = true ∧ h.nlmsg_seq = S) :
    ∀ (nl : os_system_netlink) (cur : Nat) (trig : Bool),
      _netlink_handler_loop nl true cur trig (datas ++ [dn]) =
        _netlink_handler_loop nl false S trig (datas ++ [dn]) := by
  intro nl cur trig
  cases datas with
  | nil =>
    rw [List.nil_append, loop_first, hseq]
  | cons h rest =>
    rw [List.cons_append, loop_first, (hdata h (List.mem_cons_self _ _)).2]

theorem store_timeout (nl : os_system_netlink) (block : List nlmsghdr) :
    (rcv_store nl block).timeout = nl.timeout := by
  cases block <;> rfl

theorem end_pending (nl : os_system_netlink) (S : Nat) (calls : List Callback)
    (hd : nl.cb_done = true) :
    (_netlink_handler_end
      { nl := nl, current_seq := S, trigger_is_done := true, calls := calls }).2 =
      [Callback.cb_done S] ∧
    (_netlink_handler_end
      { nl := nl, current_seq := S, trigger_is_done := true, calls := calls }).1.msg_in_transit
      = (if nl.msg_in_transit > 0 then nl.msg_in_transit - 1 else nl.msg_in_transit) ∧
    (_netlink_handler_end
      { nl := nl, current_seq := S, trigger_is_done := true,
        calls := calls }).1.timeout.running = false := by
  have hrun : (_netlink_job_finished
      { nl with timeout := oonf_timer_stop nl.timeout }).timeout.running = false := by
    unfold _netlink_job_finished
    dsimp only
    split_ifs <;> rfl
  refine ⟨?_, ?_, ?_⟩
  · simp [_netlink_handler_end, call_cb_done, hd]
  · rw [end_in_transit]
    simp
  · unfold _netlink_handler_end
    dsimp only
    simp only [if_true, oonf_timer_is_active, hrun, Bool.false_eq_true, if_false]

/-- C18: for every n >= 0 and every sequence number S, a receive pass of a
handler with on-message and on-ack/done set (in-transit counter not negative)
over a block made of n data headers with seq S followed by one DONE header
with seq S invokes on-message once per data header, in block order, then
on-ack/done(S) once, and nothing else; the in-transit counter is decreased by
one, not below 0, and the timeout is stopped after the pass (in particular
when the counter reaches 0). -/
theorem C18_dump_messages_then_done (nl : os_system_netlink) (S : Nat)
    (datas : List nlmsghdr) (dn : nlmsghdr)
    (hdata : ∀ h ∈ datas, h.is_data = true ∧ h.nlmsg_seq = S)
    (hdone : dn.nlmsg_type = NLMSG_DONE) (hseq : dn.nlmsg_seq = S)
    (hmessage : nl.cb_message = true) (hcbdone : nl.cb_done = true)
    (htransit : 0 ≤ nl.msg_in_transit) :
    (_netlink_handler_rcv nl (datas ++ [dn])).2 =
      datas.map Callback.cb_message ++ [Callback.cb_done S] ∧
    ((_netlink_handler_rcv nl (datas ++ [dn])).2.filter
      (fun c => c matches Callback.cb_message _)).length = datas.length ∧
    (_netlink_handler_rcv nl (datas ++ [dn])).1.msg_in_transit =
      max 0 (nl.msg_in_transit - 1) ∧
    (_netlink_handler_rcv nl (datas ++ [dn])).1.timeout.running = false := by
  have hs := store_frame nl (datas ++ [dn])
  have hloop : _netlink_handler_loop (rcv_store nl (datas ++ [dn])) true 0 false
      (datas ++ [dn]) =
      { nl := rcv_store nl (datas ++ [dn]), current_seq := S, trigger_is_done := true,
        calls := datas.map Callback.cb_message } := by
    rw [first_seq_dump S dn hseq datas hdata]
    exact loop_dump S dn hdone hseq datas _ false (by rw [hs.2.2.1]; exact hmessage) hdata
  obtain ⟨e1, e2, e3⟩ := end_pending (rcv_store nl (datas ++ [dn])) S
    (datas.map Callback.cb_message) (by rw [hs.2.2.2.2.2]; exact hcbdone)
  have hcalls : (_netlink_handler_rcv nl (datas ++ [dn])).2 =
      datas.map Callback.cb_message ++ [Callback.cb_done S] := by
    unfold _netlink_handler_rcv
    dsimp only
    rw [hloop, e1]
  refine ⟨hcalls, ?_, ?_, ?_⟩
  · rw [hcalls, List.filter_append]
    have h1 : (datas.map Callback.cb_message).filter
        (fun c => c matches Callback.cb_message _) = datas.map Callback.cb_message := by
      rw [List.filter_eq_self]
      intro c hc
      obtain ⟨h, _, rfl⟩ := List.mem_map.mp hc
      rfl
    rw [h1]
    simp
  · unfold _netlink_handler_rcv
    dsimp only
    rw [hloop, e2, store_in_transit]
    split_ifs <;> omega
  · unfold _netlink_handler_rcv
    dsimp only
    rw [hloop, e3]

/-- C18 at a concrete input: three data headers with seq 9 and a DONE header
with seq 9, one request in transit. -/
theorem C18_dump_messages_then_done_witness :
    (_netlink_handler_rcv
      (transport_run fresh_transport
        [TransportOp.send example_request, TransportOp.writable 16 0]).1.nl
      ([example_data 9, example_data 9, example_data 9] ++ [example_done 9])).2 =
      [Callback.cb_message (example_data 9), Callback.cb_message (example_data 9),
       Callback.cb_message (example_data 9), Callback.cb_done 9] ∧
    (_netlink_handler_rcv
      (transport_run fresh_transport
        [TransportOp.send example_request, TransportOp.writable 16 0]).1.nl
      ([example_data 9, example_data 9, example_data 9] ++
        [example_done 9])).1.msg_in_transit = 0 :=
  ⟨(C18_dump_messages_then_done _ 9 [example_data 9, example_data 9, example_data 9]
      (example_done 9) (by decide) rfl rfl rfl rfl (by decide)).1,
   (C18_dump_messages_then_done _ 9 [example_data 9, example_data 9, example_data 9]
      (example_done 9) (by decide) rfl rfl rfl rfl (by decide)).2.2.1.trans (by decide)⟩

/-! ## C11: an attribute that fits -/

theorem and_align_mask (x : Nat) (h : x < 4294967296) : x &&& 4294967292 = x / 4 * 4 := by
  apply Nat.eq_of_testBit_eq
  intro i
  have hM : (4294967292 : Nat) = 2 ^ 2 * (2 ^ 30 - 1) := by norm_num
  have hx : x / 4 * 4 = 2 ^ 2 * (x >>> 2) := by
    rw [Nat.shiftRight_eq_div_pow]; norm_num [Nat.mul_comm]
  rw [Nat.testBit_and, hM, hx, Nat.testBit_mul_pow_two, Nat.testBit_mul_pow_two,
    Nat.testBit_two_pow_sub_one, Nat.testBit_shiftRight]
  by_cases h2 : 2 ≤ i
  · have e : 2 + (i - 2) = i := by omega
    simp only [ge_iff_le, h2, decide_True, Bool.true_and, e]
    by_cases h32 : i < 32
    · have : i - 2 < 30 := by omega
      simp [this]
    · have hlt : x < 2 ^ i := lt_of_lt_of_le h (by
        calc (4294967296 : Nat) = 2 ^ 32 := by norm_num
          _ ≤ 2 ^ i := Nat.pow_le_pow_right (by norm_num) (by omega))
      simp [Nat.testBit_eq_false_of_lt hlt]
  · simp [h2]

theorem NLMSG_ALIGN_eq (len : Nat) (h : len + 3 < 4294967296) :
    NLMSG_ALIGN len = (len + 3) / 4 * 4 := by
  unfold NLMSG_ALIGN NLMSG_ALIGNTO
  have e1 : (len + 4 - 1) % 4294967296 = len + 3 := by omega
  have e2 : 4294967295 - (4 - 1) = 4294967292 := by norm_num
  rw [e1, e2]
  exact and_align_mask _ h

theorem length_memcpy (dst : Mem) (off : Nat) (src : Mem) (k : Nat) :
    (memcpy dst off src k).length = dst.length := by
  induction k with
  | zero => rfl
  | succ k ih => simp [memcpy, length_set_u8, ih]

theorem get_u8_memcpy_out (dst : Mem) (off : Nat) (src : Mem) (k j : Nat)
    (h : j < off ∨ off + k ≤ j) : get_u8 (memcpy dst off src k) j = get_u8 dst j := by
  induction k with
  | zero => rfl
  | succ k ih =>
    simp only [memcpy]
    rw [get_u8_set_u8_ne _ _ _ _ (by omega), ih (by omega)]

theorem get_u8_memcpy_in (dst : Mem) (off : Nat) (src : Mem) (k i : Nat)
    (hi : i < k) (hlen : off + k ≤ dst.length) :
    get_u8 (memcpy dst off src k) (off + i) = get_u8 src i := by
  induction k with
  | zero => omega
  | succ k ih =>
    simp only [memcpy]
    by_cases hik : i = k
    · subst hik
      rw [get_u8_set_u8_eq _ _ _ (by rw [length_memcpy]; omega)]
      exact Nat.mod_eq_of_lt (get_u8_lt src i)
    · rw [get_u8_set_u8_ne _ _ _ _ (by omega), ih (by omega) (by omega)]

theorem get_u16_memcpy_out (dst : Mem) (off : Nat) (src : Mem) (k j : Nat)
    (h : j + 2 ≤ off ∨ off + k ≤ j) : get_u16 (memcpy dst off src k) j = get_u16 dst j := by
  unfold get_u16
  rw [get_u8_memcpy_out _ _ _ _ _ (by omega), get_u8_memcpy_out _ _ _ _ _ (by omega)]

theorem get_u32_memcpy_out (dst : Mem) (off : Nat) (src : Mem) (k j : Nat)
    (h : j + 4 ≤ off ∨ off + k ≤ j) : get_u32 (memcpy dst off src k) j = get_u32 dst j := by
  unfold get_u32
  rw [get_u16_memcpy_out _ _ _ _ _ (by omega), get_u16_memcpy_out _ _ _ _ _ (by omega)]

theorem addreq_fits (n : Mem) (type : Int) (data : Mem) (k : Nat)
    (hfit : NLMSG_ALIGN (get_nlmsg_len n) + 4 + k ≤ 1024) :
    os_system_netlink_addreq n type data (k : Int) =
      (memcpy
        (set_u32
          (set_u16 (set_u16 n (NLMSG_ALIGN (get_nlmsg_len n) + 2) (int_to_size_t type))
            (NLMSG_ALIGN (get_nlmsg_len n)) (4 + k))
          0 (NLMSG_ALIGN (get_nlmsg_len n) + (4 + k)))
        (NLMSG_ALIGN (get_nlmsg_len n) + 4) data k, 0) := by
  have hattr : int_to_size_t (NLA_HDRLEN + (k : Int)) = 4 + k := by
    unfold int_to_size_t NLA_HDRLEN
    omega
  have hk : int_to_size_t (k : Int) = k := by
    unfold int_to_size_t
    omega
  have h4 : int_to_size_t NLA_HDRLEN = 4 := by
    unfold int_to_size_t NLA_HDRLEN
    omega
  have hcond : ¬ (NLMSG_ALIGN (get_nlmsg_len n) + (4 + k)) % 18446744073709551616 >
      UIO_MAXIOV := by
    unfold UIO_MAXIOV
    omega
  unfold os_system_netlink_addreq
  simp only [hattr, hk, h4, hcond, if_false]
  by_cases h0 : (k : Int) = 0
  · have hk0 : k = 0 := by omega
    subst hk0
    simp [memcpy]
  · simp only [ne_eq, h0, not_false_eq_true, if_true]

/-- C11: for every message with header length L (16 <= L <= UIO_MAXIOV, in a
buffer of at least UIO_MAXIOV bytes) and every attribute (type in 0 .. 65535,
payload of len >= 0 bytes) with NLMSG_ALIGN(L) + NLA_HDRLEN + len <=
UIO_MAXIOV, os_system_netlink_addreq returns 0; NLMSG_ALIGN(L) is a multiple
of 4 with L <= NLMSG_ALIGN(L) < L + 4; at that offset there is then an
attribute header with nla_len = NLA_HDRLEN + len and nla_type = type, followed
by the len payload bytes; nlmsg_len is NLMSG_ALIGN(L) + NLA_HDRLEN + len; and
every byte outside of the nlmsg_len field and of the attribute is unchanged,
in particular every byte at an offset >= UIO_MAXIOV and every byte below
offset L other than the nlmsg_len field. -/
theorem C11_addreq_appends_attribute (n : Mem) (type : Int) (data : Mem) (len : Int)
    (hbuf : UIO_MAXIOV ≤ n.length)
    (hmin : 16 ≤ get_nlmsg_len n) (hmax : get_nlmsg_len n ≤ UIO_MAXIOV)
    (htype0 : 0 ≤ type) (htype1 : type < 65536) (hlen : 0 ≤ len)
    (hfit : (NLMSG_ALIGN (get_nlmsg_len n) : Int) + NLA_HDRLEN + len ≤ UIO_MAXIOV) :
    (os_system_netlink_addreq n type data len).2 = 0 ∧
    NLMSG_ALIGN (get_nlmsg_len n) % 4 = 0 ∧
    get_nlmsg_len n ≤ NLMSG_ALIGN (get_nlmsg_len n) ∧
    NLMSG_ALIGN (get_nlmsg_len n) < get_nlmsg_len n + 4 ∧
    (get_u16 (os_system_netlink_addreq n type data len).1
      (NLMSG_ALIGN (get_nlmsg_len n)) : Int) = NLA_HDRLEN + len ∧
    (get_u16 (os_system_netlink_addreq n type data len).1
      (NLMSG_ALIGN (get_nlmsg_len n) + 2) : Int) = type ∧
    (∀ i : Nat, (i : Int) < len →
      get_u8 (os_system_netlink_addreq n type data len).1
        (NLMSG_ALIGN (get_nlmsg_len n) + 4 + i) = get_u8 data i) ∧
    (get_nlmsg_len (os_system_netlink_addreq n type data len).1 : Int) =
      NLMSG_ALIGN (get_nlmsg_len n) + NLA_HDRLEN + len ∧
    (os_system_netlink_addreq n type data len).1.length = n.length ∧
    (∀ i : Nat, 4 ≤ i →
      (i < NLMSG_ALIGN (get_nlmsg_len n) ∨
        (NLMSG_ALIGN (get_nlmsg_len n) : Int) + NLA_HDRLEN + len ≤ i) →
      get_u8 (os_system_netlink_addreq n type data len).1 i = get_u8 n i) ∧
    (∀ i : Nat, UIO_MAXIOV ≤ i →
      get_u8 (os_system_netlink_addreq n type data len).1 i = get_u8 n i) ∧
    (∀ i : Nat, 4 ≤ i → i < get_nlmsg_len n →
      get_u8 (os_system_netlink_addreq n type data len).1 i = get_u8 n i) := by
  obtain ⟨k, rfl⟩ := Int.eq_ofNat_of_zero_le hlen
  obtain ⟨ty, rfl⟩ := Int.eq_ofNat_of_zero_le htype0
  unfold UIO_MAXIOV at hbuf hmax hfit
  unfold NLA_HDRLEN at hfit
  have hA := NLMSG_ALIGN_eq (get_nlmsg_len n) (by omega)
  have hfitN : NLMSG_ALIGN (get_nlmsg_len n) + 4 + k ≤ 1024 := by omega
  have hty : int_to_size_t (ty : Int) = ty := by
    unfold int_to_size_t
    omega
  rw [addreq_fits n _ data k hfitN, hty]
  have hAL : get_nlmsg_len n ≤ NLMSG_ALIGN (get_nlmsg_len n) := by omega
  have hAL4 : NLMSG_ALIGN (get_nlmsg_len n) < get_nlmsg_len n + 4 := by omega
  have hrest : ∀ i : Nat, 4 ≤ i →
      (i < NLMSG_ALIGN (get_nlmsg_len n) ∨
        (NLMSG_ALIGN (get_nlmsg_len n) : Int) + NLA_HDRLEN + (k : Int) ≤ i) →
      get_u8 (memcpy
        (set_u32
          (set_u16 (set_u16 n (NLMSG_ALIGN (get_nlmsg_len n) + 2) ty)
            (NLMSG_ALIGN (get_nlmsg_len n)) (4 + k))
          0 (NLMSG_ALIGN (get_nlmsg_len n) + (4 + k)))
        (NLMSG_ALIGN (get_nlmsg_len n) + 4) data k) i = get_u8 n i := by
    intro i h4 hi
    unfold NLA_HDRLEN at hi
    rw [get_u8_memcpy_out _ _ _ _ _ (by omega), get_u8_set_u32_ne _ _ _ _ (by omega),
      get_u8_set_u16_ne _ _ _ _ (by omega) (by omega),
      get_u8_set_u16_ne _ _ _ _ (by omega) (by omega)]
  refine ⟨rfl, by omega, hAL, hAL4, ?_, ?_, ?_, ?_, ?_, hrest, ?_, ?_⟩
  · rw [get_u16_memcpy_out _ _ _ _ _ (by omega), get_u16_set_u32_ne _ _ _ _ (by omega),
      get_u16_set_u16_eq _ _ _ (by rw [length_set_u16]; omega)]
    unfold NLA_HDRLEN
    omega
  · rw [get_u16_memcpy_out _ _ _ _ _ (by omega), get_u16_set_u32_ne _ _ _ _ (by omega),
      get_u16_set_u16_ne _ _ _ _ (by omega),
      get_u16_set_u16_eq _ _ _ (by omega)]
    omega
  · intro i hi
    have hik : i < k := by omega
    exact get_u8_memcpy_in _ _ _ _ _ hik
      (by rw [length_set_u32, length_set_u16, length_set_u16]; omega)
  · unfold get_nlmsg_len at *
    rw [get_u32_memcpy_out _ _ _ _ _ (by omega),
      get_u32_set_u32_eq _ _ _ (by rw [length_set_u16, length_set_u16]; omega)]
    unfold NLA_HDRLEN
    omega
  · rw [length_memcpy, length_set_u32, length_set_u16, length_set_u16]
  · intro i hi
    unfold UIO_MAXIOV at hi
    exact hrest i (by omega) (Or.inr (by unfold NLA_HDRLEN; omega))
  · intro i h4 hi
    exact hrest i h4 (Or.inl (by omega))

theorem example_buffer_length : example_buffer.length = 1024 := by
  simp only [example_buffer, length_set_u32, List.length_replicate]

theorem example_buffer_len : get_nlmsg_len example_buffer = 20 := by
  unfold get_nlmsg_len example_buffer
  rw [get_u32_set_u32_eq _ _ _ (by rw [List.length_replicate]; omega)]

theorem example_buffer_align : NLMSG_ALIGN (get_nlmsg_len example_buffer) = 20 := by
  rw [example_buffer_len]
  decide

/-- C11 at a concrete input: the attribute (type 3, payload 5 0 0 0) is added
to a message of header length 20 in a buffer of 1024 bytes; the function
returns 0 and the header length becomes 28. -/
theorem C11_addreq_appends_attribute_witness :
    (os_system_netlink_addreq example_buffer 3 [5, 0, 0, 0] 4).2 = 0 ∧
    (get_nlmsg_len (os_system_netlink_addreq example_buffer 3 [5, 0, 0, 0] 4).1 : Int) =
      28 :=
  ⟨(C11_addreq_appends_attribute example_buffer 3 [5, 0, 0, 0] 4
      (by simp [example_buffer_length, UIO_MAXIOV])
      (by simp [example_buffer_len])
      (by simp [example_buffer_len, UIO_MAXIOV])
      (by decide) (by decide) (by decide)
      (by simp [example_buffer_align, NLA_HDRLEN, UIO_MAXIOV])).1,
   (C11_addreq_appends_attribute example_buffer 3 [5, 0, 0, 0] 4
      (by simp [example_buffer_length, UIO_MAXIOV])
      (by simp [example_buffer_len])
      (by simp [example_buffer_len, UIO_MAXIOV])
      (by decide) (by decide) (by decide)
      (by simp [example_buffer_align, NLA_HDRLEN, UIO_MAXIOV])).2.2.2.2.2.2.2.1.trans
      (by simp [example_buffer_align, NLA_HDRLEN])⟩

/-! ## C15: the operation is detached before its callback runs -/

theorem list_remove_middle (pre post : List os_system_address) (op : os_system_address)
    (hother : ∀ a ∈ pre ++ post, a.id ≠ op.id) :
    list_remove (pre ++ op :: post) op.id = pre ++ post := by
  have hpre : pre.filter (fun a => a.id != op.id) = pre := by
    rw [List.filter_eq_self]
    intro a ha
    simpa using hother a (List.mem_append_left _ ha)
  have hpost : post.filter (fun a => a.id != op.id) = post := by
    rw [List.filter_eq_self]
    intro a ha
    simpa using hother a (List.mem_append_right _ ha)
  unfold list_remove
  rw [List.filter_append, List.filter_cons, hpre, hpost]
  simp

theorem find_middle (pre post : List os_system_address) (op : os_system_address)
    (hother : ∀ a ∈ pre ++ post, a.id ≠ op.id) :
    (pre ++ op :: post).find? (fun a => a.id == op.id) = some op := by
  induction pre with
  | nil => simp
  | cons b pre ih =>
    have hb : b.id ≠ op.id := hother b (by simp)
    have hbeq : (b.id == op.id) = false := by simpa using hb
    rw [List.cons_append, List.find?_cons, hbeq]
    exact ih (fun a ha => hother a (by
      rw [List.cons_append]
      exact List.mem_cons_of_mem _ ha))

theorem interrupt_of_gone (fb : List os_system_address) (i : Nat) (hg : Gone fb i) :
    os_system_ifaddr_interrupt fb i = (fb, []) := by
  have hf : fb.find? (fun a => a.id == i) = none := by
    rw [List.find?_eq_none]
    intro a ha
    simpa using hg a ha
  unfold os_system_ifaddr_interrupt
  rw [hf]

theorem address_finished_steps_eq (fb : List os_system_address) (addr : os_system_address)
    (e : Int) :
    _address_finished fb addr e =
      (feedback_after fb (_address_finished_steps fb addr e),
       (callbacks_with_list fb (_address_finished_steps fb addr e)).map
         (fun c => (c.1, c.2.1))) := by
  unfold _address_finished _address_finished_steps
  by_cases hadd : list_is_node_added fb addr.id = true
  · rw [if_pos hadd, if_pos hadd]
    by_cases hcb : addr.cb_finished = true
    · rw [if_pos hcb, if_pos hcb]
      rfl
    · rw [if_neg hcb, if_neg hcb]
      rfl
  · rw [if_neg hadd, if_neg hadd]
    rfl

theorem interrupt_steps_eq (fb : List os_system_address) (addr : Nat) :
    os_system_ifaddr_interrupt fb addr =
      (feedback_after fb (os_system_ifaddr_interrupt_steps fb addr),
       (callbacks_with_list fb (os_system_ifaddr_interrupt_steps fb addr)).map
         (fun c => (c.1, c.2.1))) := by
  unfold os_system_ifaddr_interrupt os_system_ifaddr_interrupt_steps
  cases hf : fb.find? (fun a => a.id == addr) with
  | none => rfl
  | some a =>
    dsimp only
    by_cases hcb : a.cb_finished = true
    · rw [if_pos hcb, if_pos hcb]
      rfl
    · rw [if_neg hcb, if_neg hcb]
      rfl

theorem address_finished_callbacks (fb : List os_system_address)
    (addr : os_system_address) (e : Int) :
    callbacks_with_list fb (_address_finished_steps fb addr e) =
      if list_is_node_added fb addr.id = true ∧ addr.cb_finished = true then
        [(addr.id, e, list_remove fb addr.id)]
      else [] := by
  unfold _address_finished_steps
  by_cases hadd : list_is_node_added fb addr.id = true
  · rw [if_pos hadd]
    by_cases hcb : addr.cb_finished = true
    · rw [if_pos hcb, if_pos ⟨hadd, hcb⟩]
      rfl
    · rw [if_neg hcb, if_neg (fun h => hcb h.2)]
      rfl
  · rw [if_neg hadd, if_neg (fun h => hadd h.1)]
    rfl

theorem interrupt_callbacks (fb : List os_system_address) (addr : Nat) :
    ∀ c ∈ callbacks_with_list fb (os_system_ifaddr_interrupt_steps fb addr),
      c = (addr, -1, list_remove fb addr) := by
  intro c hc
  unfold os_system_ifaddr_interrupt_steps at hc
  cases hf : fb.find? (fun a => a.id == addr) with
  | none =>
    rw [hf] at hc
    exact absurd hc (List.not_mem_nil _)
  | some a =>
    have hs : a.id = addr := by simpa using List.find?_some hf
    rw [hf] at hc
    dsimp only at hc
    by_cases hcb : a.cb_finished = true
    · rw [if_pos hcb] at hc
      simp only [callbacks_with_list, List.mem_singleton] at hc
      rw [hc, hs]
    · rw [if_neg hcb] at hc
      exact absurd hc (List.not_mem_nil _)

/-- C15: `_address_finished`, through which ack/done, error and timeout invoke
the completion callback, and os_system_ifaddr_interrupt execute `list_remove`
before they call the callback. Whenever either of them calls the completion
callback of an operation, the feedback list that the callback finds is the
list without the operation: the operation is not in it, and an
os_system_ifaddr_interrupt of the operation issued at that moment invokes
nothing and changes nothing. For a feedback list "pre, op, post" in which no
other entry is the object op, each of them leaves the list "pre, post" (op
gone, the others in their original order), which is also the list the
callback runs in, and calls the callback of op at most once. The callbacks
that `_cb_rtnetlink_done`, `_cb_rtnetlink_error` and `_cb_rtnetlink_timeout`
invoke are those of their calls of `_address_finished`. -/
theorem C15_operation_detached_before_callback (pre post : List os_system_address)
    (op : os_system_address) (error : Int)
    (hother : ∀ a ∈ pre ++ post, a.id ≠ op.id) :
    _address_finished (pre ++ op :: post) op error =
      (pre ++ post, if op.cb_finished then [(op.id, error)] else []) ∧
    os_system_ifaddr_interrupt (pre ++ op :: post) op.id =
      (pre ++ post, if op.cb_finished then [(op.id, -1)] else []) ∧
    os_system_ifaddr_interrupt (pre ++ post) op.id = (pre ++ post, []) ∧
    (∀ (fb : List os_system_address) (addr : os_system_address) (e : Int),
      (_address_finished fb addr e).2 ≠ [] →
      Gone (_address_finished fb addr e).1 addr.id ∧
      os_system_ifaddr_interrupt (_address_finished fb addr e).1 addr.id =
        ((_address_finished fb addr e).1, [])) ∧
    (∀ (fb : List os_system_address) (addr : Nat),
      (os_system_ifaddr_interrupt fb addr).2 ≠ [] →
      Gone (os_system_ifaddr_interrupt fb addr).1 addr ∧
      os_system_ifaddr_interrupt (os_system_ifaddr_interrupt fb addr).1 addr =
        ((os_system_ifaddr_interrupt fb addr).1, [])) ∧
    callbacks_with_list (pre ++ op :: post)
        (_address_finished_steps (pre ++ op :: post) op error) =
      (if op.cb_finished then [(op.id, error, pre ++ post)] else []) ∧
    (∀ c ∈ callbacks_with_list (pre ++ op :: post)
        (os_system_ifaddr_interrupt_steps (pre ++ op :: post) op.id),
      c = (op.id, -1, pre ++ post)) ∧
    (∀ (fb : List os_system_address) (addr : os_system_address) (e : Int),
      _address_finished fb addr e =
        (feedback_after fb (_address_finished_steps fb addr e),
         (callbacks_with_list fb (_address_finished_steps fb addr e)).map
           (fun c => (c.1, c.2.1))) ∧
      ∀ c ∈ callbacks_with_list fb (_address_finished_steps fb addr e),
        c = (addr.id, e, list_remove fb addr.id) ∧ Gone c.2.2 addr.id ∧
        os_system_ifaddr_interrupt c.2.2 addr.id = (c.2.2, [])) ∧
    (∀ (fb : List os_system_address) (addr : Nat),
      os_system_ifaddr_interrupt fb addr =
        (feedback_after fb (os_system_ifaddr_interrupt_steps fb addr),
         (callbacks_with_list fb (os_system_ifaddr_interrupt_steps fb addr)).map
           (fun c => (c.1, c.2.1))) ∧
      ∀ c ∈ callbacks_with_list fb (os_system_ifaddr_interrupt_steps fb addr),
        c = (addr, -1, list_remove fb addr) ∧ Gone c.2.2 addr ∧
        os_system_ifaddr_interrupt c.2.2 addr = (c.2.2, [])) ∧
    (∀ (fb : List os_system_address) (seq : Nat) (e : Int),
      (_cb_rtnetlink_error fb seq e = (fb, []) ∨
        ∃ addr, _cb_rtnetlink_error fb seq e = _address_finished fb addr e) ∧
      (_cb_rtnetlink_done fb seq = (fb, []) ∨
        ∃ addr, _cb_rtnetlink_done fb seq = _address_finished fb addr 0)) ∧
    (∀ (a : os_system_address) (rest : List os_system_address),
      (_cb_rtnetlink_timeout (a :: rest)).calls =
        (_address_finished (a :: rest) a (-1)).2) := by
  refine ⟨?_, ?_, interrupt_of_gone _ _ hother, ?_, ?_, ?_, ?_, ?_, ?_, ?_, ?_⟩
  · rw [address_finished_of_mem _ _ _ (by simp), list_remove_middle pre post op hother]
  · unfold os_system_ifaddr_interrupt
    rw [find_middle pre post op hother]
    simp only [list_remove_middle pre post op hother]
  · intro fb addr e hne
    unfold _address_finished at hne ⊢
    by_cases hadd : list_is_node_added fb addr.id = true
    · rw [if_pos hadd]
      exact ⟨gone_remove_self fb addr.id, interrupt_of_gone _ _ (gone_remove_self fb addr.id)⟩
    · rw [if_neg hadd] at hne
      exact absurd rfl hne
  · intro fb addr hne
    unfold os_system_ifaddr_interrupt at hne ⊢
    cases hf : fb.find? (fun a => a.id == addr) with
    | none =>
      rw [hf] at hne
      exact absurd rfl hne
    | some a =>
      have hs : a.id = addr := by simpa using List.find?_some hf
      subst hs
      exact ⟨gone_remove_self fb a.id, interrupt_of_gone _ _ (gone_remove_self fb a.id)⟩
  · rw [address_finished_callbacks, node_added_of_mem _ _ (by simp),
      list_remove_middle pre post op hother]
    by_cases hcb : op.cb_finished = true
    · rw [if_pos ⟨rfl, hcb⟩, if_pos hcb]
    · rw [if_neg (fun h => hcb h.2), if_neg hcb]
  · intro c hc
    rw [interrupt_callbacks _ _ c hc, list_remove_middle pre post op hother]
  · intro fb addr e
    refine ⟨address_finished_steps_eq fb addr e, ?_⟩
    intro c hc
    rw [address_finished_callbacks] at hc
    split_ifs at hc
    · rw [List.mem_singleton] at hc
      rw [hc]
      exact ⟨rfl, gone_remove_self fb addr.id,
        interrupt_of_gone _ _ (gone_remove_self fb addr.id)⟩
    · exact absurd hc (List.not_mem_nil _)
  · intro fb addr
    refine ⟨interrupt_steps_eq fb addr, ?_⟩
    intro c hc
    rw [interrupt_callbacks fb addr c hc]
    exact ⟨rfl, gone_remove_self fb addr, interrupt_of_gone _ _ (gone_remove_self fb addr)⟩
  · intro fb seq e
    refine ⟨?_, ?_⟩
    · unfold _cb_rtnetlink_error
      cases fb.find? (fun a => seq == a.nl_seq) with
      | none => exact Or.inl rfl
      | some addr => exact Or.inr ⟨addr, rfl⟩
    · unfold _cb_rtnetlink_done
      cases fb.find? (fun a => seq == a.nl_seq) with
      | none => exact Or.inl rfl
      | some addr => exact Or.inr ⟨addr, rfl⟩
  · intro a rest
    unfold _cb_rtnetlink_timeout
    have hgone : list_is_node_added (_address_finished (a :: rest) a (-1)).1 a.id = false := by
      rw [address_finished_of_mem _ _ _ (List.mem_cons_self _ _)]
      exact node_added_gone _ _ (gone_remove_self _ _)
    simp only [_cb_rtnetlink_timeout_loop, hgone, Bool.false_eq_true, if_false]

/-- C15 at a concrete input: operation 2 is interrupted while operations 1, 2
and 3 are pending; its callback runs in the list of 1 and 3, and 1 and 3
remain, in that order. -/
theorem C15_operation_detached_before_callback_witness :
    os_system_ifaddr_interrupt
      ([example_address 1 5] ++ example_address 2 6 :: [example_address 3 7])
      (example_address 2 6).id =
      ([example_address 1 5] ++ [example_address 3 7],
        if (example_address 2 6).cb_finished then [((example_address 2 6).id, -1)]
        else []) ∧
    callbacks_with_list
      ([example_address 1 5] ++ example_address 2 6 :: [example_address 3 7])
      (_address_finished_steps
        ([example_address 1 5] ++ example_address 2 6 :: [example_address 3 7])
        (example_address 2 6) 0) =
      [(2, 0, [example_address 1 5, example_address 3 7])] :=
  ⟨(C15_operation_detached_before_callback [example_address 1 5] [example_address 3 7]
      (example_address 2 6) 0 (by decide)).2.1,
   (C15_operation_detached_before_callback [example_address 1 5] [example_address 3 7]
      (example_address 2 6) 0 (by decide)).2.2.2.2.2.1⟩

/-! ## C16: a timeout with pending operations -/

theorem timeout_first_then_fault (a : os_system_address) (rest : List os_system_address) :
    _cb_rtnetlink_timeout (a :: rest) =
      { _rtnetlink_feedback := list_remove (a :: rest) a.id,
        calls := if a.cb_finished then [(a.id, -1)] else [],
        fault := true } := by
  have hfin := address_finished_of_mem (a :: rest) a (-1) (List.mem_cons_self _ _)
  have hgone : list_is_node_added (list_remove (a :: rest) a.id) a.id = false :=
    node_added_gone _ _ (gone_remove_self _ _)
  unfold _cb_rtnetlink_timeout
  simp only [_cb_rtnetlink_timeout_loop, hfin, hgone, Bool.false_eq_true, if_false]

/-- C16 fails on the code: the timeout of the RTNETLINK transport fires while
the operations 1 and 2 are pending, both with a completion callback.
on-timeout is invoked; `_cb_rtnetlink_timeout` invokes the callback of
operation 1 with errno -1 and then faults, because its traversal goes on from
the entry that `_address_finished` has just detached. The callback of
operation 2 is not invoked and operation 2 stays in the feedback list. With
one pending operation its callback is invoked and the list is empty, but the
traversal faults as well; with none nothing happens. For every list of
k >= 1 pending operations the callback of the first is the only one invoked,
the others stay in the list, and the traversal faults. -/
theorem C16_timeout_finishes_first_operation_only :
    (transport_step
      (transport_run fresh_transport
        [TransportOp.send example_request, TransportOp.writable 16 0]).1
      TransportOp.timer_fires).2 = [Callback.cb_timeout] ∧
    _cb_rtnetlink_timeout [example_address 1 5, example_address 2 6] =
      { _rtnetlink_feedback := [example_address 2 6], calls := [(1, -1)], fault := true } ∧
    (rtnetlink_step
      { t := (transport_run fresh_transport
          [TransportOp.send example_request, TransportOp.writable 16 0]).1,
        _rtnetlink_feedback := [example_address 1 5, example_address 2 6] }
      TransportOp.timer_fires).2 = [(1, -1)] ∧
    (rtnetlink_step
      { t := (transport_run fresh_transport
          [TransportOp.send example_request, TransportOp.writable 16 0]).1,
        _rtnetlink_feedback := [example_address 1 5, example_address 2 6] }
      TransportOp.timer_fires).1._rtnetlink_feedback = [example_address 2 6] ∧
    _cb_rtnetlink_timeout [example_address 1 5] =
      { _rtnetlink_feedback := [], calls := [(1, -1)], fault := true } ∧
    _cb_rtnetlink_timeout [] =
      { _rtnetlink_feedback := [], calls := [], fault := false } ∧
    (∀ (a : os_system_address) (rest : List os_system_address),
      _cb_rtnetlink_timeout (a :: rest) =
        { _rtnetlink_feedback := list_remove (a :: rest) a.id,
          calls := if a.cb_finished then [(a.id, -1)] else [],
          fault := true }) := by
  refine ⟨by decide, by decide, by decide, by decide, by decide, by decide, ?_⟩
  exact timeout_first_then_fault

/-! ## C17: submitting an address operation -/

theorem get_u8_set_u8_if (m : Mem) (off v j : Nat) :
    get_u8 (set_u8 m off v) j =
      if off = j ∧ off < m.length then v % 256 else get_u8 m j := by
  by_cases h : off = j
  · subst h
    by_cases hl : off < m.length
    · simp [get_u8_set_u8_eq _ _ _ hl, hl]
    · have e : set_u8 m off v = m := by
        unfold set_u8
        exact List.set_eq_of_length_le (by omega)
      simp [hl, e]
  · simp [h, get_u8_set_u8_ne _ _ _ _ h]

theorem get_u8_replicate (n j : Nat) : get_u8 (List.replicate n 0) j = 0 := by
  unfold get_u8
  by_cases h : j < n
  · simp [List.getD_eq_getElem?_getD, List.getElem?_replicate, h]
  · simp [List.getD_eq_getElem?_getD, List.getElem?_replicate, h]

theorem ifaddr_msg_length (addr : os_system_address) :
    (os_system_ifaddr_set_msg addr).length = 1024 := by
  unfold os_system_ifaddr_set_msg
  dsimp only
  split_ifs <;>
    simp only [length_set_u8, length_set_u16, length_set_u32, List.length_replicate,
      UIO_MAXIOV]

theorem ifaddr_msg_len (addr : os_system_address) :
    get_nlmsg_len (os_system_ifaddr_set_msg addr) = 24 := by
  unfold os_system_ifaddr_set_msg get_nlmsg_len
  dsimp only
  have hb : (List.replicate UIO_MAXIOV 0 : Mem).length = 1024 := by
    rw [List.length_replicate]; rfl
  have hz : ∀ j, get_u8 (List.replicate UIO_MAXIOV 0) j = 0 := get_u8_replicate _
  generalize (List.replicate UIO_MAXIOV 0 : Mem) = buf at hb hz ⊢
  split_ifs <;>
    simp [get_u32, get_u16, set_u32, set_u16, get_u8_set_u8_if, length_set_u8, hb, hz,
      NLMSG_LENGTH, NLMSG_HDRLEN]

theorem ifaddr_msg_type (addr : os_system_address) :
    get_nlmsg_type (os_system_ifaddr_set_msg addr) =
      if addr.set then RTM_NEWADDR else RTM_DELADDR := by
  unfold os_system_ifaddr_set_msg get_nlmsg_type
  dsimp only
  have hb : (List.replicate UIO_MAXIOV 0 : Mem).length = 1024 := by
    rw [List.length_replicate]; rfl
  have hz : ∀ j, get_u8 (List.replicate UIO_MAXIOV 0) j = 0 := get_u8_replicate _
  generalize (List.replicate UIO_MAXIOV 0 : Mem) = buf at hb hz ⊢
  split_ifs <;>
    simp [get_u16, set_u32, set_u16, get_u8_set_u8_if, length_set_u8, hb, hz,
      RTM_NEWADDR, RTM_DELADDR]

theorem ifaddr_msg_flags (addr : os_system_address) :
    get_nlmsg_flags (os_system_ifaddr_set_msg addr) =
      if addr.set then NLM_F_REQUEST ||| NLM_F_CREATE ||| NLM_F_REPLACE ||| NLM_F_ACK
      else NLM_F_REQUEST ||| NLM_F_ACK := by
  have e1 : NLM_F_REQUEST ||| NLM_F_CREATE ||| NLM_F_REPLACE ||| NLM_F_ACK = 1285 := by
    decide
  have e2 : NLM_F_REQUEST ||| NLM_F_ACK = 5 := by decide
  rw [e1, e2]
  unfold os_system_ifaddr_set_msg get_nlmsg_flags
  dsimp only
  rw [e1, e2]
  have hb : (List.replicate UIO_MAXIOV 0 : Mem).length = 1024 := by
    rw [List.length_replicate]; rfl
  have hz : ∀ j, get_u8 (List.replicate UIO_MAXIOV 0) j = 0 := get_u8_replicate _
  generalize (List.replicate UIO_MAXIOV 0 : Mem) = buf at hb hz ⊢
  split_ifs <;>
    simp [get_u16, set_u32, set_u16, get_u8_set_u8_if, length_set_u8, hb, hz]

theorem ifaddr_msg_body (addr : os_system_address) :
    get_u8 (os_system_ifaddr_set_msg addr) 16 = addr.address_type % 256 ∧
    get_u8 (os_system_ifaddr_set_msg addr) 17 = addr.prefix_length % 256 ∧
    get_u8 (os_system_ifaddr_set_msg addr) 19 = addr.scope % 256 ∧
    get_u32 (os_system_ifaddr_set_msg addr) 20 = addr.if_index % 4294967296 := by
  unfold os_system_ifaddr_set_msg
  dsimp only
  have hb : (List.replicate UIO_MAXIOV 0 : Mem).length = 1024 := by
    rw [List.length_replicate]; rfl
  generalize (List.replicate UIO_MAXIOV 0 : Mem) = buf at hb ⊢
  refine ⟨?_, ?_, ?_, ?_⟩
  · split_ifs <;>
      simp [set_u32, set_u16, get_u8_set_u8_if, length_set_u8, hb]
  · split_ifs <;>
      simp [set_u32, set_u16, get_u8_set_u8_if, length_set_u8, hb]
  · split_ifs <;>
      simp [set_u32, set_u16, get_u8_set_u8_if, length_set_u8, hb]
  · have h := get_u32_set_u32_eq
      (set_u8 (set_u8 (set_u32
        (if addr.set = true then
          set_u16 (set_u16 buf 6
            (NLM_F_REQUEST ||| NLM_F_CREATE ||| NLM_F_REPLACE ||| NLM_F_ACK)) 4 RTM_NEWADDR
        else set_u16 (set_u16 buf 6 (NLM_F_REQUEST ||| NLM_F_ACK)) 4 RTM_DELADDR)
        0 (NLMSG_LENGTH 8)) 16 addr.address_type) 17 addr.prefix_length)
      20 addr.if_index
      (by
        split_ifs <;>
          simp only [length_set_u8, length_set_u16, length_set_u32, hb] <;> omega)
    rw [← h]
    unfold get_u32 get_u16
    rw [get_u8_set_u8_ne _ _ _ _ (by omega), get_u8_set_u8_ne _ _ _ _ (by omega),
      get_u8_set_u8_ne _ _ _ _ (by omega), get_u8_set_u8_ne _ _ _ _ (by omega)]

theorem address_length_le (addr : os_system_address) :
    netaddr_get_maxprefix addr / 8 ≤ 16 := by
  unfold netaddr_get_maxprefix
  split_ifs <;> norm_num

theorem addnetaddr_eq (addr : os_system_address) :
    os_system_netlink_addnetaddr (os_system_ifaddr_set_msg addr) IFA_LOCAL addr =
      (memcpy
        (set_u32
          (set_u16 (set_u16 (os_system_ifaddr_set_msg addr) 26 2) 24
            (4 + netaddr_get_maxprefix addr / 8))
          0 (24 + (4 + netaddr_get_maxprefix addr / 8)))
        28 addr.address ( netaddr_get_maxprefix addr / 8), 0) := by
  have hal : NLMSG_ALIGN (get_nlmsg_len (os_system_ifaddr_set_msg addr)) = 24 := by
    rw [ifaddr_msg_len]
    decide
  have hk := address_length_le addr
  have h := addreq_fits (os_system_ifaddr_set_msg addr) IFA_LOCAL addr.address
    ( netaddr_get_maxprefix addr / 8) (by rw [hal]; omega)
  rw [hal] at h
  have h2 : int_to_size_t IFA_LOCAL = 2 := by decide
  rw [h2] at h
  unfold os_system_netlink_addnetaddr
  exact h

theorem get_u8_range_map (p : Mem) (len j : Nat) (h : j < len) :
    get_u8 ((List.range len).map (fun i => get_u8 p i)) j = get_u8 p j := by
  unfold get_u8
  rw [List.getD_eq_getElem?_getD, List.getElem?_map, List.getElem?_range h]
  simp

theorem get_u16_range_map (p : Mem) (len j : Nat) (h : j + 1 < len) :
    get_u16 ((List.range len).map (fun i => get_u8 p i)) j = get_u16 p j := by
  unfold get_u16
  rw [get_u8_range_map _ _ _ (by omega), get_u8_range_map _ _ _ (by omega)]

theorem get_u32_range_map (p : Mem) (len j : Nat) (h : j + 3 < len) :
    get_u32 ((List.range len).map (fun i => get_u8 p i)) j = get_u32 p j := by
  unfold get_u32
  rw [get_u16_range_map _ _ _ (by omega), get_u16_range_map _ _ _ (by omega)]

theorem ifaddr_set_eq (s : Rtnetlink) (addr : os_system_address) :
    os_system_ifaddr_set s addr =
      ({ t :=
          { nl := (os_system_netlink_send s.t.nl s.t._seq_used
              (os_system_netlink_addnetaddr (os_system_ifaddr_set_msg addr) IFA_LOCAL
                addr).1).nl,
            _seq_used := (os_system_netlink_send s.t.nl s.t._seq_used
              (os_system_netlink_addnetaddr (os_system_ifaddr_set_msg addr) IFA_LOCAL
                addr).1)._seq_used },
         _rtnetlink_feedback :=
          if addr.cb_finished then
            s._rtnetlink_feedback ++
              [{ addr with nl_seq := (s.t._seq_used + 1) % 2147483648 }]
          else s._rtnetlink_feedback }, 0) := by
  have hret : ((os_system_netlink_send s.t.nl s.t._seq_used
      (os_system_netlink_addnetaddr (os_system_ifaddr_set_msg addr) IFA_LOCAL addr).1).ret
      % 4294967296).toNat = (s.t._seq_used + 1) % 2147483648 := by
    rw [send_ret_eq]
    omega
  have h0 : (os_system_netlink_addnetaddr (os_system_ifaddr_set_msg addr) IFA_LOCAL
      addr).2 = 0 := by
    rw [addnetaddr_eq]
  unfold os_system_ifaddr_set
  simp only [h0, ne_eq, not_true_eq_false, if_false, hret]

theorem addnetaddr_facts (addr : os_system_address) :
    (os_system_netlink_addnetaddr (os_system_ifaddr_set_msg addr) IFA_LOCAL addr).1.length
      = 1024 ∧
    get_nlmsg_len
      (os_system_netlink_addnetaddr (os_system_ifaddr_set_msg addr) IFA_LOCAL addr).1 =
      28 + netaddr_get_maxprefix addr / 8 ∧
    get_nlmsg_type
      (os_system_netlink_addnetaddr (os_system_ifaddr_set_msg addr) IFA_LOCAL addr).1 =
      get_nlmsg_type (os_system_ifaddr_set_msg addr) ∧
    get_nlmsg_flags
      (os_system_netlink_addnetaddr (os_system_ifaddr_set_msg addr) IFA_LOCAL addr).1 =
      get_nlmsg_flags (os_system_ifaddr_set_msg addr) ∧
    get_u16 (os_system_netlink_addnetaddr (os_system_ifaddr_set_msg addr) IFA_LOCAL addr).1
      24 = 4 + netaddr_get_maxprefix addr / 8 ∧
    get_u16 (os_system_netlink_addnetaddr (os_system_ifaddr_set_msg addr) IFA_LOCAL addr).1
      26 = 2 ∧
    (∀ i, i < netaddr_get_maxprefix addr / 8 →
      get_u8 (os_system_netlink_addnetaddr (os_system_ifaddr_set_msg addr) IFA_LOCAL
        addr).1 (28 + i) = get_u8 addr.address i) ∧
    (∀ i, 4 ≤ i → i < 24 →
      get_u8 (os_system_netlink_addnetaddr (os_system_ifaddr_set_msg addr) IFA_LOCAL
        addr).1 i = get_u8 (os_system_ifaddr_set_msg addr) i) := by
  have hk := address_length_le addr
  have hl := ifaddr_msg_length addr
  rw [addnetaddr_eq]
  dsimp only
  refine ⟨?_, ?_, ?_, ?_, ?_, ?_, ?_, ?_⟩
  · rw [length_memcpy, length_set_u32, length_set_u16, length_set_u16, hl]
  · unfold get_nlmsg_len
    rw [get_u32_memcpy_out _ _ _ _ _ (by omega),
      get_u32_set_u32_eq _ _ _ (by rw [length_set_u16, length_set_u16]; omega)]
    omega
  · unfold get_nlmsg_type
    rw [get_u16_memcpy_out _ _ _ _ _ (by omega), get_u16_set_u32_ne _ _ _ _ (by omega),
      get_u16_set_u16_ne _ _ _ _ (by omega), get_u16_set_u16_ne _ _ _ _ (by omega)]
  · unfold get_nlmsg_flags
    rw [get_u16_memcpy_out _ _ _ _ _ (by omega), get_u16_set_u32_ne _ _ _ _ (by omega),
      get_u16_set_u16_ne _ _ _ _ (by omega), get_u16_set_u16_ne _ _ _ _ (by omega)]
  · rw [get_u16_memcpy_out _ _ _ _ _ (by omega), get_u16_set_u32_ne _ _ _ _ (by omega),
      get_u16_set_u16_eq _ _ _ (by rw [length_set_u16]; omega)]
    omega
  · rw [get_u16_memcpy_out _ _ _ _ _ (by omega), get_u16_set_u32_ne _ _ _ _ (by omega),
      get_u16_set_u16_ne _ _ _ _ (by omega), get_u16_set_u16_eq _ _ _ (by omega)]
  · intro i hi
    exact get_u8_memcpy_in _ _ _ _ _ hi
      (by rw [length_set_u32, length_set_u16, length_set_u16]; omega)
  · intro i h4 h24
    rw [get_u8_memcpy_out _ _ _ _ _ (by omega), get_u8_set_u32_ne _ _ _ _ (by omega),
      get_u8_set_u16_ne _ _ _ _ (by omega) (by omega),
      get_u8_set_u16_ne _ _ _ _ (by omega) (by omega)]

theorem send_out_length (nl : os_system_netlink) (c : Nat) (m : Mem) :
    (os_system_netlink_send nl c m).nl.out.length = nl.out.length + get_nlmsg_len m ∧
    (os_system_netlink_send nl c m).nl.socket.event_write = true := by
  have hl : get_nlmsg_len (set_u16 (set_u32 m 8 ((c + 1) % 2147483648)) 6
      (get_nlmsg_flags (set_u32 m 8 ((c + 1) % 2147483648)) |||
        (NLM_F_ACK ||| NLM_F_MULTI))) = get_nlmsg_len m := by
    unfold get_nlmsg_len
    rw [get_u32_set_u16_ne _ _ _ _ (by omega), get_u32_set_u32_ne _ _ _ _ (by omega)]
  refine ⟨?_, ?_⟩
  · simp only [os_system_netlink_send, seq_mask_eq_mod, abuf_memcpy]
    rw [hl]
    simp
  · simp [os_system_netlink_send, oonf_socket_set_write]

/-- C17: for every address operation with an IPv4 or IPv6 address (4 or 16
address bytes), os_system_ifaddr_set returns 0. The message it hands to
os_system_netlink_send has type NEWADDR and flags REQUEST|CREATE|REPLACE|ACK
when set is true, type DELADDR and flags REQUEST|ACK otherwise, the family,
prefix length, scope and interface index of the operation in its ifaddrmsg,
and after it exactly one attribute: type IFA_LOCAL, the address bytes as
payload, ending the message. That message is submitted by one send on the
RTNETLINK handler (which, as every send, ORs ACK and MULTI into the queued
flags): the transport is the one that send leaves, with one more request of
that length in the outbound buffer and write-interest set. If the operation
has a completion callback it is appended at the tail of the feedback list with
the sequence assigned by the send, otherwise the list is unchanged. -/
theorem C17_ifaddr_set_submits_request (s : Rtnetlink) (addr : os_system_address)
    (msg : Mem) (alen : Nat)
    (hfamily : addr.address_type = AF_INET ∨ addr.address_type = AF_INET6)
    (halen : alen = if addr.address_type = AF_INET then 4 else 16)
    (hmsg : msg =
      (os_system_netlink_addnetaddr (os_system_ifaddr_set_msg addr) IFA_LOCAL addr).1) :
    (os_system_ifaddr_set s addr).2 = 0 ∧
    get_nlmsg_type msg = (if addr.set then RTM_NEWADDR else RTM_DELADDR) ∧
    get_nlmsg_flags msg =
      (if addr.set then NLM_F_REQUEST ||| NLM_F_CREATE ||| NLM_F_REPLACE ||| NLM_F_ACK
       else NLM_F_REQUEST ||| NLM_F_ACK) ∧
    get_u8 msg 16 = addr.address_type % 256 ∧
    get_u8 msg 17 = addr.prefix_length % 256 ∧
    get_u8 msg 19 = addr.scope % 256 ∧
    get_u32 msg 20 = addr.if_index % 4294967296 ∧
    get_u16 msg 24 = 4 + alen ∧
    (get_u16 msg 26 : Int) = IFA_LOCAL ∧
    (∀ i, i < alen → get_u8 msg (28 + i) = get_u8 addr.address i) ∧
    get_nlmsg_len msg = 24 + (4 + alen) ∧
    (os_system_ifaddr_set s addr).1.t.nl =
      (os_system_netlink_send s.t.nl s.t._seq_used msg).nl ∧
    (os_system_ifaddr_set s addr).1.t._seq_used =
      (os_system_netlink_send s.t.nl s.t._seq_used msg)._seq_used ∧
    (os_system_netlink_send s.t.nl s.t._seq_used msg).ret =
      (((s.t._seq_used + 1) % 2147483648 : Nat) : Int) ∧
    (os_system_ifaddr_set s addr).1.t.nl.out.length = s.t.nl.out.length + (28 + alen) ∧
    (os_system_ifaddr_set s addr).1.t.nl.socket.event_write = true ∧
    (addr.cb_finished = true →
      (os_system_ifaddr_set s addr).1._rtnetlink_feedback =
        s._rtnetlink_feedback ++
          [{ addr with nl_seq := (s.t._seq_used + 1) % 2147483648 }]) ∧
    (addr.cb_finished = false →
      (os_system_ifaddr_set s addr).1._rtnetlink_feedback = s._rtnetlink_feedback) := by
  have hk : netaddr_get_maxprefix addr / 8 = alen := by
    unfold netaddr_get_maxprefix
    rcases hfamily with h | h
    · rw [halen, h]; simp
    · have h4 : addr.address_type ≠ AF_INET := by rw [h]; decide
      rw [halen, if_neg h4, if_neg h4, if_pos h]
  obtain ⟨f1, f2, f3, f4, f5, f6, f7, f8⟩ := addnetaddr_facts addr
  obtain ⟨b1, b2, b3, b4⟩ := ifaddr_msg_body addr
  rw [hk] at f2 f5 f7
  rw [← hmsg] at f1 f2 f3 f4 f5 f6 f7 f8
  obtain ⟨o1, o2⟩ := send_out_length s.t.nl s.t._seq_used msg
  have hb4 : get_u32 msg 20 = get_u32 (os_system_ifaddr_set_msg addr) 20 := by
    unfold get_u32 get_u16
    rw [f8 20 (by omega) (by omega), f8 21 (by omega) (by omega),
      f8 22 (by omega) (by omega), f8 23 (by omega) (by omega)]
  rw [ifaddr_set_eq, ← hmsg]
  refine ⟨rfl, ?_, ?_, ?_, ?_, ?_, ?_, f5, ?_, f7, ?_, rfl, rfl, send_ret_eq _ _ _,
    ?_, o2, ?_, ?_⟩
  · rw [f3, ifaddr_msg_type]
  · rw [f4, ifaddr_msg_flags]
  · rw [f8 16 (by omega) (by omega), b1]
  · rw [f8 17 (by omega) (by omega), b2]
  · rw [f8 19 (by omega) (by omega), b3]
  · rw [hb4, b4]
  · rw [f6]; rfl
  · rw [f2]; omega
  · rw [o1, f2]
  · intro hcb
    simp only [hcb, if_true]
  · intro hcb
    simp only [hcb, Bool.false_eq_true, if_false]

/-- C17 at a concrete input: an IPv4 address is set on the idle watcher; the
operation gets sequence 1 and is the only entry of the feedback list. -/
theorem C17_ifaddr_set_submits_request_witness :
    (os_system_ifaddr_set idle_rtnetlink (example_address 1 0)).2 = 0 ∧
    (os_system_ifaddr_set idle_rtnetlink (example_address 1 0)).1._rtnetlink_feedback =
      [example_address 1 1] :=
  ⟨(C17_ifaddr_set_submits_request idle_rtnetlink (example_address 1 0) _ 4
      (Or.inl rfl) (by decide) rfl).1,
   ((C17_ifaddr_set_submits_request idle_rtnetlink (example_address 1 0) _ 4
      (Or.inl rfl) (by decide) rfl).2.2.2.2.2.2.2.2.2.2.2.2.2.2.2.2.1 rfl).trans
      (by decide)⟩

/-! ## C19: a reply that only acknowledges -/

theorem flush_ok (nl : os_system_netlink) (ret err : Int) (hret : 0 < ret) :
    _flush_netlink_buffer nl ret err =
      ({ nl with
          out := [],
          socket := { nl.socket with event_write := false },
          msg_in_transit := nl.msg_in_transit + 1,
          timeout := { running := true } }, []) := by
  unfold _flush_netlink_buffer
  rw [if_neg (by omega)]
  rfl

theorem rcv_single_ack (nl : os_system_netlink) (nh : nlmsghdr)
    (htransit : nl.msg_in_transit = 1) (hdone : nl.cb_done = true)
    (htype : nh.nlmsg_type = NLMSG_ERROR) (herr : nh.err_error = 0) :
    _netlink_handler_rcv nl [nh] =
      ({ nl with in_seq := nh.nlmsg_seq, msg_in_transit := 0,
                 timeout := { running := false } },
       [Callback.cb_done nh.err_msg_nlmsg_seq]) := by
  have h1 : ¬ NLMSG_ERROR = NLMSG_NOOP := by decide
  have h2 : ¬ NLMSG_ERROR = NLMSG_DONE := by decide
  simp [_netlink_handler_rcv, _netlink_handler_loop, _netlink_handler_end, rcv_store,
    _netlink_handler_switch, _handle_nl_err, _netlink_job_finished, h1, h2, htype, herr,
    hdone, htransit, oonf_timer_stop, oonf_timer_is_active]


theorem send_keeps (nl : os_system_netlink) (c : Nat) (m : Mem) :
    (os_system_netlink_send nl c m).nl.msg_in_transit = nl.msg_in_transit ∧
    (os_system_netlink_send nl c m).nl.cb_done = nl.cb_done ∧
    (os_system_netlink_send nl c m).nl.timeout = nl.timeout ∧
    (os_system_netlink_send nl c m)._seq_used = (c + 1) % 2147483648 := by
  simp [os_system_netlink_send, seq_mask_eq_mod]

/-- C19: take an idle RTNETLINK watcher (nothing in transit, feedback list
empty, its on-ack/done callback set as in the static receiver; the timeout is
not armed in an idle watcher, and the proof does not need that) and an address
operation with a completion callback. After
os_system_ifaddr_set (which returns 0), one successful flush and one receive
pass over a block of a single ERROR header with error field 0 whose embedded
request carries the sequence that was assigned, the completion callback of the
operation has been invoked exactly once, with errno 0, and no other completion
callback has run; the feedback list is empty, in-transit is 0 and the timeout
is not armed. -/
theorem C19_ack_only_reply_completes_operation (s : Rtnetlink)
    (addr : os_system_address) (ret err : Int) (nh : nlmsghdr)
    (htransit : s.t.nl.msg_in_transit = 0)
    (hfeedback : s._rtnetlink_feedback = [])
    (hdone : s.t.nl.cb_done = true)
    (hcb : addr.cb_finished = true)
    (hret : 0 < ret)
    (htype : nh.nlmsg_type = NLMSG_ERROR)
    (herr : nh.err_error = 0)
    (hseq : nh.err_msg_nlmsg_seq = (os_system_ifaddr_set s addr).1.t._seq_used) :
    (os_system_ifaddr_set s addr).2 = 0 ∧
    (rtnetlink_run (os_system_ifaddr_set s addr).1
      [TransportOp.writable ret err, TransportOp.readable [nh]]).2 = [(addr.id, 0)] ∧
    (rtnetlink_run (os_system_ifaddr_set s addr).1
      [TransportOp.writable ret err, TransportOp.readable [nh]]).1._rtnetlink_feedback
      = [] ∧
    (rtnetlink_run (os_system_ifaddr_set s addr).1
      [TransportOp.writable ret err, TransportOp.readable [nh]]).1.t.nl.msg_in_transit
      = 0 ∧
    (rtnetlink_run (os_system_ifaddr_set s addr).1
      [TransportOp.writable ret err, TransportOp.readable [nh]]).1.t.nl.timeout.running
      = false := by
  obtain ⟨k1, k2, _, k4⟩ := send_keeps s.t.nl s.t._seq_used
    (os_system_netlink_addnetaddr (os_system_ifaddr_set_msg addr) IFA_LOCAL addr).1
  rw [ifaddr_set_eq] at hseq ⊢
  dsimp only at hseq
  rw [k4] at hseq
  rw [if_pos hcb, hfeedback, List.nil_append]
  simp only [rtnetlink_run, rtnetlink_step, transport_step]
  rw [flush_ok _ _ _ hret]
  dsimp only
  rw [rcv_single_ack _ nh (by dsimp only; rw [k1, htransit]; rfl) (by dsimp only; rw [k2, hdone])
    htype herr, hseq]
  simp [rtnetlink_callbacks, rtnetlink_callback, _cb_rtnetlink_done, _address_finished,
    list_is_node_added, list_remove, hcb]

/-- C19 at a concrete input: an IPv4 address is set on the idle watcher, the
request is flushed and the kernel acknowledges sequence 1. -/
theorem C19_ack_only_reply_completes_operation_witness :
    (rtnetlink_run (os_system_ifaddr_set idle_rtnetlink (example_address 1 0)).1
      [TransportOp.writable 32 0, TransportOp.readable [example_error 1 0]]).2 =
      [(1, 0)] :=
  (C19_ack_only_reply_completes_operation idle_rtnetlink (example_address 1 0) 32 0
    (example_error 1 0) rfl rfl rfl rfl (by decide) rfl rfl (by decide)).2.1

/-! ## C20: the cycle of the query iterator -/

theorem strcmp_self (a : List Nat) : strcmp a a = 0 := by
  induction a with
  | nil => rfl
  | cons x xs ih =>
    unfold strcmp
    rw [if_pos rfl, ih]
    split_ifs <;> rfl

theorem strscpy_name (name : List Nat) (hzero : 0 ∉ name)
    (hlen : name.length < IF_NAMESIZE) : strscpy name IF_NAMESIZE = name := by
  have h1 : name.takeWhile (fun c => c != 0) = name := by
    rw [List.takeWhile_eq_self_iff]
    intro c hc
    have : c ≠ 0 := fun h => hzero (h ▸ hc)
    simpa using this
  unfold strscpy
  rw [h1]
  apply List.take_of_length_le
  unfold IF_NAMESIZE at hlen ⊢
  omega

theorem head_of_name (name : List Nat) (hne : name ≠ []) (hzero : 0 ∉ name) :
    ¬ name.headD 0 = 0 := by
  cases name with
  | nil => exact absurd rfl hne
  | cons c cs =>
    intro h
    apply hzero
    simp only [List.headD_cons] at h
    rw [h]
    exact List.mem_cons_self _ _

theorem findIdx_middle (p : oonf_interface → Bool) (pre post : List oonf_interface)
    (a : oonf_interface) (hpre : ∀ x ∈ pre, p x = false) (ha : p a = true) :
    (pre ++ a :: post).findIdx p = pre.length := by
  induction pre with
  | nil => simp [List.findIdx_cons, ha]
  | cons x xs ih =>
    have hx : p x = false := hpre x (List.mem_cons_self _ _)
    rw [List.cons_append, List.findIdx_cons, hx,
      ih (fun y hy => hpre y (List.mem_cons_of_mem _ hy))]
    simp

theorem interface_at_middle (pre post : List oonf_interface) (a : oonf_interface) :
    interface_at (pre ++ a :: post) pre.length = a := by
  unfold interface_at
  rw [List.getD_eq_getElem?_getD, List.getElem?_append_right (le_refl _), Nat.sub_self]
  simp

theorem find_ge_middle (pre post : List oonf_interface) (a : oonf_interface)
    (hsorted : (pre ++ a :: post).Pairwise (fun x y => strcmp x.name y.name < 0)) :
    avl_find_ge_element (pre ++ a :: post) a.name = some pre.length := by
  have hidx : (pre ++ a :: post).findIdx (fun e => decide (0 ≤ strcmp e.name a.name))
      = pre.length := by
    apply findIdx_middle
    · intro x hx
      have h := (List.pairwise_append.mp hsorted).2.2 x hx a (List.mem_cons_self _ _)
      simp only [decide_eq_false_iff_not, not_le]
      exact h
    · rw [strcmp_self]
      rfl
  unfold avl_find_ge_element
  rw [hidx, if_pos (by simp)]

theorem select_after (pre post : List oonf_interface) (a : oonf_interface) (q : Nat)
    (hsorted : (pre ++ a :: post).Pairwise (fun x y => strcmp x.name y.name < 0))
    (hne : a.name ≠ []) (hzero : 0 ∉ a.name) :
    _cb_transmission_event_select (pre ++ a :: post)
        { _last_queried_if := a.name, _next_query_type := q } =
      if post = [] then
        (if q < QUERY_COUNT - 1 then (some 0, q + 1) else (none, q))
      else (some (pre.length + 1), q) := by
  have hempty : avl_is_empty (pre ++ a :: post) = false := by
    simp [avl_is_empty]
  have hfirst : avl_first_element (pre ++ a :: post) = some 0 := by
    simp [avl_first_element]
  unfold _cb_transmission_event_select
  rw [hempty]
  dsimp only
  rw [if_pos (by decide), if_neg (head_of_name a.name hne hzero),
    find_ge_middle pre post a hsorted]
  dsimp only
  rw [interface_at_middle, if_pos (strcmp_self a.name), hfirst]
  unfold avl_next_element_safe
  by_cases hpost : post = []
  · have hn : ¬ (pre.length + 1 < (pre ++ a :: post).length) := by
      rw [hpost]
      simp
    simp only [if_neg hn, if_pos hpost, true_and]
  · have hlen : 0 < post.length := List.length_pos.mpr hpost
    have hn : pre.length + 1 < (pre ++ a :: post).length := by
      rw [List.length_append, List.length_cons]
      omega
    simp only [if_pos hn, if_neg hpost, reduceCtorEq, false_and, if_false]

theorem select_first (tree : List oonf_interface) (q : Nat) (hne : tree ≠ []) :
    _cb_transmission_event_select tree
        { _last_queried_if := [], _next_query_type := q } = (some 0, q) := by
  have hempty : avl_is_empty tree = false := by
    cases tree with
    | nil => exact absurd rfl hne
    | cons e rest => rfl
  have hfirst : avl_first_element tree = some 0 := by
    cases tree with
    | nil => exact absurd rfl hne
    | cons e rest => rfl
  unfold _cb_transmission_event_select
  rw [hempty]
  dsimp only
  rw [if_pos (by decide)]
  simp only [List.headD_nil, if_true, hfirst, reduceCtorEq, false_and, if_false]

theorem event_select (tree : List oonf_interface) (st : nl80211_listener) (i q : Nat)
    (e : oonf_interface)
    (hselect : _cb_transmission_event_select tree st = (some i, q))
    (hat : interface_at tree i = e) (hzero : 0 ∉ e.name)
    (hlen : e.name.length < IF_NAMESIZE) :
    _cb_transmission_event tree st =
      ({ _last_queried_if := e.name, _next_query_type := q },
       _cb_transmission_event_send q e.index) := by
  unfold _cb_transmission_event
  rw [hselect]
  dsimp only
  rw [hat, strscpy_name e.name hzero hlen]

theorem event_none (tree : List oonf_interface) (st : nl80211_listener) (q : Nat)
    (hselect : _cb_transmission_event_select tree st = (none, q)) :
    _cb_transmission_event tree st =
      ({ _last_queried_if := [], _next_query_type := QUERY_FIRST }, []) := by
  unfold _cb_transmission_event
  rw [hselect]

theorem event_after (tree pre post : List oonf_interface) (a b : oonf_interface) (q : Nat)
    (htree : tree = pre ++ a :: b :: post)
    (hsorted : tree.Pairwise (fun x y => strcmp x.name y.name < 0))
    (hnames : ∀ e ∈ tree, e.name ≠ [] ∧ 0 ∉ e.name ∧ e.name.length < IF_NAMESIZE) :
    _cb_transmission_event tree { _last_queried_if := a.name, _next_query_type := q } =
      ({ _last_queried_if := b.name, _next_query_type := q },
       _cb_transmission_event_send q b.index) := by
  subst htree
  have ha := hnames a (by simp)
  have hb := hnames b (by simp)
  have hat : interface_at (pre ++ a :: b :: post) (pre.length + 1) = b := by
    have h := interface_at_middle (pre ++ [a]) post b
    rw [List.length_append, List.length_singleton, ← List.append_cons] at h
    exact h
  apply event_select _ _ (pre.length + 1) q b _ hat hb.2.1 hb.2.2
  rw [select_after pre (b :: post) a q hsorted ha.1 ha.2.1, if_neg (List.cons_ne_nil _ _)]

theorem event_wrap (tree pre : List oonf_interface) (a e : oonf_interface)
    (htree : tree = pre ++ [a]) (hfirst : interface_at tree 0 = e)
    (hsorted : tree.Pairwise (fun x y => strcmp x.name y.name < 0))
    (hnames : ∀ e ∈ tree, e.name ≠ [] ∧ 0 ∉ e.name ∧ e.name.length < IF_NAMESIZE)
    (he : e ∈ tree) :
    _cb_transmission_event tree
        { _last_queried_if := a.name, _next_query_type := QUERY_STATION_DUMP } =
      ({ _last_queried_if := e.name, _next_query_type := QUERY_SCAN_DUMP },
       [nl80211_request.get_scan_dump e.index]) := by
  have ha := hnames a (by rw [htree]; simp)
  have hE := hnames e he
  subst htree
  have h := event_select (pre ++ [a])
    { _last_queried_if := a.name, _next_query_type := QUERY_STATION_DUMP } 0
    QUERY_SCAN_DUMP e
    (by rw [select_after pre [] a _ hsorted ha.1 ha.2.1, if_pos rfl]; rfl)
    hfirst hE.2.1 hE.2.2
  rw [h]
  rfl

theorem event_end (tree pre : List oonf_interface) (a : oonf_interface)
    (htree : tree = pre ++ [a])
    (hsorted : tree.Pairwise (fun x y => strcmp x.name y.name < 0))
    (hnames : ∀ e ∈ tree, e.name ≠ [] ∧ 0 ∉ e.name ∧ e.name.length < IF_NAMESIZE) :
    _cb_transmission_event tree
        { _last_queried_if := a.name, _next_query_type := QUERY_SCAN_DUMP } =
      ({ _last_queried_if := [], _next_query_type := QUERY_FIRST }, []) := by
  have ha := hnames a (by rw [htree]; simp)
  subst htree
  apply event_none _ _ QUERY_SCAN_DUMP
  rw [select_after pre [] a _ hsorted ha.1 ha.2.1, if_pos rfl]
  rfl

theorem events_sweep (tree : List oonf_interface) (q m : Nat)
    (hsorted : tree.Pairwise (fun x y => strcmp x.name y.name < 0))
    (hnames : ∀ e ∈ tree, e.name ≠ [] ∧ 0 ∉ e.name ∧ e.name.length < IF_NAMESIZE)
    (post : List oonf_interface) :
    ∀ (pre : List oonf_interface) (a : oonf_interface), tree = pre ++ a :: post →
      transmission_events tree (post.length + m)
          { _last_queried_if := a.name, _next_query_type := q } =
        post.map (fun e => ({ _last_queried_if := e.name, _next_query_type := q },
            _cb_transmission_event_send q e.index)) ++
          transmission_events tree m
            { _last_queried_if := (post.getLastD a).name, _next_query_type := q } := by
  induction post with
  | nil =>
    intro pre a _
    simp
  | cons b post ih =>
    intro pre a htree
    have hstep := event_after tree pre post a b q htree hsorted hnames
    have hcount : (b :: post).length + m = (post.length + m) + 1 := by
      rw [List.length_cons]
      omega
    rw [hcount, transmission_events, hstep]
    dsimp only
    rw [ih (pre ++ [a]) b (by rw [htree, List.append_cons]), List.map_cons,
      List.getLastD_cons, List.cons_append]

theorem cons_eq_dropLast_concat (rest : List oonf_interface) :
    ∀ e : oonf_interface, e :: rest = (e :: rest).dropLast ++ [rest.getLastD e] := by
  induction rest with
  | nil => intro e; rfl
  | cons b r ih =>
    intro e
    rw [List.dropLast_cons₂, List.getLastD_cons, List.cons_append, ← ih b]

theorem event_first (tree rest : List oonf_interface) (e : oonf_interface)
    (htree : tree = e :: rest)
    (hnames : ∀ e ∈ tree, e.name ≠ [] ∧ 0 ∉ e.name ∧ e.name.length < IF_NAMESIZE) :
    _cb_transmission_event tree empty_iterator =
      ({ _last_queried_if := e.name, _next_query_type := QUERY_STATION_DUMP },
       [nl80211_request.get_station_dump e.index]) := by
  have hE := hnames e (by rw [htree]; simp)
  subst htree
  have h := event_select (e :: rest) empty_iterator 0 QUERY_STATION_DUMP e
    (select_first (e :: rest) QUERY_STATION_DUMP (List.cons_ne_nil _ _)) rfl hE.2.1 hE.2.2
  rw [h]
  rfl

/-- C20: take a registry of n >= 0 interfaces, given in ascending order of
their names (compared as strcmp does, so the names are distinct), each name a
non-empty C string of fewer than IF_NAMESIZE bytes. Starting from the empty
iterator state (no last-queried name, query type STATION_DUMP), the first
2n + 1 calls of _cb_transmission_event do this: the k-th of the first n emits
exactly one request, a station dump for the index of the k-th interface, and
leaves (name of that interface, STATION_DUMP); the k-th of the next n emits
exactly one request, a scan dump for the index of the k-th interface, and
leaves (name of that interface, SCAN_DUMP); the call after these emits no
request and leaves (empty name, STATION_DUMP). So the 2n requests are the
station dumps in ascending name order followed by the scan dumps in ascending
name order. -/
theorem C20_iterator_cycle (tree : List oonf_interface)
    (hsorted : tree.Pairwise (fun a b => strcmp a.name b.name < 0))
    (hnames : ∀ e ∈ tree, e.name ≠ [] ∧ 0 ∉ e.name ∧ e.name.length < IF_NAMESIZE) :
    transmission_events tree (2 * tree.length + 1) empty_iterator =
      tree.map (fun e =>
          ({ _last_queried_if := e.name, _next_query_type := QUERY_STATION_DUMP },
           [nl80211_request.get_station_dump e.index])) ++
        tree.map (fun e =>
          ({ _last_queried_if := e.name, _next_query_type := QUERY_SCAN_DUMP },
           [nl80211_request.get_scan_dump e.index])) ++
        [(empty_iterator, [])] := by
  cases htree : tree with
  | nil => rfl
  | cons e rest =>
    rw [← htree]
    have hlast := cons_eq_dropLast_concat rest e
    rw [← htree] at hlast
    have hcount : 2 * tree.length + 1 = (rest.length + ((rest.length + 1) + 1)) + 1 := by
      rw [htree, List.length_cons]
      omega
    have hfirst : interface_at tree 0 = e := by rw [htree]; rfl
    have hmem : e ∈ tree := by rw [htree]; exact List.mem_cons_self _ _
    rw [hcount, transmission_events, event_first tree rest e htree hnames]
    dsimp only
    rw [events_sweep tree QUERY_STATION_DUMP _ hsorted hnames rest [] e htree,
      transmission_events,
      event_wrap tree _ (rest.getLastD e) e hlast hfirst hsorted hnames hmem]
    dsimp only
    rw [events_sweep tree QUERY_SCAN_DUMP 1 hsorted hnames rest [] e htree,
      transmission_events, transmission_events,
      event_end tree _ (rest.getLastD e) hlast hsorted hnames, htree]
    simp [_cb_transmission_event_send, QUERY_STATION_DUMP, QUERY_SCAN_DUMP, QUERY_FIRST,
      empty_iterator]

/-- C20 for the registry with wlan0 (index 3) and wlan1 (index 4): the
requests are STATION/wlan0, STATION/wlan1, SCAN/wlan0, SCAN/wlan1, and the
fifth advance emits nothing and resets the iterator. -/
theorem C20_iterator_cycle_witness :
    transmission_events example_tree 5 empty_iterator =
      [({ _last_queried_if := [119, 108, 97, 110, 48], _next_query_type := 0 },
          [nl80211_request.get_station_dump 3]),
       ({ _last_queried_if := [119, 108, 97, 110, 49], _next_query_type := 0 },
          [nl80211_request.get_station_dump 4]),
       ({ _last_queried_if := [119, 108, 97, 110, 48], _next_query_type := 1 },
          [nl80211_request.get_scan_dump 3]),
       ({ _last_queried_if := [119, 108, 97, 110, 49], _next_query_type := 1 },
          [nl80211_request.get_scan_dump 4]),
       ({ _last_queried_if := [], _next_query_type := 0 }, [])] :=
  C20_iterator_cycle example_tree (by decide) (by decide)

/-! ## C24: the subsystem state marker -/

/-- C24: for every value of a subsystem state marker, olsr_subsystem_init
returns true (skip) exactly when the marker was already true and always
leaves it true; olsr_subsystem_cleanup returns true (skip) exactly when the
marker was already false and always leaves it false; a second init, or a
second cleanup, leaves the state of the first and reports skip; and
olsr_subsystem_is_initialized reads the marker. -/
theorem C24_subsystem_marker_idempotent (ptr : Bool) :
    ((olsr_subsystem_init ptr).2 = true ↔ ptr = true) ∧
    (olsr_subsystem_init ptr).1 = true ∧
    ((olsr_subsystem_cleanup ptr).2 = true ↔ ptr = false) ∧
    (olsr_subsystem_cleanup ptr).1 = false ∧
    (olsr_subsystem_init (olsr_subsystem_init ptr).1).1 = (olsr_subsystem_init ptr).1 ∧
    (olsr_subsystem_init (olsr_subsystem_init ptr).1).2 = true ∧
    (olsr_subsystem_cleanup (olsr_subsystem_cleanup ptr).1).1 =
      (olsr_subsystem_cleanup ptr).1 ∧
    (olsr_subsystem_cleanup (olsr_subsystem_cleanup ptr).1).2 = true ∧
    olsr_subsystem_is_initialized (olsr_subsystem_init ptr).1 = true ∧
    olsr_subsystem_is_initialized (olsr_subsystem_cleanup ptr).1 = false := by
  cases ptr <;> decide

/-! ## C25: read-interest and write-interest of a socket entry -/

/-- C25: for every socket entry e and every boolean x, set_read(e, x) applied
twice gives the entry that one application gives, and so does set_write;
set_read sets the read-interest flag to x and changes no other field,
set_write sets the write-interest flag to x and changes no other field. This
holds for oonf_socket_set_read and oonf_socket_set_write of
subsystems/oonf_socket.h and for olsr_socket_set_read and
olsr_socket_set_write of the legacy subsystems/olsr_socket.h. -/
theorem C25_set_interest_idempotent (e : oonf_socket_entry) (o : olsr_socket_entry)
    (x : Bool) :
    oonf_socket_set_read (oonf_socket_set_read e x) x = oonf_socket_set_read e x ∧
    oonf_socket_set_write (oonf_socket_set_write e x) x = oonf_socket_set_write e x ∧
    oonf_socket_set_read e x = { fd := e.fd, event_read := x, event_write := e.event_write } ∧
    oonf_socket_set_write e x = { fd := e.fd, event_read := e.event_read, event_write := x } ∧
    olsr_socket_set_read (olsr_socket_set_read o x) x = olsr_socket_set_read o x ∧
    olsr_socket_set_write (olsr_socket_set_write o x) x = olsr_socket_set_write o x ∧
    olsr_socket_set_read o x = { fd := o.fd, event_read := x, event_write := o.event_write } ∧
    olsr_socket_set_write o x = { fd := o.fd, event_read := o.event_read, event_write := x } :=
  ⟨rfl, rfl, rfl, rfl, rfl, rfl, rfl, rfl⟩

/-! ## C26: bitrate and signal of a station reply -/

theorem wrap_int64_of_lt (x : Int) (h0 : 0 ≤ x) (h1 : x < 9223372036854775808) :
    wrap_int64 x = x := by
  unfold wrap_int64
  omega

theorem station_bitrate_eq (nla : Mem) :
    _parse_cmd_new_station_bitrate (some { parse_ret := 0, bitrate := some nla }) =
      some (((nla_get_u16 nla * 1024 * 1024 / 10 : Nat) : Int)) := by
  have hlt : nla_get_u16 nla < 65536 := get_u16_lt nla 0
  have h1 : wrap_int64 ((nla_get_u16 nla : Int) * 1024) = (nla_get_u16 nla : Int) * 1024 :=
    wrap_int64_of_lt _ (by omega) (by omega)
  have h2 : wrap_int64 ((nla_get_u16 nla : Int) * 1024 * 1024) =
      (nla_get_u16 nla : Int) * 1024 * 1024 :=
    wrap_int64_of_lt _ (by omega) (by omega)
  simp only [_parse_cmd_new_station_bitrate, if_true, h1, h2]
  rw [Int.tdiv_eq_ediv (by omega)]
  congr 1
  omega

/-- C26: for every station reply in which the TX (likewise the RX) bitrate
attribute parses and holds the 16 bit value r, the TX (RX) bitrate written to
the link-layer model is floor(r * 1024 * 1024 / 10), and neither product
leaves the range of `int64_t`. For every station reply with a signal
attribute, the value written is 1000 times the attribute byte read as a signed
8 bit number (the cast `(int8_t)` of the code): 1000 * v when the byte
carries v in -128 .. 127. -/
theorem C26_bitrate_and_signal_scaling (now : Nat) (sinfo : sta_info) :
    (∀ tx : Mem, sinfo.tx_bitrate = some { parse_ret := 0, bitrate := some tx } →
      nla_get_u16 tx ≤ 65535 ∧
      (_parse_cmd_new_station_data now sinfo).tx_bitrate =
        some (((nla_get_u16 tx * 1024 * 1024 / 10 : Nat) : Int)) ∧
      wrap_int64 (wrap_int64 ((nla_get_u16 tx : Int) * 1024) * 1024) =
        (nla_get_u16 tx : Int) * 1024 * 1024) ∧
    (∀ rx : Mem, sinfo.rx_bitrate = some { parse_ret := 0, bitrate := some rx } →
      nla_get_u16 rx ≤ 65535 ∧
      (_parse_cmd_new_station_data now sinfo).rx_bitrate =
        some (((nla_get_u16 rx * 1024 * 1024 / 10 : Nat) : Int)) ∧
      wrap_int64 (wrap_int64 ((nla_get_u16 rx : Int) * 1024) * 1024) =
        (nla_get_u16 rx : Int) * 1024 * 1024) ∧
    (∀ sig : Mem, sinfo.signal = some sig →
      (_parse_cmd_new_station_data now sinfo).signal =
        some (1000 * cast_int8_t (nla_get_u8 sig)) ∧
      (∀ v : Int, -128 ≤ v → v ≤ 127 → (nla_get_u8 sig : Int) = v % 256 →
        (_parse_cmd_new_station_data now sinfo).signal = some (1000 * v))) := by
  have hw : ∀ nla : Mem,
      wrap_int64 (wrap_int64 ((nla_get_u16 nla : Int) * 1024) * 1024) =
        (nla_get_u16 nla : Int) * 1024 * 1024 := by
    intro nla
    have hr : nla_get_u16 nla < 65536 := get_u16_lt nla 0
    rw [wrap_int64_of_lt ((nla_get_u16 nla : Int) * 1024) (by omega) (by omega)]
    exact wrap_int64_of_lt _ (by omega) (by omega)
  refine ⟨?_, ?_, ?_⟩
  · intro tx htx
    have htl : nla_get_u16 tx < 65536 := get_u16_lt tx 0
    refine ⟨by omega, ?_, hw tx⟩
    simp only [_parse_cmd_new_station_data, htx]
    exact station_bitrate_eq tx
  · intro rx hrx
    have hrl : nla_get_u16 rx < 65536 := get_u16_lt rx 0
    refine ⟨by omega, ?_, hw rx⟩
    simp only [_parse_cmd_new_station_data, hrx]
    exact station_bitrate_eq rx
  · intro sig hsig
    have hsl : nla_get_u8 sig < 256 := get_u8_lt sig 0
    have hsignal : (_parse_cmd_new_station_data now sinfo).signal =
        some (1000 * cast_int8_t (nla_get_u8 sig)) := by
      simp only [_parse_cmd_new_station_data, hsig, Option.map_some']
      congr 1
      unfold wrap_int32 cast_int8_t
      omega
    refine ⟨hsignal, ?_⟩
    intro v hlo hhi hv
    rw [hsignal]
    congr 2
    unfold cast_int8_t
    omega

/-- C26 at a concrete input: the TX bitrate attribute holds 540 (54 Mbit/s in
units of 100 kbit/s), the RX bitrate attribute 60, the signal byte is 196,
which carries -60. -/
theorem C26_bitrate_and_signal_scaling_witness :
    (_parse_cmd_new_station_data 0 example_sta_info).tx_bitrate = some 56623104 ∧
    (_parse_cmd_new_station_data 0 example_sta_info).rx_bitrate = some 6291456 ∧
    (_parse_cmd_new_station_data 0 example_sta_info).signal = some (-60000) :=
  ⟨((C26_bitrate_and_signal_scaling 0 example_sta_info).1 [28, 2, 0, 0] rfl).2.1,
   ((C26_bitrate_and_signal_scaling 0 example_sta_info).2.1 [60, 0, 0, 0] rfl).2.1,
   ((C26_bitrate_and_signal_scaling 0 example_sta_info).2.2 [196, 0, 0, 0] rfl).1.trans
     (by decide)⟩

/-! ## C27: counters and frequency -/

/-- C27, as stated, fails for the frequency of a scan reply: the raw attribute
is 2412 and the value stored in the link-layer model is 2412000000. -/
theorem C27_frequency_is_scaled :
    example_bss.frequency.map nla_get_u32 = some 2412 ∧
    (_parse_cmd_new_scan_result_data 0 example_bss).frequency = some 2412000000 := by
  decide

/-- C27, amended: for every station reply, each of the counters RX bytes, TX
bytes, RX frames (RX packets), TX frames (TX packets), TX retries and TX
failed that the reply holds is stored in the link-layer model equal to the raw
32 bit attribute value, and a counter the reply does not hold is not stored;
for every scan reply, the frequency is stored as 1000000 times the raw 32 bit
attribute value, without overflow of `int64_t`. -/
theorem C27_counters_verbatim_frequency_scaled (now : Nat) (sinfo : sta_info)
    (bss : bss_info) :
    (_parse_cmd_new_station_data now sinfo).rx_bytes =
      sinfo.rx_bytes.map (fun nla => (nla_get_u32 nla : Int)) ∧
    (_parse_cmd_new_station_data now sinfo).tx_bytes =
      sinfo.tx_bytes.map (fun nla => (nla_get_u32 nla : Int)) ∧
    (_parse_cmd_new_station_data now sinfo).rx_frames =
      sinfo.rx_packets.map (fun nla => (nla_get_u32 nla : Int)) ∧
    (_parse_cmd_new_station_data now sinfo).tx_frames =
      sinfo.tx_packets.map (fun nla => (nla_get_u32 nla : Int)) ∧
    (_parse_cmd_new_station_data now sinfo).tx_retries =
      sinfo.tx_retries.map (fun nla => (nla_get_u32 nla : Int)) ∧
    (_parse_cmd_new_station_data now sinfo).tx_failed =
      sinfo.tx_failed.map (fun nla => (nla_get_u32 nla : Int)) ∧
    (_parse_cmd_new_scan_result_data now bss).frequency =
      bss.frequency.map (fun nla => (nla_get_u32 nla : Int) * 1000000) := by
  refine ⟨rfl, rfl, rfl, rfl, rfl, rfl, ?_⟩
  cases hf : bss.frequency with
  | none => simp [_parse_cmd_new_scan_result_data, hf]
  | some nla =>
    have hlt : nla_get_u32 nla < 4294967296 := by
      have h1 := get_u16_lt nla 0
      have h2 := get_u16_lt nla (0 + 2)
      unfold nla_get_u32 get_u32
      omega
    simp only [_parse_cmd_new_scan_result_data, hf, Option.map_some']
    rw [wrap_int64_of_lt _ (by omega) (by omega)]

/-! ## C29: the walk over the information elements -/

theorem parse_ie_loop_fuel (data : Mem) (fuel1 : Nat) :
    ∀ (fuel2 : Nat) (len : Int) (p : Nat) (max_rate : Int),
      len.toNat ≤ fuel1 → len.toNat ≤ fuel2 →
      _parse_ie_loop data fuel1 len p max_rate = _parse_ie_loop data fuel2 len p max_rate := by
  induction fuel1 with
  | zero =>
    intro fuel2 len p max_rate h1 _
    have hlen : ¬ len > 0 := by omega
    cases fuel2 with
    | zero => rfl
    | succ f2 => simp only [_parse_ie_loop, if_neg hlen]
  | succ f1 ih =>
    intro fuel2 len p max_rate h1 h2
    by_cases hlen : len > 0
    · cases fuel2 with
      | zero => omega
      | succ f2 =>
        simp only [_parse_ie_loop, if_pos hlen]
        rw [ih f2 _ _ _ (by omega) (by omega)]
    · cases fuel2 with
      | zero => simp only [_parse_ie_loop, if_neg hlen]
      | succ f2 => simp only [_parse_ie_loop, if_neg hlen]

/-- C29 fails on the code: the attribute has declared length 3 and holds the
element (id 1, length byte 4, one rate byte 2); the bytes 127, 0, 0 follow it
in the buffer. The loop ends, but it reads the offsets 3, 4 and 5, which are
not below the declared length, and the maximum it computes is 127 << 19 from
the byte at offset 3, while the rate bytes of the string give 2 << 19. The
value is written to the model. -/
theorem C29_walk_reads_beyond_declared_length :
    example_ies.nla_len = 3 ∧
    (_parse_ies example_ies).2 = [0, 1, 2, 3, 4, 5] ∧
    (_parse_ies example_ies).1 = 66584576 ∧
    spec_max_rate [(1, [2])] = 1048576 ∧
    (_parse_cmd_new_scan_result_data 0
      { frequency := none, seen_ms_ago := none,
        information_elements := some example_ies, beacon_ies := none }).max_bitrate =
      some 66584576 := by
  decide

/-! ## C30: the length check of the legacy RTNETLINK handler -/

/-- C30 fails on the code: 32 bytes are received, the header declares
nlmsg_len 8, less than the 16 bytes of a netlink header, and type RTM_NEWLINK.
The message is not rejected: `len - sizeof (_netlink_header)` is 8 - 8 = 0,
not negative, since `sizeof` is taken of the pointer. The link handler runs
and `olsr_interface_trigger_change` is called for eth0. A declared length of
7 is rejected. -/
theorem C30_short_header_is_dispatched :
    get_nlmsg_len core.example_short_message = 8 ∧
    get_nlmsg_type core.example_short_message = RTM_NEWLINK ∧
    core._netlink_handler_malformed core.example_short_message 32 = false ∧
    core._netlink_handler core.example_if_indextoname core.example_short_message true 32 =
      [[101, 116, 104, 48]] ∧
    core._netlink_handler_malformed (set_u32 core.example_short_message 0 7) 32 = true ∧
    core._netlink_handler core.example_if_indextoname
      (set_u32 core.example_short_message 0 7) true 32 = [] := by
  decide

/-! ## C22: fan-out to the interface listeners -/

theorem iflistener_add_all (ls : List Nat) :
    ∀ registered : List Nat,
      ls.foldl os_system_iflistener_add registered = registered ++ ls := by
  induction ls with
  | nil => intro registered; simp
  | cons l rest ih =>
    intro registered
    rw [List.foldl_cons, ih, os_system_iflistener_add, List.append_assoc]
    rfl

/-- C22: let the listeners ls (distinct objects) be registered in this order
by os_system_iflistener_add. For every message, `_cb_rtnetlink_message` calls
if_changed as follows. Type NEWLINK or DELLINK: once for each listener, in
registration order, with (ifi_index, went_down), went_down being true exactly
when IFF_UP is not set in ifi_flags. Type NEWADDR or DELADDR: once for each
listener, in registration order, with (ifa_index, went_down), went_down
being true exactly when the bit of IFF_UP is not set in ifa_flags. Any other
type: no call. A listener taken out by os_system_iflistener_remove is not
called. -/
theorem C22_listener_fan_out (ls : List Nat) (hdr : Mem) (hnodup : ls.Nodup) :
    ls.foldl os_system_iflistener_add [] = ls ∧
    (get_nlmsg_type hdr = RTM_NEWLINK ∨ get_nlmsg_type hdr = RTM_DELLINK →
      _cb_rtnetlink_message (ls.foldl os_system_iflistener_add []) hdr =
        ls.map (fun l => (l, get_u32 hdr 20, decide (get_u32 hdr 24 &&& IFF_UP = 0)))) ∧
    (get_nlmsg_type hdr = RTM_NEWADDR ∨ get_nlmsg_type hdr = RTM_DELADDR →
      _cb_rtnetlink_message (ls.foldl os_system_iflistener_add []) hdr =
        ls.map (fun l => (l, get_u32 hdr 20, decide (get_u8 hdr 18 &&& IFF_UP = 0)))) ∧
    (get_nlmsg_type hdr ≠ RTM_NEWLINK → get_nlmsg_type hdr ≠ RTM_DELLINK →
      get_nlmsg_type hdr ≠ RTM_NEWADDR → get_nlmsg_type hdr ≠ RTM_DELADDR →
      _cb_rtnetlink_message (ls.foldl os_system_iflistener_add []) hdr = []) ∧
    (get_nlmsg_type hdr = RTM_NEWLINK ∨ get_nlmsg_type hdr = RTM_DELLINK ∨
      get_nlmsg_type hdr = RTM_NEWADDR ∨ get_nlmsg_type hdr = RTM_DELADDR →
      (_cb_rtnetlink_message (ls.foldl os_system_iflistener_add []) hdr).map
        (fun c => c.1) = ls ∧
      ∀ l ∈ ls,
        ((_cb_rtnetlink_message (ls.foldl os_system_iflistener_add []) hdr).map
          (fun c => c.1)).count l = 1) ∧
    (∀ l,
      ∀ c ∈ _cb_rtnetlink_message
        (os_system_iflistener_remove (ls.foldl os_system_iflistener_add []) l) hdr,
        c.1 ≠ l) := by
  have hreg : ls.foldl os_system_iflistener_add [] = ls := by
    rw [iflistener_add_all, List.nil_append]
  have hlink : get_nlmsg_type hdr = RTM_NEWLINK ∨ get_nlmsg_type hdr = RTM_DELLINK →
      _cb_rtnetlink_message ls hdr =
        ls.map (fun l => (l, get_u32 hdr 20, decide (get_u32 hdr 24 &&& IFF_UP = 0))) := by
    intro h
    unfold _cb_rtnetlink_message
    rw [if_pos h]
    rfl
  have hnl : RTM_NEWADDR ≠ RTM_NEWLINK ∧ RTM_NEWADDR ≠ RTM_DELLINK ∧
      RTM_DELADDR ≠ RTM_NEWLINK ∧ RTM_DELADDR ≠ RTM_DELLINK := by decide
  have haddr : get_nlmsg_type hdr = RTM_NEWADDR ∨ get_nlmsg_type hdr = RTM_DELADDR →
      _cb_rtnetlink_message ls hdr =
        ls.map (fun l => (l, get_u32 hdr 20, decide (get_u8 hdr 18 &&& IFF_UP = 0))) := by
    intro h
    have hn : ¬ (get_nlmsg_type hdr = RTM_NEWLINK ∨ get_nlmsg_type hdr = RTM_DELLINK) := by
      rcases h with h | h <;> rw [h] <;> intro h' <;> rcases h' with h' | h'
      · exact hnl.1 h'
      · exact hnl.2.1 h'
      · exact hnl.2.2.1 h'
      · exact hnl.2.2.2 h'
    unfold _cb_rtnetlink_message
    rw [if_neg hn, if_pos h]
    rfl
  rw [hreg]
  refine ⟨rfl, hlink, haddr, ?_, ?_, ?_⟩
  · intro h1 h2 h3 h4
    unfold _cb_rtnetlink_message
    rw [if_neg (by tauto), if_neg (by tauto)]
  · intro h
    have hmap : (_cb_rtnetlink_message ls hdr).map (fun c => c.1) = ls := by
      have hfst : ∀ (f : Nat → Nat × Bool),
          (ls.map (fun l => (l, f l))).map (fun c => c.1) = ls := by
        intro f
        rw [List.map_map]
        exact List.map_id _
      rcases h with h | h | h | h
      · rw [hlink (Or.inl h)]; exact hfst _
      · rw [hlink (Or.inr h)]; exact hfst _
      · rw [haddr (Or.inl h)]; exact hfst _
      · rw [haddr (Or.inr h)]; exact hfst _
    rw [hmap]
    exact ⟨rfl, fun l hl => List.count_eq_one_of_mem hnodup hl⟩
  · intro l c hc
    have hmem : c.1 ∈ os_system_iflistener_remove ls l := by
      unfold _cb_rtnetlink_message at hc
      split_ifs at hc
      · obtain ⟨x, hx, rfl⟩ := List.mem_map.mp hc
        exact hx
      · obtain ⟨x, hx, rfl⟩ := List.mem_map.mp hc
        exact hx
      · exact absurd hc (List.not_mem_nil _)
    unfold os_system_iflistener_remove at hmem
    simpa using (List.mem_filter.mp hmem).2

/-- C22 at a concrete input: three listeners and a NEWLINK message for
interface 2 whose flags have UP set. -/
theorem C22_listener_fan_out_witness :
    _cb_rtnetlink_message ([11, 12, 13].foldl os_system_iflistener_add [])
      example_link_message = [(11, 2, false), (12, 2, false), (13, 2, false)] :=
  ((C22_listener_fan_out [11, 12, 13] example_link_message (by decide)).2.1
    (Or.inl (by decide))).trans (by decide)

/-! ## C28: the length of the inbound buffer -/

theorem job_finished_in_len (nl : os_system_netlink) :
    (_netlink_job_finished nl).in_len = nl.in_len := by
  unfold _netlink_job_finished
  dsimp only
  split_ifs <;> rfl

theorem switch_in_len (nl : os_system_netlink) (trig : Bool) (nh : nlmsghdr) :
    (_netlink_handler_switch nl trig nh).1.in_len = nl.in_len := by
  unfold _netlink_handler_switch
  split_ifs <;> first | rfl | exact job_finished_in_len nl

theorem loop_in_len (block : List nlmsghdr) :
    ∀ (nl : os_system_netlink) (first : Bool) (cur : Nat) (trig : Bool),
      (_netlink_handler_loop nl first cur trig block).nl.in_len = nl.in_len := by
  induction block with
  | nil => intro nl first cur trig; rfl
  | cons nh rest ih =>
    intro nl first cur trig
    simp only [_netlink_handler_loop]
    rw [ih, switch_in_len]

theorem end_in_len (s : RcvState) : (_netlink_handler_end s).1.in_len = s.nl.in_len := by
  have h2 := job_finished_in_len { s.nl with timeout := oonf_timer_stop s.nl.timeout }
  unfold _netlink_handler_end
  dsimp only
  split_ifs
  · exact h2
  · exact h2
  · rfl
  · rfl

theorem rcv_in_len (nl : os_system_netlink) (block : List nlmsghdr) :
    (_netlink_handler_rcv nl block).1.in_len = nl.in_len := by
  have hs : (rcv_store nl block).in_len = nl.in_len := by
    cases block <;> rfl
  unfold _netlink_handler_rcv
  dsimp only
  rw [end_in_len, loop_in_len, hs]

theorem recv_in_len (pagesize : Nat) (results : List recvmsg_result) :
    ∀ (nl : os_system_netlink) (flags : Bool),
      nl.in_len + pagesize * results.length < 18446744073709551616 →
      (_netlink_handler_recv pagesize results nl flags).nl.in_len =
        nl.in_len + pagesize *
          (_netlink_handler_recv pagesize results nl flags).events.count
            RecvEvent.truncated ∧
      (_netlink_handler_recv pagesize results nl flags).events.length ≤ results.length ∧
      ((∀ r ∈ results, r.realloc_ok = true) →
        RecvEvent.no_memory ∉ (_netlink_handler_recv pagesize results nl flags).events) := by
  induction results with
  | nil =>
    intro nl flags _
    simp [_netlink_handler_recv]
  | cons r rest ih =>
    intro nl flags hsize
    rw [List.length_cons] at hsize
    have hmul : pagesize * (rest.length + 1) = pagesize * rest.length + pagesize := by ring
    simp only [_netlink_handler_recv]
    split_ifs with h1 h2 h3 h4
    · simp
    · have hmod : (nl.in_len + pagesize) % 18446744073709551616 = nl.in_len + pagesize := by
        apply Nat.mod_eq_of_lt
        have : 0 ≤ pagesize * rest.length := Nat.zero_le _
        omega
      obtain ⟨i1, i2, i3⟩ := ih
        { nl with in_len := (nl.in_len + pagesize) % 18446744073709551616 } flags
        (by dsimp only; rw [hmod]; omega)
      dsimp only at i1 i2 i3 ⊢
      refine ⟨?_, ?_, ?_⟩
      · rw [i1, hmod, List.count_cons_self]
        ring
      · rw [List.length_cons, List.length_cons]
        omega
      · intro hall hmem
        rcases List.mem_cons.mp hmem with h | h
        · exact RecvEvent.noConfusion h
        · exact i3 (fun x hx => hall x (List.mem_cons_of_mem _ hx)) h
    · refine ⟨by simp, by simp, ?_⟩
      intro hall
      exact absurd (hall r (List.mem_cons_self _ _)) h3
    · obtain ⟨i1, i2, i3⟩ := ih nl false (by omega)
      dsimp only
      refine ⟨?_, ?_, ?_⟩
      · rw [i1, List.count_cons_of_ne (by decide)]
      · rw [List.length_cons, List.length_cons]
        omega
      · intro hall hmem
        rcases List.mem_cons.mp hmem with h | h
        · exact RecvEvent.noConfusion h
        · exact i3 (fun x hx => hall x (List.mem_cons_of_mem _ hx)) h
    · simp

theorem recv_fits (pagesize : Nat) (results : List recvmsg_result) :
    ∀ (nl : os_system_netlink) (flags : Bool),
      (∀ r ∈ results, r.msg_trunc = false ∧ r.ret ≤ (nl.in_len : Int)) →
      (_netlink_handler_recv pagesize results nl flags).nl = nl ∧
      RecvEvent.truncated ∉ (_netlink_handler_recv pagesize results nl flags).events := by
  induction results with
  | nil =>
    intro nl flags _
    simp [_netlink_handler_recv]
  | cons r rest ih =>
    intro nl flags hfit
    obtain ⟨hr1, hr2⟩ := hfit r (List.mem_cons_self _ _)
    have hrest : ∀ x ∈ rest, x.msg_trunc = false ∧ x.ret ≤ (nl.in_len : Int) :=
      fun x hx => hfit x (List.mem_cons_of_mem _ hx)
    have hno : ¬ ((nl.in_len : Int) < r.ret ∨ r.msg_trunc = true) := by
      rw [hr1]
      intro h
      rcases h with h | h
      · omega
      · exact Bool.noConfusion h
    simp only [_netlink_handler_recv, if_neg hno]
    split_ifs with h1 h2
    · simp
    · obtain ⟨i1, i2⟩ := ih nl false hrest
      dsimp only
      refine ⟨i1, ?_⟩
      intro hmem
      rcases List.mem_cons.mp hmem with h | h
      · exact RecvEvent.noConfusion h
      · exact i2 h
    · simp

theorem readable_eq (pagesize : Nat) (results : List recvmsg_result)
    (block : List nlmsghdr) (nl : os_system_netlink) :
    (_netlink_handler_readable pagesize results block nl).1.in_len =
      (_netlink_handler_recv pagesize results nl true).nl.in_len ∧
    (_netlink_handler_readable pagesize results block nl).2.2 =
      (_netlink_handler_recv pagesize results nl true).events := by
  unfold _netlink_handler_readable
  cases (_netlink_handler_recv pagesize results nl true).received with
  | none => exact ⟨rfl, rfl⟩
  | some n => exact ⟨rcv_in_len _ _, rfl⟩

theorem recv_pages (pagesize : Nat) (results : List recvmsg_result) :
    ∀ (nl : os_system_netlink) (flags : Bool),
      nl.in_len + pagesize * results.length < 18446744073709551616 →
      (_netlink_handler_recv pagesize results nl flags).nl.in_len =
        nl.in_len + pagesize * spec_pages pagesize results nl.in_len flags := by
  induction results with
  | nil =>
    intro nl flags _
    simp [_netlink_handler_recv, spec_pages]
  | cons r rest ih =>
    intro nl flags hsize
    rw [List.length_cons] at hsize
    have hmul : pagesize * (rest.length + 1) = pagesize * rest.length + pagesize := by ring
    simp only [_netlink_handler_recv, spec_pages]
    by_cases h1 : r.ret < 0
    · rw [if_pos h1, if_pos h1]
      simp
    · rw [if_neg h1, if_neg h1]
      by_cases h2 : (nl.in_len : Int) < r.ret ∨ r.msg_trunc = true
      · have h2b : r.msg_trunc = true ∨ (nl.in_len : Int) < r.ret := h2.symm
        rw [if_pos h2, if_pos h2b]
        by_cases h3 : r.realloc_ok = true
        · rw [if_pos h3, if_pos h3]
          have hmod : (nl.in_len + pagesize) % 18446744073709551616 =
              nl.in_len + pagesize := by
            apply Nat.mod_eq_of_lt
            have : 0 ≤ pagesize * rest.length := Nat.zero_le _
            omega
          have i1 := ih { nl with in_len := (nl.in_len + pagesize) % 18446744073709551616 }
            flags (by dsimp only; rw [hmod]; omega)
          dsimp only at i1 ⊢
          rw [i1, hmod]
          ring
        · rw [if_neg h3, if_neg h3]
          simp
      · have h2b : ¬ (r.msg_trunc = true ∨ (nl.in_len : Int) < r.ret) :=
          fun h => h2 h.symm
        rw [if_neg h2, if_neg h2b]
        by_cases h4 : flags = true
        · rw [if_pos h4, if_pos h4]
          have i1 := ih nl false (by omega)
          dsimp only
          rw [i1]
        · rw [if_neg h4, if_neg h4]
          simp

theorem recv_count_pages (pagesize : Nat) (results : List recvmsg_result) :
    ∀ (nl : os_system_netlink) (flags : Bool),
      nl.in_len + pagesize * results.length < 18446744073709551616 →
      (_netlink_handler_recv pagesize results nl flags).events.count RecvEvent.truncated =
        spec_pages pagesize results nl.in_len flags := by
  induction results with
  | nil =>
    intro nl flags _
    simp [_netlink_handler_recv, spec_pages]
  | cons r rest ih =>
    intro nl flags hsize
    rw [List.length_cons] at hsize
    have hmul : pagesize * (rest.length + 1) = pagesize * rest.length + pagesize := by ring
    simp only [_netlink_handler_recv, spec_pages]
    by_cases h1 : r.ret < 0
    · rw [if_pos h1, if_pos h1]
      simp
    · rw [if_neg h1, if_neg h1]
      by_cases h2 : (nl.in_len : Int) < r.ret ∨ r.msg_trunc = true
      · have h2b : r.msg_trunc = true ∨ (nl.in_len : Int) < r.ret := h2.symm
        rw [if_pos h2, if_pos h2b]
        by_cases h3 : r.realloc_ok = true
        · rw [if_pos h3, if_pos h3]
          have hmod : (nl.in_len + pagesize) % 18446744073709551616 =
              nl.in_len + pagesize := by
            apply Nat.mod_eq_of_lt
            have : 0 ≤ pagesize * rest.length := Nat.zero_le _
            omega
          have i1 := ih { nl with in_len := (nl.in_len + pagesize) % 18446744073709551616 }
            flags (by dsimp only; rw [hmod]; omega)
          dsimp only at i1 ⊢
          rw [List.count_cons_self, i1, hmod]
          omega
        · rw [if_neg h3, if_neg h3]
          simp
      · have h2b : ¬ (r.msg_trunc = true ∨ (nl.in_len : Int) < r.ret) :=
          fun h => h2 h.symm
        rw [if_neg h2, if_neg h2b]
        by_cases h4 : flags = true
        · rw [if_pos h4, if_pos h4]
          have i1 := ih nl false (by omega)
          dsimp only
          rw [List.count_cons_of_ne (by decide), i1]
        · rw [if_neg h4, if_neg h4]
          simp

theorem recv_enlarged (pagesize : Nat) (r : recvmsg_result) (rest : List recvmsg_result)
    (nl : os_system_netlink) (flags : Bool) (hret : 0 ≤ r.ret)
    (htrunc : r.msg_trunc = true ∨ (nl.in_len : Int) < r.ret)
    (hrealloc : r.realloc_ok = true) :
    (_netlink_handler_recv pagesize (r :: rest) nl flags).nl =
      (_netlink_handler_recv pagesize rest
        { nl with in_len := (nl.in_len + pagesize) % 18446744073709551616 } flags).nl ∧
    (_netlink_handler_recv pagesize (r :: rest) nl flags).received =
      (_netlink_handler_recv pagesize rest
        { nl with in_len := (nl.in_len + pagesize) % 18446744073709551616 }
        flags).received := by
  have h1 : ¬ r.ret < 0 := by omega
  simp only [_netlink_handler_recv, if_neg h1, if_pos htrunc.symm, if_pos hrealloc]
  exact ⟨trivial, trivial⟩

/-- C28, as stated, fails: a fresh handler with a buffer of one page of 4096
bytes gets a peek that is reported as truncated, and `realloc` fails. The pass
ends and the buffer still has 4096 bytes, not one page more. -/
theorem C28_failed_realloc_keeps_length :
    fresh_transport.nl.in_len = 4096 ∧
    (_netlink_handler_readable 4096
      [{ ret := 4096, msg_trunc := true, realloc_ok := false }] []
      fresh_transport.nl).1.in_len = 4096 ∧
    (_netlink_handler_readable 4096
      [{ ret := 4096, msg_trunc := true, realloc_ok := false }] []
      fresh_transport.nl).2.2 = [RecvEvent.no_memory] := by
  decide

/-- C28, amended: take a receive pass of a handler over any sequence of
results of recvmsg (peeks and reads) and any block of headers, the length of
the inbound buffer staying in the range of `size_t`. The length after the pass
is the length before it plus one page for each peek or read of the pass that
is reported as truncated or as larger than the buffer and for which `realloc`
succeeds, and it is not changed otherwise: it is at least the length before; a
first result that is truncated or too large enlarges the buffer by exactly one
page before the pass goes on with the next result, if `realloc` succeeds, and
ends the pass with the length unchanged if `realloc` fails; the length is
unchanged when every result fits and none is truncated. The length after
os_system_netlink_add is one page. -/
theorem C28_inbound_buffer_grows_by_pages (pagesize : Nat)
    (results : List recvmsg_result) (block : List nlmsghdr) (nl : os_system_netlink)
    (hsize : nl.in_len + pagesize * results.length < 18446744073709551616) :
    (_netlink_handler_readable pagesize results block nl).1.in_len =
      nl.in_len + pagesize * spec_pages pagesize results nl.in_len true ∧
    nl.in_len ≤ (_netlink_handler_readable pagesize results block nl).1.in_len ∧
    (∀ r rest, results = r :: rest → 0 ≤ r.ret →
      r.msg_trunc = true ∨ (nl.in_len : Int) < r.ret → r.realloc_ok = true →
      (_netlink_handler_readable pagesize results block nl).1 =
        (_netlink_handler_readable pagesize rest block
          { nl with in_len := nl.in_len + pagesize }).1 ∧
      nl.in_len + pagesize ≤
        (_netlink_handler_readable pagesize results block nl).1.in_len) ∧
    (∀ r rest, results = r :: rest → 0 ≤ r.ret →
      r.msg_trunc = true ∨ (nl.in_len : Int) < r.ret → r.realloc_ok = false →
      (_netlink_handler_readable pagesize results block nl).1 = nl) ∧
    ((∀ r ∈ results, r.msg_trunc = false ∧ r.ret ≤ (nl.in_len : Int)) →
      (_netlink_handler_readable pagesize results block nl).1.in_len = nl.in_len) ∧
    (_netlink_handler_readable pagesize results block nl).2.2.count RecvEvent.truncated =
      spec_pages pagesize results nl.in_len true ∧
    (∀ (nl0 : os_system_netlink) (fd : Int),
      (os_system_netlink_add nl0 fd pagesize).in_len = pagesize) := by
  obtain ⟨e1, e2⟩ := readable_eq pagesize results block nl
  have hpages := recv_pages pagesize results nl true hsize
  refine ⟨by rw [e1, hpages], ?_, ?_, ?_, ?_, ?_, fun _ _ => rfl⟩
  · rw [e1, hpages]
    exact Nat.le_add_right _ _
  · intro r rest hres hret htrunc hrealloc
    subst hres
    rw [List.length_cons] at hsize
    have hmod : (nl.in_len + pagesize) % 18446744073709551616 = nl.in_len + pagesize := by
      apply Nat.mod_eq_of_lt
      have : 0 ≤ pagesize * rest.length := Nat.zero_le _
      have hmul : pagesize * (rest.length + 1) = pagesize * rest.length + pagesize := by
        ring
      omega
    obtain ⟨k1, k2⟩ := recv_enlarged pagesize r rest nl true hret htrunc hrealloc
    rw [hmod] at k1 k2
    have heq : (_netlink_handler_readable pagesize (r :: rest) block nl).1 =
        (_netlink_handler_readable pagesize rest block
          { nl with in_len := nl.in_len + pagesize }).1 := by
      unfold _netlink_handler_readable
      rw [k1, k2]
      cases (_netlink_handler_recv pagesize rest
        { nl with in_len := nl.in_len + pagesize } true).received <;> rfl
    refine ⟨heq, ?_⟩
    rw [e1, hpages]
    have h1 : ¬ r.ret < 0 := by omega
    simp only [spec_pages, if_neg h1, if_pos htrunc, hrealloc, if_true]
    have : pagesize * (1 + spec_pages pagesize rest (nl.in_len + pagesize) true) =
        pagesize + pagesize * spec_pages pagesize rest (nl.in_len + pagesize) true := by
      ring
    omega
  · intro r rest hres hret htrunc hrealloc
    subst hres
    have h1 : ¬ r.ret < 0 := by omega
    unfold _netlink_handler_readable
    simp only [_netlink_handler_recv, if_neg h1, if_pos htrunc.symm, hrealloc,
      Bool.false_eq_true, if_false]
  · intro hfit
    rw [e1, (recv_fits pagesize results nl true hfit).1]
  · rw [e2]
    exact recv_count_pages pagesize results nl true hsize

/-- C28 at a concrete input: a fresh handler with a page of 4096 bytes peeks
at a block of 5000 bytes; the first peek is truncated, the second peek and the
read fit. The buffer has 8192 bytes afterwards. -/
theorem C28_inbound_buffer_grows_by_pages_witness :
    (_netlink_handler_readable 4096
      [{ ret := 4096, msg_trunc := true, realloc_ok := true },
       { ret := 5000, msg_trunc := false, realloc_ok := true },
       { ret := 5000, msg_trunc := false, realloc_ok := true }]
      [example_done 1] fresh_transport.nl).1.in_len = 8192 ∧
    (_netlink_handler_readable 4096
      [{ ret := 4096, msg_trunc := true, realloc_ok := true },
       { ret := 5000, msg_trunc := false, realloc_ok := true },
       { ret := 5000, msg_trunc := false, realloc_ok := true }]
      [example_done 1] fresh_transport.nl).2.2 =
      [RecvEvent.truncated, RecvEvent.peeked, RecvEvent.read] :=
  ⟨(C28_inbound_buffer_grows_by_pages 4096
      [{ ret := 4096, msg_trunc := true, realloc_ok := true },
       { ret := 5000, msg_trunc := false, realloc_ok := true },
       { ret := 5000, msg_trunc := false, realloc_ok := true }]
      [example_done 1] fresh_transport.nl (by decide)).1.trans (by decide),
   by decide⟩

/-! ## C23: the family-table reply -/

theorem newfamily_groups_none (setsockopt : Nat → Int) (gs : List mcast_grp) :
    (∀ x ∈ gs, ∀ m i, x.name = some m → x.id = some i → strcmp m mlme_name ≠ 0) →
    _parse_cmd_newfamily_groups setsockopt gs = none := by
  induction gs with
  | nil => intro _; rfl
  | cons x rest ih =>
    intro h
    have hrest := ih (fun y hy => h y (List.mem_cons_of_mem _ hy))
    have hx := h x (List.mem_cons_self _ _)
    cases hxn : x.name with
    | none => simp only [_parse_cmd_newfamily_groups, hxn, hrest]
    | some m =>
      cases hxi : x.id with
      | none => simp only [_parse_cmd_newfamily_groups, hxn, hxi, hrest]
      | some i =>
        simp only [_parse_cmd_newfamily_groups, hxn, hxi, hrest, if_pos (hx m i hxn hxi)]

theorem newfamily_groups_first (setsockopt : Nat → Int) (g : mcast_grp)
    (post : List mcast_grp) (n : List Nat) (gid : Mem)
    (hname : g.name = some n) (hmlme : strcmp n mlme_name = 0) (hid : g.id = some gid)
    (pre : List mcast_grp) :
    (∀ x ∈ pre, ∀ m i, x.name = some m → x.id = some i → strcmp m mlme_name ≠ 0) →
    _parse_cmd_newfamily_groups setsockopt (pre ++ g :: post) =
      some (nla_get_u32 gid, if setsockopt (nla_get_u32 gid) ≠ 0 then -1 else 0) := by
  induction pre with
  | nil =>
    intro _
    rw [List.nil_append]
    simp only [_parse_cmd_newfamily_groups, hname, hid, hmlme, ne_eq, not_true_eq_false,
      if_false, os_system_netlink_add_mc]
    split_ifs <;> rfl
  | cons x rest ih =>
    intro hpre
    have hrest := ih (fun y hy => hpre y (List.mem_cons_of_mem _ hy))
    have hx := hpre x (List.mem_cons_self _ _)
    rw [List.cons_append]
    cases hxn : x.name with
    | none => simp only [_parse_cmd_newfamily_groups, hxn, hrest]
    | some m =>
      cases hxi : x.id with
      | none => simp only [_parse_cmd_newfamily_groups, hxn, hxi, hrest]
      | some i =>
        simp only [_parse_cmd_newfamily_groups, hxn, hxi, hrest, if_pos (hx m i hxn hxi)]

/-- C23, as stated, fails: the reply names nl80211 (id 28) and lists the group
mlme (id 8), multicast is not joined, and the kernel refuses the membership
(setsockopt returns -1). The driver records the family id and calls
os_system_netlink_add_mc for group 8, which returns -1, and it does not mark
multicast-joined. -/
theorem C23_refused_join_is_not_marked :
    _parse_cmd_newfamily (fun _ => -1) initial_family 0 example_newfamily =
      ({ _nl80211_id := 28, _nl80211_mc_set := false }, [[8]]) ∧
    os_system_netlink_add_mc (fun _ => -1) [8] = (-1, []) := by
  decide

/-- C23, amended: take a family-table reply that parses and holds a family id
and a family name. If the name differs from "nl80211", neither the stored
family id nor the multicast-joined mark changes and nothing is joined. If the
name is "nl80211", the driver stores the 32 bits read at the family id
attribute, which is the 16 bit family id of the reply when the two padding
bytes of the attribute are 0. If multicast is already joined or the reply has
no multicast groups, nothing is joined and the mark is unchanged; the same
holds if no listed group has a name, an id and the name "mlme". Otherwise let
g be the first listed group with a name, an id and the name "mlme": the driver
calls os_system_netlink_add_mc once, with the id of g alone, and it marks
multicast-joined exactly when setsockopt accepts the membership. -/
theorem C23_newfamily_records_id_and_joins_mlme (setsockopt : Nat → Int)
    (st : nl80211_family) (nlmsg_parse_ret : Int) (attrs : ctrl_attrs)
    (fid : Mem) (name : List Nat)
    (hparse : 0 ≤ nlmsg_parse_ret)
    (hfid : attrs.family_id = some fid) (hname : attrs.family_name = some name) :
    (strcmp name nl80211_name ≠ 0 →
      _parse_cmd_newfamily setsockopt st nlmsg_parse_ret attrs = (st, [])) ∧
    (strcmp name nl80211_name = 0 →
      (_parse_cmd_newfamily setsockopt st nlmsg_parse_ret attrs).1._nl80211_id =
        wrap_int32 (nla_get_u32 fid) ∧
      (get_u16 fid 2 = 0 →
        (_parse_cmd_newfamily setsockopt st nlmsg_parse_ret attrs).1._nl80211_id =
          (nla_get_u16 fid : Int)) ∧
      (st._nl80211_mc_set = true ∨ attrs.mcast_groups = none →
        (_parse_cmd_newfamily setsockopt st nlmsg_parse_ret attrs).2 = [] ∧
        (_parse_cmd_newfamily setsockopt st nlmsg_parse_ret attrs).1._nl80211_mc_set =
          st._nl80211_mc_set) ∧
      (∀ gs, st._nl80211_mc_set = false → attrs.mcast_groups = some gs →
        (∀ x ∈ gs, ∀ m i, x.name = some m → x.id = some i → strcmp m mlme_name ≠ 0) →
        (_parse_cmd_newfamily setsockopt st nlmsg_parse_ret attrs).2 = [] ∧
        (_parse_cmd_newfamily setsockopt st nlmsg_parse_ret attrs).1._nl80211_mc_set =
          false) ∧
      (∀ pre g post n gid, st._nl80211_mc_set = false →
        attrs.mcast_groups = some (pre ++ g :: post) →
        (∀ x ∈ pre, ∀ m i, x.name = some m → x.id = some i → strcmp m mlme_name ≠ 0) →
        g.name = some n → strcmp n mlme_name = 0 → g.id = some gid →
        (_parse_cmd_newfamily setsockopt st nlmsg_parse_ret attrs).2 =
          [[nla_get_u32 gid]] ∧
        os_system_netlink_add_mc setsockopt [nla_get_u32 gid] =
          (if setsockopt (nla_get_u32 gid) = 0 then (0, [nla_get_u32 gid]) else (-1, [])) ∧
        ((_parse_cmd_newfamily setsockopt st nlmsg_parse_ret attrs).1._nl80211_mc_set =
          true ↔ setsockopt (nla_get_u32 gid) = 0))) := by
  have hp : ¬ nlmsg_parse_ret < 0 := by omega
  refine ⟨?_, ?_⟩
  · intro hnl
    simp only [_parse_cmd_newfamily, if_neg hp, hname, hfid, if_pos hnl]
  · intro hnl
    have hid : (_parse_cmd_newfamily setsockopt st nlmsg_parse_ret attrs).1._nl80211_id =
        wrap_int32 (nla_get_u32 fid) := by
      simp only [_parse_cmd_newfamily, if_neg hp, hfid, hname, hnl, ne_eq,
        not_true_eq_false, if_false]
      cases hs : st._nl80211_mc_set with
      | true => rfl
      | false =>
        cases hg : attrs.mcast_groups with
        | none => rfl
        | some groups =>
          dsimp only
          cases hl : _parse_cmd_newfamily_groups setsockopt groups with
          | none => rfl
          | some r => rfl
    refine ⟨hid, ?_, ?_, ?_, ?_⟩
    · intro hpad
      rw [hid]
      have hlt := get_u16_lt fid 0
      unfold nla_get_u32 nla_get_u16 get_u32 wrap_int32
      rw [Nat.zero_add, hpad]
      omega
    · intro hor
      cases hs : st._nl80211_mc_set with
      | true =>
        simp only [_parse_cmd_newfamily, if_neg hp, hfid, hname, hnl, ne_eq,
          not_true_eq_false, if_false, hs]
        exact ⟨trivial, trivial⟩
      | false =>
        have hg : attrs.mcast_groups = none := by
          rcases hor with h | h
          · rw [hs] at h
            exact Bool.noConfusion h
          · exact h
        simp only [_parse_cmd_newfamily, if_neg hp, hfid, hname, hnl, ne_eq,
          not_true_eq_false, if_false, hs, hg]
        exact ⟨trivial, trivial⟩
    · intro gs hset hgroups hnone
      have hloop := newfamily_groups_none setsockopt gs hnone
      simp only [_parse_cmd_newfamily, if_neg hp, hfid, hname, hnl, ne_eq,
        not_true_eq_false, if_false, hset, hgroups, hloop]
      exact ⟨trivial, trivial⟩
    · intro pre g post n gid hset hgroups hpre hgn hmlme hgid
      have hloop := newfamily_groups_first setsockopt g post n gid hgn hmlme hgid pre hpre
      simp only [_parse_cmd_newfamily, if_neg hp, hfid, hname, hnl, ne_eq,
        not_true_eq_false, if_false, hset, hgroups, hloop]
      refine ⟨trivial, ?_, ?_⟩
      · by_cases hok : setsockopt (nla_get_u32 gid) = 0
        · simp [os_system_netlink_add_mc, hok]
        · simp [os_system_netlink_add_mc, hok]
      · by_cases hok : setsockopt (nla_get_u32 gid) = 0
        · simp [hok]
        · simp [hok]

/-- C23 at a concrete input: the reply for nl80211 with id 28 lists the groups
config, scan, regulatory and mlme (id 8); the kernel accepts the membership. -/
theorem C23_newfamily_records_id_and_joins_mlme_witness :
    _parse_cmd_newfamily (fun _ => 0) initial_family 0 example_newfamily =
      ({ _nl80211_id := 28, _nl80211_mc_set := true }, [[8]]) ∧
    (_parse_cmd_newfamily (fun _ => 0) initial_family 0 example_newfamily).1._nl80211_id =
      28 :=
  ⟨by decide,
   ((C23_newfamily_records_id_and_joins_mlme (fun _ => 0) initial_family 0
      example_newfamily [28, 0, 0, 0] [110, 108, 56, 48, 50, 49, 49, 0]
      (by decide) rfl rfl).2 (by decide)).2.1 (by decide)⟩

/-! ## C21: one advance of the query iterator -/

theorem strcmp_neg (a : List Nat) : ∀ b : List Nat, strcmp a b = - strcmp b a := by
  induction a with
  | nil =>
    intro b
    cases b with
    | nil => rfl
    | cons y ys => simp [strcmp]
  | cons x xs ih =>
    intro b
    cases b with
    | nil => simp [strcmp]
    | cons y ys =>
      unfold strcmp
      by_cases hxy : x = y
      · subst hxy
        simp only [if_true]
        split_ifs
        · rfl
        · exact ih ys
      · rw [if_neg hxy, if_neg (fun h => hxy h.symm)]
        omega

theorem strcmp_eq_zero (a : List Nat) :
    ∀ b : List Nat, 0 ∉ a → 0 ∉ b → strcmp a b = 0 → a = b := by
  induction a with
  | nil =>
    intro b _ hb h
    cases b with
    | nil => rfl
    | cons y ys =>
      exfalso
      have hy : y ≠ 0 := fun h0 => hb (h0 ▸ List.mem_cons_self _ _)
      simp only [strcmp] at h
      omega
  | cons x xs ih =>
    intro b ha hb h
    have hx : x ≠ 0 := fun h0 => ha (h0 ▸ List.mem_cons_self _ _)
    cases b with
    | nil =>
      exfalso
      simp only [strcmp] at h
      omega
    | cons y ys =>
      unfold strcmp at h
      by_cases hxy : x = y
      · subst hxy
        rw [if_pos rfl, if_neg hx] at h
        rw [ih ys (fun h0 => ha (List.mem_cons_of_mem _ h0))
          (fun h0 => hb (List.mem_cons_of_mem _ h0)) h]
      · rw [if_neg hxy] at h
        omega

theorem exists_first (p : oonf_interface → Bool) (l : List oonf_interface) :
    (∃ x ∈ l, p x = true) →
    ∃ pre e post, l = pre ++ e :: post ∧ (∀ x ∈ pre, p x = false) ∧ p e = true := by
  induction l with
  | nil =>
    intro h
    obtain ⟨x, hx, _⟩ := h
    exact absurd hx (List.not_mem_nil _)
  | cons a rest ih =>
    intro h
    by_cases ha : p a = true
    · exact ⟨[], a, rest, rfl, fun x hx => absurd hx (List.not_mem_nil _), ha⟩
    · have hrest : ∃ x ∈ rest, p x = true := by
        obtain ⟨x, hx, hpx⟩ := h
        rcases List.mem_cons.mp hx with h1 | h1
        · exact absurd (h1 ▸ hpx) ha
        · exact ⟨x, h1, hpx⟩
      obtain ⟨pre, e, post, h1, h2, h3⟩ := ih hrest
      refine ⟨a :: pre, e, post, by rw [h1]; rfl, ?_, h3⟩
      intro x hx
      rcases List.mem_cons.mp hx with h4 | h4
      · rw [h4]
        simpa using ha
      · exact h2 x h4

theorem find_ge_first (pre post : List oonf_interface) (e : oonf_interface)
    (key : List Nat) (hpre : ∀ x ∈ pre, strcmp x.name key < 0)
    (he : 0 ≤ strcmp e.name key) :
    avl_find_ge_element (pre ++ e :: post) key = some pre.length := by
  have hidx : (pre ++ e :: post).findIdx (fun x => decide (0 ≤ strcmp x.name key))
      = pre.length := by
    apply findIdx_middle
    · intro x hx
      have h := hpre x hx
      simp only [decide_eq_false_iff_not, not_le]
      exact h
    · simpa using he
  unfold avl_find_ge_element
  rw [hidx, if_pos (by simp)]

theorem select_ge (pre post : List oonf_interface) (e : oonf_interface) (L : List Nat)
    (q : Nat) (hpre : ∀ x ∈ pre, strcmp x.name L < 0) (he : 0 ≤ strcmp e.name L)
    (hhead : ¬ L.headD 0 = 0) (hne : strcmp L e.name ≠ 0) :
    _cb_transmission_event_select (pre ++ e :: post)
        { _last_queried_if := L, _next_query_type := q } = (some pre.length, q) := by
  have hempty : avl_is_empty (pre ++ e :: post) = false := by
    simp [avl_is_empty]
  unfold _cb_transmission_event_select
  rw [hempty]
  dsimp only
  rw [if_pos (by decide), if_neg hhead, find_ge_first pre post e L hpre he]
  dsimp only
  rw [interface_at_middle, if_neg hne]
  simp only [reduceCtorEq, false_and, if_false]

theorem send_of_query_type (q idx : Nat)
    (hq : q = QUERY_STATION_DUMP ∨ q = QUERY_SCAN_DUMP) :
    _cb_transmission_event_send q idx =
      if q = QUERY_STATION_DUMP then [nl80211_request.get_station_dump idx]
      else [nl80211_request.get_scan_dump idx] := by
  rcases hq with h | h <;> rw [h] <;> rfl

/-- C21: take a registry given in ascending order of names (non-empty C
strings of fewer than IF_NAMESIZE bytes), a non-empty last-queried name L and
a query type q (STATION_DUMP or SCAN_DUMP), and let some interface have a name
greater than L. One call of _cb_transmission_event selects the interface with
the smallest name greater than L, whether or not an interface named L is in
the registry: the call keeps q, stores the name of that interface as the
last-queried name and emits exactly one request, a dump of type q for the
index of that interface. -/
theorem C21_advance_selects_next_greater (tree : List oonf_interface) (L : List Nat)
    (q : Nat)
    (hsorted : tree.Pairwise (fun a b => strcmp a.name b.name < 0))
    (hnames : ∀ e ∈ tree, e.name ≠ [] ∧ 0 ∉ e.name ∧ e.name.length < IF_NAMESIZE)
    (hL : L ≠ []) (hzero : 0 ∉ L)
    (hq : q = QUERY_STATION_DUMP ∨ q = QUERY_SCAN_DUMP)
    (hgreater : ∃ e ∈ tree, strcmp L e.name < 0) :
    ∃ sel ∈ tree,
      strcmp L sel.name < 0 ∧
      (∀ x ∈ tree, strcmp L x.name < 0 → strcmp sel.name x.name ≤ 0) ∧
      _cb_transmission_event tree { _last_queried_if := L, _next_query_type := q } =
        ({ _last_queried_if := sel.name, _next_query_type := q },
         if q = QUERY_STATION_DUMP then [nl80211_request.get_station_dump sel.index]
         else [nl80211_request.get_scan_dump sel.index]) := by
  have hhead := head_of_name L hL hzero
  obtain ⟨pre, e, post, htree, hpre0, he0⟩ :=
    exists_first (fun x => decide (0 ≤ strcmp x.name L)) tree (by
      obtain ⟨g, hg, hlt⟩ := hgreater
      refine ⟨g, hg, ?_⟩
      have := strcmp_neg L g.name
      simp only [decide_eq_true_eq]
      omega)
  have hpre : ∀ x ∈ pre, strcmp x.name L < 0 := by
    intro x hx
    simpa using hpre0 x hx
  have he : 0 ≤ strcmp e.name L := by simpa using he0
  have hpre_not : ∀ x ∈ pre, ¬ strcmp L x.name < 0 := by
    intro x hx
    have h1 := hpre x hx
    have h2 := strcmp_neg L x.name
    omega
  have hsorted2 := hsorted
  rw [htree] at hsorted2
  obtain ⟨_, hs2, _⟩ := List.pairwise_append.mp hsorted2
  obtain ⟨hs3, hs4⟩ := List.pairwise_cons.mp hs2
  have hemem : e ∈ tree := by rw [htree]; simp
  have hE := hnames e hemem
  by_cases heq : strcmp L e.name = 0
  · have hLe : L = e.name := strcmp_eq_zero L e.name hzero hE.2.1 heq
    have hpost : post ≠ [] := by
      intro hnil
      obtain ⟨g, hg, hlt⟩ := hgreater
      rw [htree, hnil] at hg
      rcases List.mem_append.mp hg with h | h
      · exact hpre_not g h hlt
      · rw [List.mem_singleton] at h
        rw [h] at hlt
        omega
    obtain ⟨b, post2, hpost2⟩ := List.exists_cons_of_ne_nil hpost
    rw [hpost2] at htree hs3 hs4
    have hbmem : b ∈ tree := by rw [htree]; simp
    have hEb : strcmp e.name b.name < 0 := hs3 b (List.mem_cons_self _ _)
    refine ⟨b, hbmem, by rw [hLe]; exact hEb, ?_, ?_⟩
    · intro x hx hlt
      rw [htree] at hx
      rcases List.mem_append.mp hx with h | h
      · exact absurd hlt (hpre_not x h)
      · rcases List.mem_cons.mp h with h1 | h1
        · rw [h1] at hlt
          omega
        · rcases List.mem_cons.mp h1 with h2 | h2
          · rw [h2, strcmp_self]
          · exact le_of_lt ((List.pairwise_cons.mp hs4).1 x h2)
    · rw [hLe, event_after tree pre post2 e b q htree hsorted hnames,
        send_of_query_type q b.index hq]
  · have hlt : strcmp L e.name < 0 := by
      have := strcmp_neg L e.name
      omega
    refine ⟨e, hemem, hlt, ?_, ?_⟩
    · intro x hx _
      rw [htree] at hx
      rcases List.mem_append.mp hx with h | h
      · exact absurd (by assumption) (hpre_not x h)
      · rcases List.mem_cons.mp h with h1 | h1
        · rw [h1, strcmp_self]
        · exact le_of_lt (hs3 x h1)
    · have hsel := select_ge pre post e L q hpre he hhead heq
      rw [← htree] at hsel
      have hat : interface_at tree pre.length = e := by
        rw [htree]
        exact interface_at_middle pre post e
      rw [event_select tree _ pre.length q e hsel hat hE.2.1 hE.2.2,
        send_of_query_type q e.index hq]

/-- C21 at concrete inputs: in the registry wlan0, wlan1 the advance after
wlan0 selects wlan1, and so does the advance after the name wlan0a, which no
interface has. -/
theorem C21_advance_selects_next_greater_witness :
    (∃ sel ∈ example_tree,
      _cb_transmission_event example_tree
        { _last_queried_if := [119, 108, 97, 110, 48, 97],
          _next_query_type := QUERY_SCAN_DUMP } =
        ({ _last_queried_if := sel.name, _next_query_type := QUERY_SCAN_DUMP },
         [nl80211_request.get_scan_dump sel.index])) ∧
    _cb_transmission_event example_tree
      { _last_queried_if := [119, 108, 97, 110, 48, 97],
        _next_query_type := QUERY_SCAN_DUMP } =
      ({ _last_queried_if := [119, 108, 97, 110, 49], _next_query_type := QUERY_SCAN_DUMP },
       [nl80211_request.get_scan_dump 4]) :=
  ⟨(C21_advance_selects_next_greater example_tree [119, 108, 97, 110, 48, 97]
      QUERY_SCAN_DUMP (by decide) (by decide) (by decide) (by decide) (Or.inr rfl)
      ⟨{ name := [119, 108, 97, 110, 49], index := 4 }, by decide, by decide⟩).imp
      (fun _ h => ⟨h.1, h.2.2.2⟩),
   by decide⟩

end OONF
